import Mathlib

set_option maxHeartbeats 1000000
set_option maxRecDepth 10000

/-!
Shallow embedding of the CPU tier of the blastem emulator sources:
the MAME-derived Z80 interpreter (src/mame_z80/z80.c, z80.h) and the
Musashi-derived 68k core glue (src/unnamed/part_000).

Machine integers are modelled as Nat (unsigned) or Int (the C `int`
fields), with explicit reductions mod 2^8 / 2^16 / 2^32 at exactly the
points where the C code performs an implicit conversion or where the
C arithmetic wraps.  Pointers into byte or word buffers are modelled as
pairs (buffer id, offset) into a heap of buffers; the null pointer is
`Option.none`.  Fallible paths (null-pointer stores, exhausted fuel for
the interpreter loop) return `Option`.
-/

namespace Z80

/-- Width helpers: reduction mod 2^32 (C uint32_t arithmetic). -/
def u32 (n : Nat) : Nat := n % 4294967296

/-- Reduction of an Int computation into uint32 range (two's complement). -/
def u32i (i : Int) : Nat := (i % 4294967296).toNat

/-- Reinterpret a Nat as a signed 32-bit C int (two's complement). -/
def i32 (n : Nat) : Int :=
  let m := n % 4294967296
  if m < 2147483648 then (m : Int) else (m : Int) - 4294967296

/-- C INT_MIN, the initial value of the local int_icount in z80_run. -/
def INT_MIN : Int := -2147483648

/-- uint32 subtraction a - b (wrapping), both arguments reduced first. -/
def u32sub (a b : Nat) : Nat := (a % 4294967296 + 4294967296 - b % 4294967296) % 4294967296

/-- The CYCLE_NEVER sentinel.  Modelled from the spec: the constant lives in
backend.h which is not among the sources; the spec calls it a sentinel
"never" for pulse windows, and it is compared against uint32 timestamps,
so it is taken to be the maximal uint32 value. -/
def CYCLE_NEVER : Nat := 4294967295

/-- The PAIR union of z80.h: a 32-bit value `d` whose low word `w.l` and
low bytes `b.l` / `b.h` alias the register pair (LSB_FIRST layout). -/
structure Pair where
  d : Nat

/-- PAIR field w.l -/
def Pair.wl (p : Pair) : Nat := p.d % 65536

/-- PAIR field b.l -/
def Pair.bl (p : Pair) : Nat := p.d % 256

/-- PAIR field b.h -/
def Pair.bh (p : Pair) : Nat := p.d / 256 % 256

/-- Assign PAIR field w.l, preserving the upper half of d. -/
def Pair.setW (p : Pair) (v : Nat) : Pair := ⟨p.d - p.d % 65536 + v % 65536⟩

/-- Assign PAIR field b.l, preserving the other bytes of d. -/
def Pair.setBL (p : Pair) (v : Nat) : Pair := ⟨p.d - p.d % 256 + v % 256⟩

/-- Assign PAIR field b.h, preserving the other bytes of d. -/
def Pair.setBH (p : Pair) (v : Nat) : Pair :=
  ⟨p.d % 256 + (p.d - p.d % 65536) + (v % 256) * 256⟩

/-- The z80_device context of z80.h, together with the memory system it
reaches through its pointers.  Byte buffers are a heap `bufs` indexed by a
buffer id; read_pointers / write_pointers hold (buffer id, byte offset)
pairs or none (the null pointer).  `slow_read` and `io_in` are pure
oracles for the callback paths (read_byte / the io map live in mem.c,
which is not among the sources; modelled from the spec, which says reads
return a value and unmapped writes are dropped — callback side-band
mutation of the context is not represented).  `wlog` / `iolog` are ghost
observation logs of the write events (address, value), newest first. -/
structure Z80State where
  m_prvpc : Pair
  m_pc : Pair
  m_sp : Pair
  m_af : Pair
  m_bc : Pair
  m_de : Pair
  m_hl : Pair
  m_ix : Pair
  m_iy : Pair
  m_wz : Pair
  m_af2 : Pair
  m_bc2 : Pair
  m_de2 : Pair
  m_hl2 : Pair
  m_r : Nat
  m_r2 : Nat
  m_iff1 : Nat
  m_iff2 : Nat
  m_halt : Nat
  m_im : Nat
  m_i : Nat
  m_nmi_state : Nat
  m_nmi_pending : Nat
  m_irq_state : Nat
  m_wait_state : Int
  busreq : Int
  busack : Int
  reset : Int
  m_after_ei : Nat
  m_after_ldair : Nat
  m_ea : Nat
  m_icount : Int
  current_cycle : Nat
  nmi_start : Nat
  int_pulse_start : Nat
  int_pulse_end : Nat
  im2_vector : Nat
  m_cc_op : Nat → Nat
  m_cc_cb : Nat → Nat
  m_cc_ed : Nat → Nat
  m_cc_xy : Nat → Nat
  m_cc_xycb : Nat → Nat
  m_cc_ex : Nat → Nat
  read_pointers : Nat → Option (Nat × Nat)
  write_pointers : Nat → Option (Nat × Nat)
  bufs : Nat → Nat → Nat
  slow_read : Nat → Nat
  io_in : Nat → Nat
  io_address_mask : Nat
  clock_divider : Nat
  wlog : List (Nat × Nat)
  iolog : List (Nat × Nat)

/-- Flag bit CF. -/
def CF : Nat := 0x01
/-- Flag bit NF. -/
def NF : Nat := 0x02
/-- Flag bit PF. -/
def PF : Nat := 0x04
/-- Flag bit VF (alias of PF). -/
def VF : Nat := PF
/-- Flag bit XF. -/
def XF : Nat := 0x08
/-- Flag bit HF. -/
def HF : Nat := 0x10
/-- Flag bit YF. -/
def YF : Nat := 0x20
/-- Flag bit ZF. -/
def ZF : Nat := 0x40
/-- Flag bit SF. -/
def SF : Nat := 0x80

/-- Register accessor: A = m_af.b.h -/
def A (z : Z80State) : Nat := z.m_af.bh
/-- Register accessor: F = m_af.b.l -/
def F (z : Z80State) : Nat := z.m_af.bl
/-- Register accessor: B = m_bc.b.h -/
def B (z : Z80State) : Nat := z.m_bc.bh
/-- Register accessor: C = m_bc.b.l -/
def C (z : Z80State) : Nat := z.m_bc.bl
/-- Register accessor: D = m_de.b.h -/
def D (z : Z80State) : Nat := z.m_de.bh
/-- Register accessor: E = m_de.b.l -/
def E (z : Z80State) : Nat := z.m_de.bl
/-- Register accessor: H = m_hl.b.h -/
def H (z : Z80State) : Nat := z.m_hl.bh
/-- Register accessor: L = m_hl.b.l -/
def L (z : Z80State) : Nat := z.m_hl.bl
/-- Register accessor: HX = m_ix.b.h -/
def HX (z : Z80State) : Nat := z.m_ix.bh
/-- Register accessor: LX = m_ix.b.l -/
def LX (z : Z80State) : Nat := z.m_ix.bl
/-- Register accessor: HY = m_iy.b.h -/
def HY (z : Z80State) : Nat := z.m_iy.bh
/-- Register accessor: LY = m_iy.b.l -/
def LY (z : Z80State) : Nat := z.m_iy.bl
/-- Register accessor: WZ_H = m_wz.b.h -/
def WZH (z : Z80State) : Nat := z.m_wz.bh
/-- Register accessor: WZ_L = m_wz.b.l -/
def WZL (z : Z80State) : Nat := z.m_wz.bl
/-- Register accessor: AF = m_af.w.l -/
def AF (z : Z80State) : Nat := z.m_af.wl
/-- Register accessor: BC = m_bc.w.l -/
def BC (z : Z80State) : Nat := z.m_bc.wl
/-- Register accessor: DE = m_de.w.l -/
def DE (z : Z80State) : Nat := z.m_de.wl
/-- Register accessor: HL = m_hl.w.l -/
def HL (z : Z80State) : Nat := z.m_hl.wl
/-- Register accessor: SP = m_sp.w.l -/
def SP (z : Z80State) : Nat := z.m_sp.wl
/-- Register accessor: PC = m_pc.w.l -/
def PC (z : Z80State) : Nat := z.m_pc.wl
/-- Register accessor: IX = m_ix.w.l -/
def IX (z : Z80State) : Nat := z.m_ix.wl
/-- Register accessor: IY = m_iy.w.l -/
def IY (z : Z80State) : Nat := z.m_iy.wl
/-- Register accessor: WZ = m_wz.w.l -/
def WZ (z : Z80State) : Nat := z.m_wz.wl
/-- Register accessor: AFD = m_af.d -/
def AFD (z : Z80State) : Nat := z.m_af.d
/-- Register accessor: PCD = m_pc.d -/
def PCD (z : Z80State) : Nat := z.m_pc.d
/-- Register accessor: SPD = m_sp.d -/
def SPD (z : Z80State) : Nat := z.m_sp.d
/-- Register accessor: HLD = m_hl.d -/
def HLD (z : Z80State) : Nat := z.m_hl.d

/-- Assign register A. -/
def setA (z : Z80State) (v : Nat) : Z80State := { z with m_af := z.m_af.setBH v }
/-- Assign register F. -/
def setF (z : Z80State) (v : Nat) : Z80State := { z with m_af := z.m_af.setBL v }
/-- Assign register B. -/
def setB (z : Z80State) (v : Nat) : Z80State := { z with m_bc := z.m_bc.setBH v }
/-- Assign register C. -/
def setC (z : Z80State) (v : Nat) : Z80State := { z with m_bc := z.m_bc.setBL v }
/-- Assign register D. -/
def setD (z : Z80State) (v : Nat) : Z80State := { z with m_de := z.m_de.setBH v }
/-- Assign register E. -/
def setE (z : Z80State) (v : Nat) : Z80State := { z with m_de := z.m_de.setBL v }
/-- Assign register H. -/
def setH (z : Z80State) (v : Nat) : Z80State := { z with m_hl := z.m_hl.setBH v }
/-- Assign register L. -/
def setL (z : Z80State) (v : Nat) : Z80State := { z with m_hl := z.m_hl.setBL v }
/-- Assign register HX. -/
def setHX (z : Z80State) (v : Nat) : Z80State := { z with m_ix := z.m_ix.setBH v }
/-- Assign register LX. -/
def setLX (z : Z80State) (v : Nat) : Z80State := { z with m_ix := z.m_ix.setBL v }
/-- Assign register HY. -/
def setHY (z : Z80State) (v : Nat) : Z80State := { z with m_iy := z.m_iy.setBH v }
/-- Assign register LY. -/
def setLY (z : Z80State) (v : Nat) : Z80State := { z with m_iy := z.m_iy.setBL v }
/-- Assign WZ_H. -/
def setWZH (z : Z80State) (v : Nat) : Z80State := { z with m_wz := z.m_wz.setBH v }
/-- Assign WZ_L. -/
def setWZL (z : Z80State) (v : Nat) : Z80State := { z with m_wz := z.m_wz.setBL v }
/-- Assign register pair BC (low word). -/
def setBC (z : Z80State) (v : Nat) : Z80State := { z with m_bc := z.m_bc.setW v }
/-- Assign register pair DE (low word). -/
def setDE (z : Z80State) (v : Nat) : Z80State := { z with m_de := z.m_de.setW v }
/-- Assign register pair HL (low word). -/
def setHL (z : Z80State) (v : Nat) : Z80State := { z with m_hl := z.m_hl.setW v }
/-- Assign SP (low word). -/
def setSP (z : Z80State) (v : Nat) : Z80State := { z with m_sp := z.m_sp.setW v }
/-- Assign PC (low word). -/
def setPC (z : Z80State) (v : Nat) : Z80State := { z with m_pc := z.m_pc.setW v }
/-- Assign IX (low word). -/
def setIX (z : Z80State) (v : Nat) : Z80State := { z with m_ix := z.m_ix.setW v }
/-- Assign IY (low word). -/
def setIY (z : Z80State) (v : Nat) : Z80State := { z with m_iy := z.m_iy.setW v }
/-- Assign WZ (low word). -/
def setWZ (z : Z80State) (v : Nat) : Z80State := { z with m_wz := z.m_wz.setW v }

/-- Pointwise update of a buffer heap at (buffer b, index i). -/
def updBufs (f : Nat → Nat → Nat) (b i v : Nat) : Nat → Nat → Nat :=
  fun b2 i2 => if b2 = b ∧ i2 = i then v else f b2 i2

/-- z80.c rm: fast path through read_pointers[addr>>13] indexing
addr & 0x1FFF, else the read_byte callback (slow oracle).  The uint16_t
parameter conversion is the mod 65536. -/
def rm (z : Z80State) (addr : Nat) : Nat :=
  let addr := addr % 65536
  match z.read_pointers (addr >>> 13) with
  | some bo => z.bufs bo.1 (bo.2 + (addr &&& 0x1FFF)) % 256
  | none => z.slow_read addr % 256

/-- z80.c wm: fast path through write_pointers[addr>>13], else the
write_byte callback (modelled from the spec as dropped).  Every write
event is also recorded on the ghost log wlog. -/
def wm (z : Z80State) (addr v : Nat) : Z80State :=
  let addr := addr % 65536
  let v := v % 256
  let z := { z with wlog := (addr, v) :: z.wlog }
  match z.write_pointers (addr >>> 13) with
  | some bo => { z with bufs := updBufs z.bufs bo.1 (bo.2 + (addr &&& 0x1FFF)) v }
  | none => z

/-- z80.c rm16: low byte from addr, high byte from addr+1 (the uint16_t
parameter of rm truncates addr+1, so 0xFFFF wraps to 0x0000).  Only the
two low bytes of the PAIR are assigned, as in the source. -/
def rm16 (z : Z80State) (addr : Nat) (r : Pair) : Pair :=
  let r := r.setBL (rm z addr)
  r.setBH (rm z (addr + 1))

/-- z80.c wm16: write low byte to addr, high byte to addr+1 (wrapping in
the uint16_t parameter of wm). -/
def wm16 (z : Z80State) (addr : Nat) (r : Pair) : Z80State :=
  let z := wm z addr r.bl
  wm z (addr + 1) r.bh

/-- z80.c rop: fetch the byte at PC and post-increment PC. -/
def rop (z : Z80State) : Z80State × Nat :=
  let pc := PCD z
  let z := setPC z (PC z + 1)
  (z, rm z pc)

/-- z80.c arg16: fetch a little-endian word at PC, PC += 2. -/
def arg16 (z : Z80State) : Z80State × Nat :=
  let pc := PCD z
  let z := setPC z (PC z + 2)
  (z, rm z pc ||| (rm z ((pc + 1) &&& 0xffff) <<< 8))

/-- z80.c eax: effective address IX + signed displacement. -/
def eax (z : Z80State) : Z80State :=
  let p := rop z
  let z := p.1
  let o := p.2
  { z with m_ea := (IX z + (if o < 128 then o else o + 65280)) % 65536,
           m_wz := z.m_wz.setW ((IX z + (if o < 128 then o else o + 65280)) % 65536) }

/-- z80.c eay: effective address IY + signed displacement. -/
def eay (z : Z80State) : Z80State :=
  let p := rop z
  let z := p.1
  let o := p.2
  { z with m_ea := (IY z + (if o < 128 then o else o + 65280)) % 65536,
           m_wz := z.m_wz.setW ((IY z + (if o < 128 then o else o + 65280)) % 65536) }

end Z80
namespace Z80

/-- Parity bit counter of init_z80_context (the eight explicit tests). -/
def parity8 (i : Nat) : Nat :=
  (i &&& 0x01) + (i >>> 1 &&& 1) + (i >>> 2 &&& 1) + (i >>> 3 &&& 1) +
  (i >>> 4 &&& 1) + (i >>> 5 &&& 1) + (i >>> 6 &&& 1) + (i >>> 7 &&& 1)

/-- Table SZ built by init_z80_context: sign and zero plus the
undocumented bits 5 and 3 of the value. -/
def SZ (i : Nat) : Nat := (if i = 0 then ZF else i &&& SF) ||| (i &&& (YF ||| XF))

/-- Table SZ_BIT of init_z80_context. -/
def SZ_BIT (i : Nat) : Nat := (if i = 0 then ZF ||| PF else i &&& SF) ||| (i &&& (YF ||| XF))

/-- Table SZP of init_z80_context. -/
def SZP (i : Nat) : Nat := SZ i ||| (if parity8 i % 2 = 1 then 0 else PF)

/-- Table SZHV_inc of init_z80_context. -/
def SZHV_inc (i : Nat) : Nat :=
  SZ i ||| (if i = 0x80 then VF else 0) ||| (if i &&& 0x0f = 0 then HF else 0)

/-- Table SZHV_dec of init_z80_context. -/
def SZHV_dec (i : Nat) : Nat :=
  SZ i ||| NF ||| (if i = 0x7f then VF else 0) ||| (if i &&& 0x0f = 0x0f then HF else 0)

/-- One entry of the no-carry half of SZHVC_add, exactly the loop body of
init_z80_context for `add or adc w/o carry set`.  The C local
`int val = newval - oldval` is signed; only bit 7 of val is consumed, so
val is represented by its low byte in two's complement,
`(newval + 512 - oldval) % 256`. -/
def szhvcAdd0 (oldval newval : Nat) : Nat :=
  let val8 := (newval + 512 - oldval) % 256
  (if newval = 0 then ZF else if newval &&& 0x80 ≠ 0 then SF else 0)
  ||| (newval &&& (YF ||| XF))
  ||| (if newval &&& 0x0f < oldval &&& 0x0f then HF else 0)
  ||| (if newval < oldval then CF else 0)
  ||| (if (val8 ^^^ oldval ^^^ 0x80) &&& (val8 ^^^ newval) &&& 0x80 ≠ 0 then VF else 0)

/-- One entry of the carry half of SZHVC_add (`adc with carry set`),
with `int val = newval - oldval - 1` represented by its low byte. -/
def szhvcAdd1 (oldval newval : Nat) : Nat :=
  let val8 := (newval + 512 - oldval - 1) % 256
  (if newval = 0 then ZF else if newval &&& 0x80 ≠ 0 then SF else 0)
  ||| (newval &&& (YF ||| XF))
  ||| (if newval &&& 0x0f ≤ oldval &&& 0x0f then HF else 0)
  ||| (if newval ≤ oldval then CF else 0)
  ||| (if (val8 ^^^ oldval ^^^ 0x80) &&& (val8 ^^^ newval) &&& 0x80 ≠ 0 then VF else 0)

/-- One entry of the no-carry half of SZHVC_sub (`cp, sub or sbc w/o
carry set`), with `int val = oldval - newval` represented by its low
byte. -/
def szhvcSub0 (oldval newval : Nat) : Nat :=
  let val8 := (oldval + 512 - newval) % 256
  NF ||| (if newval = 0 then ZF else if newval &&& 0x80 ≠ 0 then SF else 0)
  ||| (newval &&& (YF ||| XF))
  ||| (if oldval &&& 0x0f < newval &&& 0x0f then HF else 0)
  ||| (if oldval < newval then CF else 0)
  ||| (if (val8 ^^^ oldval) &&& (oldval ^^^ newval) &&& 0x80 ≠ 0 then VF else 0)

/-- One entry of the carry half of SZHVC_sub (`sbc with carry set`). -/
def szhvcSub1 (oldval newval : Nat) : Nat :=
  let val8 := (oldval + 512 - newval - 1) % 256
  NF ||| (if newval = 0 then ZF else if newval &&& 0x80 ≠ 0 then SF else 0)
  ||| (newval &&& (YF ||| XF))
  ||| (if oldval &&& 0x0f ≤ newval &&& 0x0f then HF else 0)
  ||| (if oldval ≤ newval then CF else 0)
  ||| (if (val8 ^^^ oldval) &&& (oldval ^^^ newval) &&& 0x80 ≠ 0 then VF else 0)

/-- The 131072-entry SZHVC_add table of init_z80_context as a function of
the index.  The builder loop writes, for each (oldval, newval), the
no-carry entry at index oldval*256 + newval (padd starts at offset 0) and
the carry entry at index 65536 + oldval*256 + newval (padc starts at
offset 256*256), each exactly once, so the table value at an in-range
index idx is the entry for oldval = (idx >>> 8) &&& 255, newval =
idx &&& 255, with the carry half selected by idx >= 65536. -/
def SZHVC_add (idx : Nat) : Nat :=
  if idx < 65536 then szhvcAdd0 ((idx >>> 8) &&& 255) (idx &&& 255)
  else szhvcAdd1 ((idx >>> 8) &&& 255) (idx &&& 255)

/-- The SZHVC_sub table of init_z80_context, indexed like SZHVC_add. -/
def SZHVC_sub (idx : Nat) : Nat :=
  if idx < 65536 then szhvcSub0 ((idx >>> 8) &&& 255) (idx &&& 255)
  else szhvcSub1 ((idx >>> 8) &&& 255) (idx &&& 255)

/-- Cycle table cc_op of z80.c. -/
def cc_op_list : List Nat :=
  [4,10, 7, 6, 4, 4, 7, 4, 4,11, 7, 6, 4, 4, 7, 4,
   8,10, 7, 6, 4, 4, 7, 4,12,11, 7, 6, 4, 4, 7, 4,
   7,10,16, 6, 4, 4, 7, 4, 7,11,16, 6, 4, 4, 7, 4,
   7,10,13, 6,11,11,10, 4, 7,11,13, 6, 4, 4, 7, 4,
   4, 4, 4, 4, 4, 4, 7, 4, 4, 4, 4, 4, 4, 4, 7, 4,
   4, 4, 4, 4, 4, 4, 7, 4, 4, 4, 4, 4, 4, 4, 7, 4,
   4, 4, 4, 4, 4, 4, 7, 4, 4, 4, 4, 4, 4, 4, 7, 4,
   7, 7, 7, 7, 7, 7, 4, 7, 4, 4, 4, 4, 4, 4, 7, 4,
   4, 4, 4, 4, 4, 4, 7, 4, 4, 4, 4, 4, 4, 4, 7, 4,
   4, 4, 4, 4, 4, 4, 7, 4, 4, 4, 4, 4, 4, 4, 7, 4,
   4, 4, 4, 4, 4, 4, 7, 4, 4, 4, 4, 4, 4, 4, 7, 4,
   4, 4, 4, 4, 4, 4, 7, 4, 4, 4, 4, 4, 4, 4, 7, 4,
   5,10,10,10,10,11, 7,11, 5,10,10, 0,10,17, 7,11,
   5,10,10,11,10,11, 7,11, 5, 4,10,11,10, 0, 7,11,
   5,10,10,19,10,11, 7,11, 5, 4,10, 4,10, 0, 7,11,
   5,10,10, 4,10,11, 7,11, 5, 6,10, 4,10, 0, 7,11]

/-- cc_op as a function. -/
def cc_op (i : Nat) : Nat := cc_op_list.getD i 0

/-- Cycle table cc_cb of z80.c. -/
def cc_cb_list : List Nat :=
  [8, 8, 8, 8, 8, 8,15, 8, 8, 8, 8, 8, 8, 8,15, 8,
   8, 8, 8, 8, 8, 8,15, 8, 8, 8, 8, 8, 8, 8,15, 8,
   8, 8, 8, 8, 8, 8,15, 8, 8, 8, 8, 8, 8, 8,15, 8,
   8, 8, 8, 8, 8, 8,15, 8, 8, 8, 8, 8, 8, 8,15, 8,
   8, 8, 8, 8, 8, 8,12, 8, 8, 8, 8, 8, 8, 8,12, 8,
   8, 8, 8, 8, 8, 8,12, 8, 8, 8, 8, 8, 8, 8,12, 8,
   8, 8, 8, 8, 8, 8,12, 8, 8, 8, 8, 8, 8, 8,12, 8,
   8, 8, 8, 8, 8, 8,12, 8, 8, 8, 8, 8, 8, 8,12, 8,
   8, 8, 8, 8, 8, 8,15, 8, 8, 8, 8, 8, 8, 8,15, 8,
   8, 8, 8, 8, 8, 8,15, 8, 8, 8, 8, 8, 8, 8,15, 8,
   8, 8, 8, 8, 8, 8,15, 8, 8, 8, 8, 8, 8, 8,15, 8,
   8, 8, 8, 8, 8, 8,15, 8, 8, 8, 8, 8, 8, 8,15, 8,
   8, 8, 8, 8, 8, 8,15, 8, 8, 8, 8, 8, 8, 8,15, 8,
   8, 8, 8, 8, 8, 8,15, 8, 8, 8, 8, 8, 8, 8,15, 8,
   8, 8, 8, 8, 8, 8,15, 8, 8, 8, 8, 8, 8, 8,15, 8,
   8, 8, 8, 8, 8, 8,15, 8, 8, 8, 8, 8, 8, 8,15, 8]

/-- cc_cb as a function. -/
def cc_cb (i : Nat) : Nat := cc_cb_list.getD i 0

/-- Cycle table cc_ed of z80.c. -/
def cc_ed_list : List Nat :=
  [8, 8, 8, 8, 8, 8, 8, 8, 8, 8, 8, 8, 8, 8, 8, 8,
   8, 8, 8, 8, 8, 8, 8, 8, 8, 8, 8, 8, 8, 8, 8, 8,
   8, 8, 8, 8, 8, 8, 8, 8, 8, 8, 8, 8, 8, 8, 8, 8,
   8, 8, 8, 8, 8, 8, 8, 8, 8, 8, 8, 8, 8, 8, 8, 8,
   12,12,15,20, 8,14, 8, 9,12,12,15,20, 8,14, 8, 9,
   12,12,15,20, 8,14, 8, 9,12,12,15,20, 8,14, 8, 9,
   12,12,15,20, 8,14, 8,18,12,12,15,20, 8,14, 8,18,
   12,12,15,20, 8,14, 8, 8,12,12,15,20, 8,14, 8, 8,
   8, 8, 8, 8, 8, 8, 8, 8, 8, 8, 8, 8, 8, 8, 8, 8,
   8, 8, 8, 8, 8, 8, 8, 8, 8, 8, 8, 8, 8, 8, 8, 8,
   16,16,16,16, 8, 8, 8, 8,16,16,16,16, 8, 8, 8, 8,
   16,16,16,16, 8, 8, 8, 8,16,16,16,16, 8, 8, 8, 8,
   8, 8, 8, 8, 8, 8, 8, 8, 8, 8, 8, 8, 8, 8, 8, 8,
   8, 8, 8, 8, 8, 8, 8, 8, 8, 8, 8, 8, 8, 8, 8, 8,
   8, 8, 8, 8, 8, 8, 8, 8, 8, 8, 8, 8, 8, 8, 8, 8,
   8, 8, 8, 8, 8, 8, 8, 8, 8, 8, 8, 8, 8, 8, 8, 8]

/-- cc_ed as a function. -/
def cc_ed (i : Nat) : Nat := cc_ed_list.getD i 0

/-- Cycle table cc_xy of z80.c. -/
def cc_xy_list : List Nat :=
  [8,14,11,10, 8, 8,11, 8, 8,15,11,10, 8, 8,11, 8,
   12,14,11,10, 8, 8,11, 8,16,15,11,10, 8, 8,11, 8,
   11,14,20,10, 8, 8,11, 8,11,15,20,10, 8, 8,11, 8,
   11,14,17,10,23,23,19, 8,11,15,17,10, 8, 8,11, 8,
   8, 8, 8, 8, 8, 8,19, 8, 8, 8, 8, 8, 8, 8,19, 8,
   8, 8, 8, 8, 8, 8,19, 8, 8, 8, 8, 8, 8, 8,19, 8,
   8, 8, 8, 8, 8, 8,19, 8, 8, 8, 8, 8, 8, 8,19, 8,
   19,19,19,19,19,19, 8,19, 8, 8, 8, 8, 8, 8,19, 8,
   8, 8, 8, 8, 8, 8,19, 8, 8, 8, 8, 8, 8, 8,19, 8,
   8, 8, 8, 8, 8, 8,19, 8, 8, 8, 8, 8, 8, 8,19, 8,
   8, 8, 8, 8, 8, 8,19, 8, 8, 8, 8, 8, 8, 8,19, 8,
   8, 8, 8, 8, 8, 8,19, 8, 8, 8, 8, 8, 8, 8,19, 8,
   9,14,14,14,14,15,11,15, 9,14,14, 0,14,21,11,15,
   9,14,14,15,14,15,11,15, 9, 8,14,15,14, 4,11,15,
   9,14,14,23,14,15,11,15, 9, 8,14, 8,14, 4,11,15,
   9,14,14, 8,14,15,11,15, 9,10,14, 8,14, 4,11,15]

/-- cc_xy as a function. -/
def cc_xy (i : Nat) : Nat := cc_xy_list.getD i 0

/-- Cycle table cc_xycb of z80.c: 20 in the BIT rows 0x40..0x7F, 23
elsewhere (the source spells this as sixteen rows of constants). -/
def cc_xycb (i : Nat) : Nat :=
  if i < 256 then (if 0x40 ≤ i ∧ i ≤ 0x7f then 20 else 23) else 0

/-- Cycle table cc_ex of z80.c. -/
def cc_ex_list : List Nat :=
  [0, 0, 0, 0, 0, 0, 0, 0, 0, 0, 0, 0, 0, 0, 0, 0,
   5, 0, 0, 0, 0, 0, 0, 0, 0, 0, 0, 0, 0, 0, 0, 0,
   5, 0, 0, 0, 0, 0, 0, 0, 5, 0, 0, 0, 0, 0, 0, 0,
   5, 0, 0, 0, 0, 0, 0, 0, 5, 0, 0, 0, 0, 0, 0, 0,
   0, 0, 0, 0, 0, 0, 0, 0, 0, 0, 0, 0, 0, 0, 0, 0,
   0, 0, 0, 0, 0, 0, 0, 0, 0, 0, 0, 0, 0, 0, 0, 0,
   0, 0, 0, 0, 0, 0, 0, 0, 0, 0, 0, 0, 0, 0, 0, 0,
   0, 0, 0, 0, 0, 0, 0, 0, 0, 0, 0, 0, 0, 0, 0, 0,
   0, 0, 0, 0, 0, 0, 0, 0, 0, 0, 0, 0, 0, 0, 0, 0,
   0, 0, 0, 0, 0, 0, 0, 0, 0, 0, 0, 0, 0, 0, 0, 0,
   0, 0, 0, 0, 0, 0, 0, 0, 0, 0, 0, 0, 0, 0, 0, 0,
   5, 5, 5, 5, 0, 0, 0, 0, 5, 5, 5, 5, 0, 0, 0, 0,
   6, 0, 0, 0, 7, 0, 0, 2, 6, 0, 0, 0, 7, 0, 0, 2,
   6, 0, 0, 0, 7, 0, 0, 2, 6, 0, 0, 0, 7, 0, 0, 2,
   6, 0, 0, 0, 7, 0, 0, 2, 6, 0, 0, 0, 7, 0, 0, 2,
   6, 0, 0, 0, 7, 0, 0, 2, 6, 0, 0, 0, 7, 0, 0, 2]

/-- cc_ex as a function. -/
def cc_ex (i : Nat) : Nat := cc_ex_list.getD i 0

/-- The CC(prefix, opcode) deduction for the main page (via the
swappable per-context table). -/
def ccOp (z : Z80State) (o : Nat) : Z80State :=
  { z with m_icount := z.m_icount - (z.m_cc_op o : Int) }
/-- CC deduction, CB page. -/
def ccCb (z : Z80State) (o : Nat) : Z80State :=
  { z with m_icount := z.m_icount - (z.m_cc_cb o : Int) }
/-- CC deduction, ED page. -/
def ccEd (z : Z80State) (o : Nat) : Z80State :=
  { z with m_icount := z.m_icount - (z.m_cc_ed o : Int) }
/-- CC deduction, DD/FD page (m_cc_dd and m_cc_fd alias m_cc_xy). -/
def ccXy (z : Z80State) (o : Nat) : Z80State :=
  { z with m_icount := z.m_icount - (z.m_cc_xy o : Int) }
/-- CC deduction, DDCB/FDCB page. -/
def ccXycb (z : Z80State) (o : Nat) : Z80State :=
  { z with m_icount := z.m_icount - (z.m_cc_xycb o : Int) }
/-- CC deduction, taken-branch extra table. -/
def ccEx (z : Z80State) (o : Nat) : Z80State :=
  { z with m_icount := z.m_icount - (z.m_cc_ex o : Int) }

/-- z80.c halt: decrement PC and set the halt flag. -/
def halt (z : Z80State) : Z80State :=
  let z := setPC z (PC z + 65535)
  { z with m_halt := 1 }

/-- z80.c leave_halt. -/
def leave_halt (z : Z80State) : Z80State :=
  if z.m_halt ≠ 0 then
    let z := { z with m_halt := 0 }
    setPC z (PC z + 1)
  else z

/-- z80.c in: a byte from the io map; read_byte over the io chunks lives
in mem.c (not among the sources) and is modelled from the spec as a pure
oracle that returns a value. -/
def in_ (z : Z80State) (port : Nat) : Nat := z.io_in (port % 65536) % 256

/-- z80.c out: a byte to the io map; write_byte over the io chunks is
modelled from the spec (callbacks consume the write; no memory in this
model changes), observed on the ghost log iolog with the same
`port & io_address_mask` masking the source applies. -/
def out (z : Z80State) (port v : Nat) : Z80State :=
  { z with iolog := ((port % 65536) &&& z.io_address_mask, v % 256) :: z.iolog }

/-- z80.c pop: read a word at SP into the pair, SP += 2. -/
def pop (z : Z80State) (r : Pair) : Z80State × Pair :=
  let r := rm16 z (SPD z) r
  (setSP z (SP z + 2), r)

/-- z80.c push: SP -= 2, write the pair at SP. -/
def push (z : Z80State) (r : Pair) : Z80State :=
  let z := setSP z (SP z + 65534)
  wm16 z (SPD z) r

/-- z80.c jp. -/
def jp (z : Z80State) : Z80State :=
  let p := arg16 z
  let z := { p.1 with m_pc := ⟨p.2⟩ }
  setWZ z (PCD z)

/-- z80.c jp_cond. -/
def jp_cond (z : Z80State) (cond : Bool) : Z80State :=
  if cond then
    let p := arg16 z
    let z := { p.1 with m_pc := ⟨p.2⟩ }
    setWZ z (PCD z)
  else
    let p := arg16 z
    setWZ p.1 p.2

/-- z80.c jr: signed relative jump. -/
def jr (z : Z80State) : Z80State :=
  let p := rop z
  let z := p.1
  let a := p.2
  let z := setPC z (PC z + (if a < 128 then a else a + 65280))
  setWZ z (PC z)

/-- z80.c jr_cond: taken branch charges cc_ex, else skip the displacement. -/
def jr_cond (z : Z80State) (cond : Bool) (opcode : Nat) : Z80State :=
  if cond then ccEx (jr z) opcode
  else setPC z (PC z + 1)

/-- z80.c call. -/
def call (z : Z80State) : Z80State :=
  let p := arg16 z
  let z := { p.1 with m_ea := p.2 }
  let z := setWZ z z.m_ea
  let z := push z z.m_pc
  { z with m_pc := ⟨z.m_ea⟩ }

/-- z80.c call_cond. -/
def call_cond (z : Z80State) (cond : Bool) (opcode : Nat) : Z80State :=
  if cond then
    let p := arg16 z
    let z := { p.1 with m_ea := p.2 }
    let z := setWZ z z.m_ea
    let z := push z z.m_pc
    let z := { z with m_pc := ⟨z.m_ea⟩ }
    ccEx z opcode
  else
    let p := arg16 z
    setWZ p.1 p.2

/-- z80.c ret_cond. -/
def ret_cond (z : Z80State) (cond : Bool) (opcode : Nat) : Z80State :=
  if cond then
    let p := pop z z.m_pc
    let z := { p.1 with m_pc := p.2 }
    let z := setWZ z (PC z)
    ccEx z opcode
  else z

/-- z80.c retn. -/
def retn (z : Z80State) : Z80State :=
  let p := pop z z.m_pc
  let z := { p.1 with m_pc := p.2 }
  let z := setWZ z (PC z)
  { z with m_iff1 := z.m_iff2 }

/-- z80.c reti. -/
def reti (z : Z80State) : Z80State :=
  let p := pop z z.m_pc
  let z := { p.1 with m_pc := p.2 }
  let z := setWZ z (PC z)
  { z with m_iff1 := z.m_iff2 }

/-- z80.c ld_r_a. -/
def ld_r_a (z : Z80State) : Z80State :=
  { z with m_r := A z, m_r2 := A z &&& 0x80 }

/-- z80.c ld_a_r. -/
def ld_a_r (z : Z80State) : Z80State :=
  let z := setA z ((z.m_r &&& 0x7f) ||| z.m_r2)
  let z := setF z ((F z &&& CF) ||| SZ (A z) ||| (z.m_iff2 <<< 2))
  { z with m_after_ldair := 1 }

/-- z80.c ld_i_a. -/
def ld_i_a (z : Z80State) : Z80State := { z with m_i := A z }

/-- z80.c ld_a_i. -/
def ld_a_i (z : Z80State) : Z80State :=
  let z := setA z z.m_i
  let z := setF z ((F z &&& CF) ||| SZ (A z) ||| (z.m_iff2 <<< 2))
  { z with m_after_ldair := 1 }

/-- z80.c rst. -/
def rst (z : Z80State) (addr : Nat) : Z80State :=
  let z := push z z.m_pc
  let z := { z with m_pc := ⟨addr⟩ }
  setWZ z (PC z)

/-- z80.c inc (8-bit): returns the new state (F updated) and result. -/
def inc (z : Z80State) (value : Nat) : Z80State × Nat :=
  let value := value % 256
  let res := (value + 1) % 256
  (setF z ((F z &&& CF) ||| SZHV_inc res), res)

/-- z80.c dec (8-bit). -/
def dec (z : Z80State) (value : Nat) : Z80State × Nat :=
  let value := value % 256
  let res := (value + 255) % 256
  (setF z ((F z &&& CF) ||| SZHV_dec res), res)

/-- z80.c rlca. -/
def rlca (z : Z80State) : Z80State :=
  let z := setA z (((A z <<< 1) ||| (A z >>> 7)) % 256)
  setF z ((F z &&& (SF ||| ZF ||| PF)) ||| (A z &&& (YF ||| XF ||| CF)))

/-- z80.c rrca. -/
def rrca (z : Z80State) : Z80State :=
  let z := setF z ((F z &&& (SF ||| ZF ||| PF)) ||| (A z &&& CF))
  let z := setA z (((A z >>> 1) ||| (A z <<< 7)) % 256)
  setF z (F z ||| (A z &&& (YF ||| XF)))

/-- z80.c rla. -/
def rla (z : Z80State) : Z80State :=
  let res := ((A z <<< 1) ||| (F z &&& CF)) % 256
  let c := if A z &&& 0x80 ≠ 0 then CF else 0
  let z := setF z ((F z &&& (SF ||| ZF ||| PF)) ||| c ||| (res &&& (YF ||| XF)))
  setA z res

/-- z80.c rra. -/
def rra (z : Z80State) : Z80State :=
  let res := ((A z >>> 1) ||| (F z <<< 7)) % 256
  let c := if A z &&& 0x01 ≠ 0 then CF else 0
  let z := setF z ((F z &&& (SF ||| ZF ||| PF)) ||| c ||| (res &&& (YF ||| XF)))
  setA z res

/-- z80.c rrd. -/
def rrd (z : Z80State) : Z80State :=
  let n := rm z (HL z)
  let z := setWZ z (HL z + 1)
  let z := wm z (HL z) ((n >>> 4) ||| (A z <<< 4))
  let z := setA z ((A z &&& 0xf0) ||| (n &&& 0x0f))
  setF z ((F z &&& CF) ||| SZP (A z))

/-- z80.c rld. -/
def rld (z : Z80State) : Z80State :=
  let n := rm z (HL z)
  let z := setWZ z (HL z + 1)
  let z := wm z (HL z) ((n <<< 4) ||| (A z &&& 0x0f))
  let z := setA z ((A z &&& 0xf0) ||| (n >>> 4))
  setF z ((F z &&& CF) ||| SZP (A z))

/-- z80.c add_a. -/
def add_a (z : Z80State) (value : Nat) : Z80State :=
  let value := value % 256
  let ah := AFD z &&& 0xff00
  let res := ((ah >>> 8) + value) % 256
  let z := setF z (SZHVC_add (ah ||| res))
  setA z res

/-- z80.c adc_a. -/
def adc_a (z : Z80State) (value : Nat) : Z80State :=
  let value := value % 256
  let ah := AFD z &&& 0xff00
  let c := AFD z &&& 1
  let res := ((ah >>> 8) + value + c) % 256
  let z := setF z (SZHVC_add ((c <<< 16) ||| ah ||| res))
  setA z res

/-- z80.c sub. -/
def sub (z : Z80State) (value : Nat) : Z80State :=
  let value := value % 256
  let ah := AFD z &&& 0xff00
  let res := ((ah >>> 8) + 256 - value) % 256
  let z := setF z (SZHVC_sub (ah ||| res))
  setA z res

/-- z80.c sbc_a. -/
def sbc_a (z : Z80State) (value : Nat) : Z80State :=
  let value := value % 256
  let ah := AFD z &&& 0xff00
  let c := AFD z &&& 1
  let res := ((ah >>> 8) + 512 - value - c) % 256
  let z := setF z (SZHVC_sub ((c <<< 16) ||| ah ||| res))
  setA z res

/-- z80.c neg. -/
def neg (z : Z80State) : Z80State :=
  let value := A z
  let z := setA z 0
  sub z value

/-- z80.c daa. -/
def daa (z : Z80State) : Z80State :=
  let a0 := A z
  let a1 := if F z &&& NF ≠ 0 then
      (let a := if F z &&& HF ≠ 0 ∨ a0 &&& 0xf > 9 then (a0 + 250) % 256 else a0
       if F z &&& CF ≠ 0 ∨ a0 > 0x99 then (a + 160) % 256 else a)
    else
      (let a := if F z &&& HF ≠ 0 ∨ a0 &&& 0xf > 9 then (a0 + 6) % 256 else a0
       if F z &&& CF ≠ 0 ∨ a0 > 0x99 then (a + 0x60) % 256 else a)
  let z := setF z ((F z &&& (CF ||| NF)) ||| (if a0 > 0x99 then 1 else 0) |||
                   ((a0 ^^^ a1) &&& HF) ||| SZP a1)
  setA z a1

/-- z80.c and_a. -/
def and_a (z : Z80State) (value : Nat) : Z80State :=
  let z := setA z (A z &&& (value % 256))
  setF z (SZP (A z) ||| HF)

/-- z80.c or_a. -/
def or_a (z : Z80State) (value : Nat) : Z80State :=
  let z := setA z (A z ||| (value % 256))
  setF z (SZP (A z))

/-- z80.c xor_a. -/
def xor_a (z : Z80State) (value : Nat) : Z80State :=
  let z := setA z (A z ^^^ (value % 256))
  setF z (SZP (A z))

/-- z80.c cp: flags as for sub, with YF/XF taken from the operand. -/
def cp (z : Z80State) (value : Nat) : Z80State :=
  let val := value % 256
  let ah := AFD z &&& 0xff00
  let res := ((ah >>> 8) + 256 - val) % 256
  setF z ((SZHVC_sub (ah ||| res) &&& (0xff ^^^ (YF ||| XF))) ||| (val &&& (YF ||| XF)))

/-- z80.c ex_af. -/
def ex_af (z : Z80State) : Z80State :=
  { z with m_af := z.m_af2, m_af2 := z.m_af }

/-- z80.c ex_de_hl. -/
def ex_de_hl (z : Z80State) : Z80State :=
  { z with m_de := z.m_hl, m_hl := z.m_de }

/-- z80.c exx. -/
def exx (z : Z80State) : Z80State :=
  { z with m_bc := z.m_bc2, m_bc2 := z.m_bc,
           m_de := z.m_de2, m_de2 := z.m_de,
           m_hl := z.m_hl2, m_hl2 := z.m_hl }

/-- z80.c ex_sp: exchange a pair with the word at SP; returns the state
and the new pair value (the temp read from the stack). -/
def ex_sp (z : Z80State) (r : Pair) : Z80State × Pair :=
  let tmp := rm16 z (SPD z) ⟨0⟩
  let z := wm16 z (SPD z) r
  let z := setWZ z tmp.d
  (z, tmp)

/-- z80.c add16. -/
def add16 (z : Z80State) (dr sr : Pair) : Z80State × Pair :=
  let res := (dr.d + sr.d) % 4294967296
  let z := setWZ z (dr.d + 1)
  let z := setF z ((F z &&& (SF ||| ZF ||| VF)) |||
                   (((dr.d ^^^ res ^^^ sr.d) >>> 8) &&& HF) |||
                   ((res >>> 16) &&& CF) ||| ((res >>> 8) &&& (YF ||| XF)))
  (z, dr.setW res)

/-- z80.c adc_hl. -/
def adc_hl (z : Z80State) (r : Pair) : Z80State :=
  let res := (HLD z + r.d + (F z &&& CF)) % 4294967296
  let z := setWZ z (HL z + 1)
  let z := setF z ((((HLD z ^^^ res ^^^ r.d) >>> 8) &&& HF) |||
                   ((res >>> 16) &&& CF) |||
                   ((res >>> 8) &&& (SF ||| YF ||| XF)) |||
                   (if res &&& 0xffff = 0 then ZF else 0) |||
                   (((r.d ^^^ HLD z ^^^ 0x8000) &&& (r.d ^^^ res) &&& 0x8000) >>> 13))
  setHL z res

/-- z80.c sbc_hl: the uint32 subtraction wraps. -/
def sbc_hl (z : Z80State) (r : Pair) : Z80State :=
  let res := (HLD z + 4294967296 * 2 - r.d - (F z &&& CF)) % 4294967296
  let z := setWZ z (HL z + 1)
  let z := setF z ((((HLD z ^^^ res ^^^ r.d) >>> 8) &&& HF) ||| NF |||
                   ((res >>> 16) &&& CF) |||
                   ((res >>> 8) &&& (SF ||| YF ||| XF)) |||
                   (if res &&& 0xffff = 0 then ZF else 0) |||
                   (((r.d ^^^ HLD z) &&& (HLD z ^^^ res) &&& 0x8000) >>> 13))
  setHL z res

/-- z80.c rlc (8-bit helper). -/
def rlc (z : Z80State) (value : Nat) : Z80State × Nat :=
  let value := value % 256
  let c := if value &&& 0x80 ≠ 0 then CF else 0
  let res := ((value <<< 1) ||| (value >>> 7)) &&& 0xff
  (setF z (SZP res ||| c), res)

/-- z80.c rrc. -/
def rrc (z : Z80State) (value : Nat) : Z80State × Nat :=
  let value := value % 256
  let c := if value &&& 0x01 ≠ 0 then CF else 0
  let res := ((value >>> 1) ||| (value <<< 7)) &&& 0xff
  (setF z (SZP res ||| c), res)

/-- z80.c rl. -/
def rl (z : Z80State) (value : Nat) : Z80State × Nat :=
  let value := value % 256
  let c := if value &&& 0x80 ≠ 0 then CF else 0
  let res := ((value <<< 1) ||| (F z &&& CF)) &&& 0xff
  (setF z (SZP res ||| c), res)

/-- z80.c rr. -/
def rr (z : Z80State) (value : Nat) : Z80State × Nat :=
  let value := value % 256
  let c := if value &&& 0x01 ≠ 0 then CF else 0
  let res := ((value >>> 1) ||| (F z <<< 7)) &&& 0xff
  (setF z (SZP res ||| c), res)

/-- z80.c sla. -/
def sla (z : Z80State) (value : Nat) : Z80State × Nat :=
  let value := value % 256
  let c := if value &&& 0x80 ≠ 0 then CF else 0
  let res := (value <<< 1) &&& 0xff
  (setF z (SZP res ||| c), res)

/-- z80.c sra. -/
def sra (z : Z80State) (value : Nat) : Z80State × Nat :=
  let value := value % 256
  let c := if value &&& 0x01 ≠ 0 then CF else 0
  let res := ((value >>> 1) ||| (value &&& 0x80)) &&& 0xff
  (setF z (SZP res ||| c), res)

/-- z80.c sll. -/
def sll (z : Z80State) (value : Nat) : Z80State × Nat :=
  let value := value % 256
  let c := if value &&& 0x80 ≠ 0 then CF else 0
  let res := ((value <<< 1) ||| 0x01) &&& 0xff
  (setF z (SZP res ||| c), res)

/-- z80.c srl. -/
def srl (z : Z80State) (value : Nat) : Z80State × Nat :=
  let value := value % 256
  let c := if value &&& 0x01 ≠ 0 then CF else 0
  let res := (value >>> 1) &&& 0xff
  (setF z (SZP res ||| c), res)

/-- z80.c bit (BIT b,r8). -/
def bit (z : Z80State) (b : Nat) (value : Nat) : Z80State :=
  let value := value % 256
  setF z ((F z &&& CF) ||| HF ||| (SZ_BIT (value &&& (1 <<< b)) &&& (0xff ^^^ (YF ||| XF)))
          ||| (value &&& (YF ||| XF)))

/-- z80.c bit_hl (BIT b,(HL)): YF/XF from WZ high byte. -/
def bit_hl (z : Z80State) (b : Nat) (value : Nat) : Z80State :=
  let value := value % 256
  setF z ((F z &&& CF) ||| HF ||| (SZ_BIT (value &&& (1 <<< b)) &&& (0xff ^^^ (YF ||| XF)))
          ||| (WZH z &&& (YF ||| XF)))

/-- z80.c bit_xy (BIT b,(XY+o)): YF/XF from the high byte of ea. -/
def bit_xy (z : Z80State) (b : Nat) (value : Nat) : Z80State :=
  let value := value % 256
  setF z ((F z &&& CF) ||| HF ||| (SZ_BIT (value &&& (1 <<< b)) &&& (0xff ^^^ (YF ||| XF)))
          ||| ((z.m_ea >>> 8) &&& (YF ||| XF)))

/-- z80.c res (RES b). -/
def res (b : Nat) (value : Nat) : Nat := (value % 256) &&& (0xff ^^^ (1 <<< b))

/-- z80.c set (SET b). -/
def set (b : Nat) (value : Nat) : Nat := ((value % 256) ||| (1 <<< b)) % 256

/-- z80.c ldi. -/
def ldi (z : Z80State) : Z80State :=
  let io := rm z (HL z)
  let z := wm z (DE z) io
  let z := setF z (F z &&& (SF ||| ZF ||| CF))
  let z := if (A z + io) &&& 0x02 ≠ 0 then setF z (F z ||| YF) else z
  let z := if (A z + io) &&& 0x08 ≠ 0 then setF z (F z ||| XF) else z
  let z := setHL z (HL z + 1)
  let z := setDE z (DE z + 1)
  let z := setBC z (BC z + 65535)
  if BC z ≠ 0 then setF z (F z ||| VF) else z

/-- z80.c cpi. -/
def cpi (z : Z80State) : Z80State :=
  let val := rm z (HL z)
  let r0 := (A z + 256 - val) % 256
  let z := setWZ z (WZ z + 1)
  let z := setHL z (HL z + 1)
  let z := setBC z (BC z + 65535)
  let z := setF z ((F z &&& CF) ||| (SZ r0 &&& (0xff ^^^ (YF ||| XF))) |||
                   ((A z ^^^ val ^^^ r0) &&& HF) ||| NF)
  let r1 := if F z &&& HF ≠ 0 then (r0 + 255) % 256 else r0
  let z := if r1 &&& 0x02 ≠ 0 then setF z (F z ||| YF) else z
  let z := if r1 &&& 0x08 ≠ 0 then setF z (F z ||| XF) else z
  if BC z ≠ 0 then setF z (F z ||| VF) else z

/-- z80.c ini. -/
def ini (z : Z80State) : Z80State :=
  let io := in_ z (BC z)
  let z := setWZ z (BC z + 1)
  let z := setB z (B z + 255)
  let z := wm z (HL z) io
  let z := setHL z (HL z + 1)
  let z := setF z (SZ (B z))
  let t := ((C z + 1) &&& 0xff) + io
  let z := if io &&& SF ≠ 0 then setF z (F z ||| NF) else z
  let z := if t &&& 0x100 ≠ 0 then setF z (F z ||| HF ||| CF) else z
  setF z (F z ||| (SZP ((t &&& 0x07) ^^^ B z) &&& PF))

/-- z80.c outi. -/
def outi (z : Z80State) : Z80State :=
  let io := rm z (HL z)
  let z := setB z (B z + 255)
  let z := setWZ z (BC z + 1)
  let z := out z (BC z) io
  let z := setHL z (HL z + 1)
  let z := setF z (SZ (B z))
  let t := L z + io
  let z := if io &&& SF ≠ 0 then setF z (F z ||| NF) else z
  let z := if t &&& 0x100 ≠ 0 then setF z (F z ||| HF ||| CF) else z
  setF z (F z ||| (SZP ((t &&& 0x07) ^^^ B z) &&& PF))

/-- z80.c ldd. -/
def ldd (z : Z80State) : Z80State :=
  let io := rm z (HL z)
  let z := wm z (DE z) io
  let z := setF z (F z &&& (SF ||| ZF ||| CF))
  let z := if (A z + io) &&& 0x02 ≠ 0 then setF z (F z ||| YF) else z
  let z := if (A z + io) &&& 0x08 ≠ 0 then setF z (F z ||| XF) else z
  let z := setHL z (HL z + 65535)
  let z := setDE z (DE z + 65535)
  let z := setBC z (BC z + 65535)
  if BC z ≠ 0 then setF z (F z ||| VF) else z

/-- z80.c cpd. -/
def cpd (z : Z80State) : Z80State :=
  let val := rm z (HL z)
  let r0 := (A z + 256 - val) % 256
  let z := setWZ z (WZ z + 65535)
  let z := setHL z (HL z + 65535)
  let z := setBC z (BC z + 65535)
  let z := setF z ((F z &&& CF) ||| (SZ r0 &&& (0xff ^^^ (YF ||| XF))) |||
                   ((A z ^^^ val ^^^ r0) &&& HF) ||| NF)
  let r1 := if F z &&& HF ≠ 0 then (r0 + 255) % 256 else r0
  let z := if r1 &&& 0x02 ≠ 0 then setF z (F z ||| YF) else z
  let z := if r1 &&& 0x08 ≠ 0 then setF z (F z ||| XF) else z
  if BC z ≠ 0 then setF z (F z ||| VF) else z

/-- z80.c ind. -/
def ind (z : Z80State) : Z80State :=
  let io := in_ z (BC z)
  let z := setWZ z (BC z + 65535)
  let z := setB z (B z + 255)
  let z := wm z (HL z) io
  let z := setHL z (HL z + 65535)
  let z := setF z (SZ (B z))
  let t := ((C z + 255) &&& 0xff) + io
  let z := if io &&& SF ≠ 0 then setF z (F z ||| NF) else z
  let z := if t &&& 0x100 ≠ 0 then setF z (F z ||| HF ||| CF) else z
  setF z (F z ||| (SZP ((t &&& 0x07) ^^^ B z) &&& PF))

/-- z80.c outd. -/
def outd (z : Z80State) : Z80State :=
  let io := rm z (HL z)
  let z := setB z (B z + 255)
  let z := setWZ z (BC z + 65535)
  let z := out z (BC z) io
  let z := setHL z (HL z + 65535)
  let z := setF z (SZ (B z))
  let t := L z + io
  let z := if io &&& SF ≠ 0 then setF z (F z ||| NF) else z
  let z := if t &&& 0x100 ≠ 0 then setF z (F z ||| HF ||| CF) else z
  setF z (F z ||| (SZP ((t &&& 0x07) ^^^ B z) &&& PF))

/-- z80.c ldir. -/
def ldir (z : Z80State) : Z80State :=
  let z := ldi z
  if BC z ≠ 0 then
    let z := setPC z (PC z + 65534)
    let z := setWZ z (PC z + 1)
    ccEx z 0xb0
  else z

/-- z80.c cpir. -/
def cpir (z : Z80State) : Z80State :=
  let z := cpi z
  if BC z ≠ 0 ∧ F z &&& ZF = 0 then
    let z := setPC z (PC z + 65534)
    let z := setWZ z (PC z + 1)
    ccEx z 0xb1
  else z

/-- z80.c inir. -/
def inir (z : Z80State) : Z80State :=
  let z := ini z
  if B z ≠ 0 then
    let z := setPC z (PC z + 65534)
    ccEx z 0xb2
  else z

/-- z80.c otir. -/
def otir (z : Z80State) : Z80State :=
  let z := outi z
  if B z ≠ 0 then
    let z := setPC z (PC z + 65534)
    ccEx z 0xb3
  else z

/-- z80.c lddr. -/
def lddr (z : Z80State) : Z80State :=
  let z := ldd z
  if BC z ≠ 0 then
    let z := setPC z (PC z + 65534)
    let z := setWZ z (PC z + 1)
    ccEx z 0xb8
  else z

/-- z80.c cpdr. -/
def cpdr (z : Z80State) : Z80State :=
  let z := cpd z
  if BC z ≠ 0 ∧ F z &&& ZF = 0 then
    let z := setPC z (PC z + 65534)
    let z := setWZ z (PC z + 1)
    ccEx z 0xb9
  else z

/-- z80.c indr. -/
def indr (z : Z80State) : Z80State :=
  let z := ind z
  if B z ≠ 0 then
    let z := setPC z (PC z + 65534)
    ccEx z 0xba
  else z

/-- z80.c otdr. -/
def otdr (z : Z80State) : Z80State :=
  let z := outd z
  if B z ≠ 0 then
    let z := setPC z (PC z + 65534)
    ccEx z 0xbb
  else z

/-- z80.c ei. -/
def ei (z : Z80State) : Z80State :=
  { z with m_iff1 := 1, m_iff2 := 1, m_after_ei := 1 }

/-- z80.c illegal_1: only emits a warning log line, the state is
unchanged. -/
def illegal_1 (z : Z80State) : Z80State := z

/-- z80.c illegal_2: only emits a warning log line. -/
def illegal_2 (z : Z80State) : Z80State := z

end Z80
namespace Z80

/- CB-prefixed opcodes: rotate, shift and bit operations (z80.c). -/

def cb_00 (z : Z80State) : Z80State :=
  let p := rlc z (B z); setB p.1 p.2

def cb_01 (z : Z80State) : Z80State :=
  let p := rlc z (C z); setC p.1 p.2

def cb_02 (z : Z80State) : Z80State :=
  let p := rlc z (D z); setD p.1 p.2

def cb_03 (z : Z80State) : Z80State :=
  let p := rlc z (E z); setE p.1 p.2

def cb_04 (z : Z80State) : Z80State :=
  let p := rlc z (H z); setH p.1 p.2

def cb_05 (z : Z80State) : Z80State :=
  let p := rlc z (L z); setL p.1 p.2

def cb_06 (z : Z80State) : Z80State :=
  let p := rlc z (rm z (HL z)); wm p.1 (HL p.1) p.2

def cb_07 (z : Z80State) : Z80State :=
  let p := rlc z (A z); setA p.1 p.2

def cb_08 (z : Z80State) : Z80State :=
  let p := rrc z (B z); setB p.1 p.2

def cb_09 (z : Z80State) : Z80State :=
  let p := rrc z (C z); setC p.1 p.2

def cb_0a (z : Z80State) : Z80State :=
  let p := rrc z (D z); setD p.1 p.2

def cb_0b (z : Z80State) : Z80State :=
  let p := rrc z (E z); setE p.1 p.2

def cb_0c (z : Z80State) : Z80State :=
  let p := rrc z (H z); setH p.1 p.2

def cb_0d (z : Z80State) : Z80State :=
  let p := rrc z (L z); setL p.1 p.2

def cb_0e (z : Z80State) : Z80State :=
  let p := rrc z (rm z (HL z)); wm p.1 (HL p.1) p.2

def cb_0f (z : Z80State) : Z80State :=
  let p := rrc z (A z); setA p.1 p.2

def cb_10 (z : Z80State) : Z80State :=
  let p := rl z (B z); setB p.1 p.2

def cb_11 (z : Z80State) : Z80State :=
  let p := rl z (C z); setC p.1 p.2

def cb_12 (z : Z80State) : Z80State :=
  let p := rl z (D z); setD p.1 p.2

def cb_13 (z : Z80State) : Z80State :=
  let p := rl z (E z); setE p.1 p.2

def cb_14 (z : Z80State) : Z80State :=
  let p := rl z (H z); setH p.1 p.2

def cb_15 (z : Z80State) : Z80State :=
  let p := rl z (L z); setL p.1 p.2

def cb_16 (z : Z80State) : Z80State :=
  let p := rl z (rm z (HL z)); wm p.1 (HL p.1) p.2

def cb_17 (z : Z80State) : Z80State :=
  let p := rl z (A z); setA p.1 p.2

def cb_18 (z : Z80State) : Z80State :=
  let p := rr z (B z); setB p.1 p.2

def cb_19 (z : Z80State) : Z80State :=
  let p := rr z (C z); setC p.1 p.2

def cb_1a (z : Z80State) : Z80State :=
  let p := rr z (D z); setD p.1 p.2

def cb_1b (z : Z80State) : Z80State :=
  let p := rr z (E z); setE p.1 p.2

def cb_1c (z : Z80State) : Z80State :=
  let p := rr z (H z); setH p.1 p.2

def cb_1d (z : Z80State) : Z80State :=
  let p := rr z (L z); setL p.1 p.2

def cb_1e (z : Z80State) : Z80State :=
  let p := rr z (rm z (HL z)); wm p.1 (HL p.1) p.2

def cb_1f (z : Z80State) : Z80State :=
  let p := rr z (A z); setA p.1 p.2

def cb_20 (z : Z80State) : Z80State :=
  let p := sla z (B z); setB p.1 p.2

def cb_21 (z : Z80State) : Z80State :=
  let p := sla z (C z); setC p.1 p.2

def cb_22 (z : Z80State) : Z80State :=
  let p := sla z (D z); setD p.1 p.2

def cb_23 (z : Z80State) : Z80State :=
  let p := sla z (E z); setE p.1 p.2

def cb_24 (z : Z80State) : Z80State :=
  let p := sla z (H z); setH p.1 p.2

def cb_25 (z : Z80State) : Z80State :=
  let p := sla z (L z); setL p.1 p.2

def cb_26 (z : Z80State) : Z80State :=
  let p := sla z (rm z (HL z)); wm p.1 (HL p.1) p.2

def cb_27 (z : Z80State) : Z80State :=
  let p := sla z (A z); setA p.1 p.2

def cb_28 (z : Z80State) : Z80State :=
  let p := sra z (B z); setB p.1 p.2

def cb_29 (z : Z80State) : Z80State :=
  let p := sra z (C z); setC p.1 p.2

def cb_2a (z : Z80State) : Z80State :=
  let p := sra z (D z); setD p.1 p.2

def cb_2b (z : Z80State) : Z80State :=
  let p := sra z (E z); setE p.1 p.2

def cb_2c (z : Z80State) : Z80State :=
  let p := sra z (H z); setH p.1 p.2

def cb_2d (z : Z80State) : Z80State :=
  let p := sra z (L z); setL p.1 p.2

def cb_2e (z : Z80State) : Z80State :=
  let p := sra z (rm z (HL z)); wm p.1 (HL p.1) p.2

def cb_2f (z : Z80State) : Z80State :=
  let p := sra z (A z); setA p.1 p.2

def cb_30 (z : Z80State) : Z80State :=
  let p := sll z (B z); setB p.1 p.2

def cb_31 (z : Z80State) : Z80State :=
  let p := sll z (C z); setC p.1 p.2

def cb_32 (z : Z80State) : Z80State :=
  let p := sll z (D z); setD p.1 p.2

def cb_33 (z : Z80State) : Z80State :=
  let p := sll z (E z); setE p.1 p.2

def cb_34 (z : Z80State) : Z80State :=
  let p := sll z (H z); setH p.1 p.2

def cb_35 (z : Z80State) : Z80State :=
  let p := sll z (L z); setL p.1 p.2

def cb_36 (z : Z80State) : Z80State :=
  let p := sll z (rm z (HL z)); wm p.1 (HL p.1) p.2

def cb_37 (z : Z80State) : Z80State :=
  let p := sll z (A z); setA p.1 p.2

def cb_38 (z : Z80State) : Z80State :=
  let p := srl z (B z); setB p.1 p.2

def cb_39 (z : Z80State) : Z80State :=
  let p := srl z (C z); setC p.1 p.2

def cb_3a (z : Z80State) : Z80State :=
  let p := srl z (D z); setD p.1 p.2

def cb_3b (z : Z80State) : Z80State :=
  let p := srl z (E z); setE p.1 p.2

def cb_3c (z : Z80State) : Z80State :=
  let p := srl z (H z); setH p.1 p.2

def cb_3d (z : Z80State) : Z80State :=
  let p := srl z (L z); setL p.1 p.2

def cb_3e (z : Z80State) : Z80State :=
  let p := srl z (rm z (HL z)); wm p.1 (HL p.1) p.2

def cb_3f (z : Z80State) : Z80State :=
  let p := srl z (A z); setA p.1 p.2

def cb_40 (z : Z80State) : Z80State :=
  bit z 0 (B z)

def cb_41 (z : Z80State) : Z80State :=
  bit z 0 (C z)

def cb_42 (z : Z80State) : Z80State :=
  bit z 0 (D z)

def cb_43 (z : Z80State) : Z80State :=
  bit z 0 (E z)

def cb_44 (z : Z80State) : Z80State :=
  bit z 0 (H z)

def cb_45 (z : Z80State) : Z80State :=
  bit z 0 (L z)

def cb_46 (z : Z80State) : Z80State :=
  bit_hl z 0 (rm z (HL z))

def cb_47 (z : Z80State) : Z80State :=
  bit z 0 (A z)

def cb_48 (z : Z80State) : Z80State :=
  bit z 1 (B z)

def cb_49 (z : Z80State) : Z80State :=
  bit z 1 (C z)

def cb_4a (z : Z80State) : Z80State :=
  bit z 1 (D z)

def cb_4b (z : Z80State) : Z80State :=
  bit z 1 (E z)

def cb_4c (z : Z80State) : Z80State :=
  bit z 1 (H z)

def cb_4d (z : Z80State) : Z80State :=
  bit z 1 (L z)

def cb_4e (z : Z80State) : Z80State :=
  bit_hl z 1 (rm z (HL z))

def cb_4f (z : Z80State) : Z80State :=
  bit z 1 (A z)

def cb_50 (z : Z80State) : Z80State :=
  bit z 2 (B z)

def cb_51 (z : Z80State) : Z80State :=
  bit z 2 (C z)

def cb_52 (z : Z80State) : Z80State :=
  bit z 2 (D z)

def cb_53 (z : Z80State) : Z80State :=
  bit z 2 (E z)

def cb_54 (z : Z80State) : Z80State :=
  bit z 2 (H z)

def cb_55 (z : Z80State) : Z80State :=
  bit z 2 (L z)

def cb_56 (z : Z80State) : Z80State :=
  bit_hl z 2 (rm z (HL z))

def cb_57 (z : Z80State) : Z80State :=
  bit z 2 (A z)

def cb_58 (z : Z80State) : Z80State :=
  bit z 3 (B z)

def cb_59 (z : Z80State) : Z80State :=
  bit z 3 (C z)

def cb_5a (z : Z80State) : Z80State :=
  bit z 3 (D z)

def cb_5b (z : Z80State) : Z80State :=
  bit z 3 (E z)

def cb_5c (z : Z80State) : Z80State :=
  bit z 3 (H z)

def cb_5d (z : Z80State) : Z80State :=
  bit z 3 (L z)

def cb_5e (z : Z80State) : Z80State :=
  bit_hl z 3 (rm z (HL z))

def cb_5f (z : Z80State) : Z80State :=
  bit z 3 (A z)

def cb_60 (z : Z80State) : Z80State :=
  bit z 4 (B z)

def cb_61 (z : Z80State) : Z80State :=
  bit z 4 (C z)

def cb_62 (z : Z80State) : Z80State :=
  bit z 4 (D z)

def cb_63 (z : Z80State) : Z80State :=
  bit z 4 (E z)

def cb_64 (z : Z80State) : Z80State :=
  bit z 4 (H z)

def cb_65 (z : Z80State) : Z80State :=
  bit z 4 (L z)

def cb_66 (z : Z80State) : Z80State :=
  bit_hl z 4 (rm z (HL z))

def cb_67 (z : Z80State) : Z80State :=
  bit z 4 (A z)

def cb_68 (z : Z80State) : Z80State :=
  bit z 5 (B z)

def cb_69 (z : Z80State) : Z80State :=
  bit z 5 (C z)

def cb_6a (z : Z80State) : Z80State :=
  bit z 5 (D z)

def cb_6b (z : Z80State) : Z80State :=
  bit z 5 (E z)

def cb_6c (z : Z80State) : Z80State :=
  bit z 5 (H z)

def cb_6d (z : Z80State) : Z80State :=
  bit z 5 (L z)

def cb_6e (z : Z80State) : Z80State :=
  bit_hl z 5 (rm z (HL z))

def cb_6f (z : Z80State) : Z80State :=
  bit z 5 (A z)

def cb_70 (z : Z80State) : Z80State :=
  bit z 6 (B z)

def cb_71 (z : Z80State) : Z80State :=
  bit z 6 (C z)

def cb_72 (z : Z80State) : Z80State :=
  bit z 6 (D z)

def cb_73 (z : Z80State) : Z80State :=
  bit z 6 (E z)

def cb_74 (z : Z80State) : Z80State :=
  bit z 6 (H z)

def cb_75 (z : Z80State) : Z80State :=
  bit z 6 (L z)

def cb_76 (z : Z80State) : Z80State :=
  bit_hl z 6 (rm z (HL z))

def cb_77 (z : Z80State) : Z80State :=
  bit z 6 (A z)

def cb_78 (z : Z80State) : Z80State :=
  bit z 7 (B z)

def cb_79 (z : Z80State) : Z80State :=
  bit z 7 (C z)

def cb_7a (z : Z80State) : Z80State :=
  bit z 7 (D z)

def cb_7b (z : Z80State) : Z80State :=
  bit z 7 (E z)

def cb_7c (z : Z80State) : Z80State :=
  bit z 7 (H z)

def cb_7d (z : Z80State) : Z80State :=
  bit z 7 (L z)

def cb_7e (z : Z80State) : Z80State :=
  bit_hl z 7 (rm z (HL z))

def cb_7f (z : Z80State) : Z80State :=
  bit z 7 (A z)

def cb_80 (z : Z80State) : Z80State :=
  setB z (res 0 (B z))

def cb_81 (z : Z80State) : Z80State :=
  setC z (res 0 (C z))

def cb_82 (z : Z80State) : Z80State :=
  setD z (res 0 (D z))

def cb_83 (z : Z80State) : Z80State :=
  setE z (res 0 (E z))

def cb_84 (z : Z80State) : Z80State :=
  setH z (res 0 (H z))

def cb_85 (z : Z80State) : Z80State :=
  setL z (res 0 (L z))

def cb_86 (z : Z80State) : Z80State :=
  wm z (HL z) (res 0 (rm z (HL z)))

def cb_87 (z : Z80State) : Z80State :=
  setA z (res 0 (A z))

def cb_88 (z : Z80State) : Z80State :=
  setB z (res 1 (B z))

def cb_89 (z : Z80State) : Z80State :=
  setC z (res 1 (C z))

def cb_8a (z : Z80State) : Z80State :=
  setD z (res 1 (D z))

def cb_8b (z : Z80State) : Z80State :=
  setE z (res 1 (E z))

def cb_8c (z : Z80State) : Z80State :=
  setH z (res 1 (H z))

def cb_8d (z : Z80State) : Z80State :=
  setL z (res 1 (L z))

def cb_8e (z : Z80State) : Z80State :=
  wm z (HL z) (res 1 (rm z (HL z)))

def cb_8f (z : Z80State) : Z80State :=
  setA z (res 1 (A z))

def cb_90 (z : Z80State) : Z80State :=
  setB z (res 2 (B z))

def cb_91 (z : Z80State) : Z80State :=
  setC z (res 2 (C z))

def cb_92 (z : Z80State) : Z80State :=
  setD z (res 2 (D z))

def cb_93 (z : Z80State) : Z80State :=
  setE z (res 2 (E z))

def cb_94 (z : Z80State) : Z80State :=
  setH z (res 2 (H z))

def cb_95 (z : Z80State) : Z80State :=
  setL z (res 2 (L z))

def cb_96 (z : Z80State) : Z80State :=
  wm z (HL z) (res 2 (rm z (HL z)))

def cb_97 (z : Z80State) : Z80State :=
  setA z (res 2 (A z))

def cb_98 (z : Z80State) : Z80State :=
  setB z (res 3 (B z))

def cb_99 (z : Z80State) : Z80State :=
  setC z (res 3 (C z))

def cb_9a (z : Z80State) : Z80State :=
  setD z (res 3 (D z))

def cb_9b (z : Z80State) : Z80State :=
  setE z (res 3 (E z))

def cb_9c (z : Z80State) : Z80State :=
  setH z (res 3 (H z))

def cb_9d (z : Z80State) : Z80State :=
  setL z (res 3 (L z))

def cb_9e (z : Z80State) : Z80State :=
  wm z (HL z) (res 3 (rm z (HL z)))

def cb_9f (z : Z80State) : Z80State :=
  setA z (res 3 (A z))

def cb_a0 (z : Z80State) : Z80State :=
  setB z (res 4 (B z))

def cb_a1 (z : Z80State) : Z80State :=
  setC z (res 4 (C z))

def cb_a2 (z : Z80State) : Z80State :=
  setD z (res 4 (D z))

def cb_a3 (z : Z80State) : Z80State :=
  setE z (res 4 (E z))

def cb_a4 (z : Z80State) : Z80State :=
  setH z (res 4 (H z))

def cb_a5 (z : Z80State) : Z80State :=
  setL z (res 4 (L z))

def cb_a6 (z : Z80State) : Z80State :=
  wm z (HL z) (res 4 (rm z (HL z)))

def cb_a7 (z : Z80State) : Z80State :=
  setA z (res 4 (A z))

def cb_a8 (z : Z80State) : Z80State :=
  setB z (res 5 (B z))

def cb_a9 (z : Z80State) : Z80State :=
  setC z (res 5 (C z))

def cb_aa (z : Z80State) : Z80State :=
  setD z (res 5 (D z))

def cb_ab (z : Z80State) : Z80State :=
  setE z (res 5 (E z))

def cb_ac (z : Z80State) : Z80State :=
  setH z (res 5 (H z))

def cb_ad (z : Z80State) : Z80State :=
  setL z (res 5 (L z))

def cb_ae (z : Z80State) : Z80State :=
  wm z (HL z) (res 5 (rm z (HL z)))

def cb_af (z : Z80State) : Z80State :=
  setA z (res 5 (A z))

def cb_b0 (z : Z80State) : Z80State :=
  setB z (res 6 (B z))

def cb_b1 (z : Z80State) : Z80State :=
  setC z (res 6 (C z))

def cb_b2 (z : Z80State) : Z80State :=
  setD z (res 6 (D z))

def cb_b3 (z : Z80State) : Z80State :=
  setE z (res 6 (E z))

def cb_b4 (z : Z80State) : Z80State :=
  setH z (res 6 (H z))

def cb_b5 (z : Z80State) : Z80State :=
  setL z (res 6 (L z))

def cb_b6 (z : Z80State) : Z80State :=
  wm z (HL z) (res 6 (rm z (HL z)))

def cb_b7 (z : Z80State) : Z80State :=
  setA z (res 6 (A z))

def cb_b8 (z : Z80State) : Z80State :=
  setB z (res 7 (B z))

def cb_b9 (z : Z80State) : Z80State :=
  setC z (res 7 (C z))

def cb_ba (z : Z80State) : Z80State :=
  setD z (res 7 (D z))

def cb_bb (z : Z80State) : Z80State :=
  setE z (res 7 (E z))

def cb_bc (z : Z80State) : Z80State :=
  setH z (res 7 (H z))

def cb_bd (z : Z80State) : Z80State :=
  setL z (res 7 (L z))

def cb_be (z : Z80State) : Z80State :=
  wm z (HL z) (res 7 (rm z (HL z)))

def cb_bf (z : Z80State) : Z80State :=
  setA z (res 7 (A z))

def cb_c0 (z : Z80State) : Z80State :=
  setB z (set 0 (B z))

def cb_c1 (z : Z80State) : Z80State :=
  setC z (set 0 (C z))

def cb_c2 (z : Z80State) : Z80State :=
  setD z (set 0 (D z))

def cb_c3 (z : Z80State) : Z80State :=
  setE z (set 0 (E z))

def cb_c4 (z : Z80State) : Z80State :=
  setH z (set 0 (H z))

def cb_c5 (z : Z80State) : Z80State :=
  setL z (set 0 (L z))

def cb_c6 (z : Z80State) : Z80State :=
  wm z (HL z) (set 0 (rm z (HL z)))

def cb_c7 (z : Z80State) : Z80State :=
  setA z (set 0 (A z))

def cb_c8 (z : Z80State) : Z80State :=
  setB z (set 1 (B z))

def cb_c9 (z : Z80State) : Z80State :=
  setC z (set 1 (C z))

def cb_ca (z : Z80State) : Z80State :=
  setD z (set 1 (D z))

def cb_cb (z : Z80State) : Z80State :=
  setE z (set 1 (E z))

def cb_cc (z : Z80State) : Z80State :=
  setH z (set 1 (H z))

def cb_cd (z : Z80State) : Z80State :=
  setL z (set 1 (L z))

def cb_ce (z : Z80State) : Z80State :=
  wm z (HL z) (set 1 (rm z (HL z)))

def cb_cf (z : Z80State) : Z80State :=
  setA z (set 1 (A z))

def cb_d0 (z : Z80State) : Z80State :=
  setB z (set 2 (B z))

def cb_d1 (z : Z80State) : Z80State :=
  setC z (set 2 (C z))

def cb_d2 (z : Z80State) : Z80State :=
  setD z (set 2 (D z))

def cb_d3 (z : Z80State) : Z80State :=
  setE z (set 2 (E z))

def cb_d4 (z : Z80State) : Z80State :=
  setH z (set 2 (H z))

def cb_d5 (z : Z80State) : Z80State :=
  setL z (set 2 (L z))

def cb_d6 (z : Z80State) : Z80State :=
  wm z (HL z) (set 2 (rm z (HL z)))

def cb_d7 (z : Z80State) : Z80State :=
  setA z (set 2 (A z))

def cb_d8 (z : Z80State) : Z80State :=
  setB z (set 3 (B z))

def cb_d9 (z : Z80State) : Z80State :=
  setC z (set 3 (C z))

def cb_da (z : Z80State) : Z80State :=
  setD z (set 3 (D z))

def cb_db (z : Z80State) : Z80State :=
  setE z (set 3 (E z))

def cb_dc (z : Z80State) : Z80State :=
  setH z (set 3 (H z))

def cb_dd (z : Z80State) : Z80State :=
  setL z (set 3 (L z))

def cb_de (z : Z80State) : Z80State :=
  wm z (HL z) (set 3 (rm z (HL z)))

def cb_df (z : Z80State) : Z80State :=
  setA z (set 3 (A z))

def cb_e0 (z : Z80State) : Z80State :=
  setB z (set 4 (B z))

def cb_e1 (z : Z80State) : Z80State :=
  setC z (set 4 (C z))

def cb_e2 (z : Z80State) : Z80State :=
  setD z (set 4 (D z))

def cb_e3 (z : Z80State) : Z80State :=
  setE z (set 4 (E z))

def cb_e4 (z : Z80State) : Z80State :=
  setH z (set 4 (H z))

def cb_e5 (z : Z80State) : Z80State :=
  setL z (set 4 (L z))

def cb_e6 (z : Z80State) : Z80State :=
  wm z (HL z) (set 4 (rm z (HL z)))

def cb_e7 (z : Z80State) : Z80State :=
  setA z (set 4 (A z))

def cb_e8 (z : Z80State) : Z80State :=
  setB z (set 5 (B z))

def cb_e9 (z : Z80State) : Z80State :=
  setC z (set 5 (C z))

def cb_ea (z : Z80State) : Z80State :=
  setD z (set 5 (D z))

def cb_eb (z : Z80State) : Z80State :=
  setE z (set 5 (E z))

def cb_ec (z : Z80State) : Z80State :=
  setH z (set 5 (H z))

def cb_ed (z : Z80State) : Z80State :=
  setL z (set 5 (L z))

def cb_ee (z : Z80State) : Z80State :=
  wm z (HL z) (set 5 (rm z (HL z)))

def cb_ef (z : Z80State) : Z80State :=
  setA z (set 5 (A z))

def cb_f0 (z : Z80State) : Z80State :=
  setB z (set 6 (B z))

def cb_f1 (z : Z80State) : Z80State :=
  setC z (set 6 (C z))

def cb_f2 (z : Z80State) : Z80State :=
  setD z (set 6 (D z))

def cb_f3 (z : Z80State) : Z80State :=
  setE z (set 6 (E z))

def cb_f4 (z : Z80State) : Z80State :=
  setH z (set 6 (H z))

def cb_f5 (z : Z80State) : Z80State :=
  setL z (set 6 (L z))

def cb_f6 (z : Z80State) : Z80State :=
  wm z (HL z) (set 6 (rm z (HL z)))

def cb_f7 (z : Z80State) : Z80State :=
  setA z (set 6 (A z))

def cb_f8 (z : Z80State) : Z80State :=
  setB z (set 7 (B z))

def cb_f9 (z : Z80State) : Z80State :=
  setC z (set 7 (C z))

def cb_fa (z : Z80State) : Z80State :=
  setD z (set 7 (D z))

def cb_fb (z : Z80State) : Z80State :=
  setE z (set 7 (E z))

def cb_fc (z : Z80State) : Z80State :=
  setH z (set 7 (H z))

def cb_fd (z : Z80State) : Z80State :=
  setL z (set 7 (L z))

def cb_fe (z : Z80State) : Z80State :=
  wm z (HL z) (set 7 (rm z (HL z)))

def cb_ff (z : Z80State) : Z80State :=
  setA z (set 7 (A z))

/- EXEC(cb, opcode): CC deduction then 256-way dispatch. -/

def exec_cb (z : Z80State) (o : Nat) : Z80State :=
  let z := ccCb z o
  match o with
  | 0x00 => cb_00 z
  | 0x01 => cb_01 z
  | 0x02 => cb_02 z
  | 0x03 => cb_03 z
  | 0x04 => cb_04 z
  | 0x05 => cb_05 z
  | 0x06 => cb_06 z
  | 0x07 => cb_07 z
  | 0x08 => cb_08 z
  | 0x09 => cb_09 z
  | 0x0a => cb_0a z
  | 0x0b => cb_0b z
  | 0x0c => cb_0c z
  | 0x0d => cb_0d z
  | 0x0e => cb_0e z
  | 0x0f => cb_0f z
  | 0x10 => cb_10 z
  | 0x11 => cb_11 z
  | 0x12 => cb_12 z
  | 0x13 => cb_13 z
  | 0x14 => cb_14 z
  | 0x15 => cb_15 z
  | 0x16 => cb_16 z
  | 0x17 => cb_17 z
  | 0x18 => cb_18 z
  | 0x19 => cb_19 z
  | 0x1a => cb_1a z
  | 0x1b => cb_1b z
  | 0x1c => cb_1c z
  | 0x1d => cb_1d z
  | 0x1e => cb_1e z
  | 0x1f => cb_1f z
  | 0x20 => cb_20 z
  | 0x21 => cb_21 z
  | 0x22 => cb_22 z
  | 0x23 => cb_23 z
  | 0x24 => cb_24 z
  | 0x25 => cb_25 z
  | 0x26 => cb_26 z
  | 0x27 => cb_27 z
  | 0x28 => cb_28 z
  | 0x29 => cb_29 z
  | 0x2a => cb_2a z
  | 0x2b => cb_2b z
  | 0x2c => cb_2c z
  | 0x2d => cb_2d z
  | 0x2e => cb_2e z
  | 0x2f => cb_2f z
  | 0x30 => cb_30 z
  | 0x31 => cb_31 z
  | 0x32 => cb_32 z
  | 0x33 => cb_33 z
  | 0x34 => cb_34 z
  | 0x35 => cb_35 z
  | 0x36 => cb_36 z
  | 0x37 => cb_37 z
  | 0x38 => cb_38 z
  | 0x39 => cb_39 z
  | 0x3a => cb_3a z
  | 0x3b => cb_3b z
  | 0x3c => cb_3c z
  | 0x3d => cb_3d z
  | 0x3e => cb_3e z
  | 0x3f => cb_3f z
  | 0x40 => cb_40 z
  | 0x41 => cb_41 z
  | 0x42 => cb_42 z
  | 0x43 => cb_43 z
  | 0x44 => cb_44 z
  | 0x45 => cb_45 z
  | 0x46 => cb_46 z
  | 0x47 => cb_47 z
  | 0x48 => cb_48 z
  | 0x49 => cb_49 z
  | 0x4a => cb_4a z
  | 0x4b => cb_4b z
  | 0x4c => cb_4c z
  | 0x4d => cb_4d z
  | 0x4e => cb_4e z
  | 0x4f => cb_4f z
  | 0x50 => cb_50 z
  | 0x51 => cb_51 z
  | 0x52 => cb_52 z
  | 0x53 => cb_53 z
  | 0x54 => cb_54 z
  | 0x55 => cb_55 z
  | 0x56 => cb_56 z
  | 0x57 => cb_57 z
  | 0x58 => cb_58 z
  | 0x59 => cb_59 z
  | 0x5a => cb_5a z
  | 0x5b => cb_5b z
  | 0x5c => cb_5c z
  | 0x5d => cb_5d z
  | 0x5e => cb_5e z
  | 0x5f => cb_5f z
  | 0x60 => cb_60 z
  | 0x61 => cb_61 z
  | 0x62 => cb_62 z
  | 0x63 => cb_63 z
  | 0x64 => cb_64 z
  | 0x65 => cb_65 z
  | 0x66 => cb_66 z
  | 0x67 => cb_67 z
  | 0x68 => cb_68 z
  | 0x69 => cb_69 z
  | 0x6a => cb_6a z
  | 0x6b => cb_6b z
  | 0x6c => cb_6c z
  | 0x6d => cb_6d z
  | 0x6e => cb_6e z
  | 0x6f => cb_6f z
  | 0x70 => cb_70 z
  | 0x71 => cb_71 z
  | 0x72 => cb_72 z
  | 0x73 => cb_73 z
  | 0x74 => cb_74 z
  | 0x75 => cb_75 z
  | 0x76 => cb_76 z
  | 0x77 => cb_77 z
  | 0x78 => cb_78 z
  | 0x79 => cb_79 z
  | 0x7a => cb_7a z
  | 0x7b => cb_7b z
  | 0x7c => cb_7c z
  | 0x7d => cb_7d z
  | 0x7e => cb_7e z
  | 0x7f => cb_7f z
  | 0x80 => cb_80 z
  | 0x81 => cb_81 z
  | 0x82 => cb_82 z
  | 0x83 => cb_83 z
  | 0x84 => cb_84 z
  | 0x85 => cb_85 z
  | 0x86 => cb_86 z
  | 0x87 => cb_87 z
  | 0x88 => cb_88 z
  | 0x89 => cb_89 z
  | 0x8a => cb_8a z
  | 0x8b => cb_8b z
  | 0x8c => cb_8c z
  | 0x8d => cb_8d z
  | 0x8e => cb_8e z
  | 0x8f => cb_8f z
  | 0x90 => cb_90 z
  | 0x91 => cb_91 z
  | 0x92 => cb_92 z
  | 0x93 => cb_93 z
  | 0x94 => cb_94 z
  | 0x95 => cb_95 z
  | 0x96 => cb_96 z
  | 0x97 => cb_97 z
  | 0x98 => cb_98 z
  | 0x99 => cb_99 z
  | 0x9a => cb_9a z
  | 0x9b => cb_9b z
  | 0x9c => cb_9c z
  | 0x9d => cb_9d z
  | 0x9e => cb_9e z
  | 0x9f => cb_9f z
  | 0xa0 => cb_a0 z
  | 0xa1 => cb_a1 z
  | 0xa2 => cb_a2 z
  | 0xa3 => cb_a3 z
  | 0xa4 => cb_a4 z
  | 0xa5 => cb_a5 z
  | 0xa6 => cb_a6 z
  | 0xa7 => cb_a7 z
  | 0xa8 => cb_a8 z
  | 0xa9 => cb_a9 z
  | 0xaa => cb_aa z
  | 0xab => cb_ab z
  | 0xac => cb_ac z
  | 0xad => cb_ad z
  | 0xae => cb_ae z
  | 0xaf => cb_af z
  | 0xb0 => cb_b0 z
  | 0xb1 => cb_b1 z
  | 0xb2 => cb_b2 z
  | 0xb3 => cb_b3 z
  | 0xb4 => cb_b4 z
  | 0xb5 => cb_b5 z
  | 0xb6 => cb_b6 z
  | 0xb7 => cb_b7 z
  | 0xb8 => cb_b8 z
  | 0xb9 => cb_b9 z
  | 0xba => cb_ba z
  | 0xbb => cb_bb z
  | 0xbc => cb_bc z
  | 0xbd => cb_bd z
  | 0xbe => cb_be z
  | 0xbf => cb_bf z
  | 0xc0 => cb_c0 z
  | 0xc1 => cb_c1 z
  | 0xc2 => cb_c2 z
  | 0xc3 => cb_c3 z
  | 0xc4 => cb_c4 z
  | 0xc5 => cb_c5 z
  | 0xc6 => cb_c6 z
  | 0xc7 => cb_c7 z
  | 0xc8 => cb_c8 z
  | 0xc9 => cb_c9 z
  | 0xca => cb_ca z
  | 0xcb => cb_cb z
  | 0xcc => cb_cc z
  | 0xcd => cb_cd z
  | 0xce => cb_ce z
  | 0xcf => cb_cf z
  | 0xd0 => cb_d0 z
  | 0xd1 => cb_d1 z
  | 0xd2 => cb_d2 z
  | 0xd3 => cb_d3 z
  | 0xd4 => cb_d4 z
  | 0xd5 => cb_d5 z
  | 0xd6 => cb_d6 z
  | 0xd7 => cb_d7 z
  | 0xd8 => cb_d8 z
  | 0xd9 => cb_d9 z
  | 0xda => cb_da z
  | 0xdb => cb_db z
  | 0xdc => cb_dc z
  | 0xdd => cb_dd z
  | 0xde => cb_de z
  | 0xdf => cb_df z
  | 0xe0 => cb_e0 z
  | 0xe1 => cb_e1 z
  | 0xe2 => cb_e2 z
  | 0xe3 => cb_e3 z
  | 0xe4 => cb_e4 z
  | 0xe5 => cb_e5 z
  | 0xe6 => cb_e6 z
  | 0xe7 => cb_e7 z
  | 0xe8 => cb_e8 z
  | 0xe9 => cb_e9 z
  | 0xea => cb_ea z
  | 0xeb => cb_eb z
  | 0xec => cb_ec z
  | 0xed => cb_ed z
  | 0xee => cb_ee z
  | 0xef => cb_ef z
  | 0xf0 => cb_f0 z
  | 0xf1 => cb_f1 z
  | 0xf2 => cb_f2 z
  | 0xf3 => cb_f3 z
  | 0xf4 => cb_f4 z
  | 0xf5 => cb_f5 z
  | 0xf6 => cb_f6 z
  | 0xf7 => cb_f7 z
  | 0xf8 => cb_f8 z
  | 0xf9 => cb_f9 z
  | 0xfa => cb_fa z
  | 0xfb => cb_fb z
  | 0xfc => cb_fc z
  | 0xfd => cb_fd z
  | 0xfe => cb_fe z
  | 0xff => cb_ff z
  | _ => z


/- DD CB / FD CB opcodes: operations on (IX+o)/(IY+o) (z80.c).
   The BIT rows alias every column to the x6 column handler, so those
   handlers are declared first. -/

def xycb_46 (z : Z80State) : Z80State :=
  bit_xy z 0 (rm z z.m_ea)

def xycb_4e (z : Z80State) : Z80State :=
  bit_xy z 1 (rm z z.m_ea)

def xycb_56 (z : Z80State) : Z80State :=
  bit_xy z 2 (rm z z.m_ea)

def xycb_5e (z : Z80State) : Z80State :=
  bit_xy z 3 (rm z z.m_ea)

def xycb_66 (z : Z80State) : Z80State :=
  bit_xy z 4 (rm z z.m_ea)

def xycb_6e (z : Z80State) : Z80State :=
  bit_xy z 5 (rm z z.m_ea)

def xycb_76 (z : Z80State) : Z80State :=
  bit_xy z 6 (rm z z.m_ea)

def xycb_7e (z : Z80State) : Z80State :=
  bit_xy z 7 (rm z z.m_ea)

def xycb_00 (z : Z80State) : Z80State :=
  let p := rlc z (rm z z.m_ea); let z := setB p.1 p.2; wm z z.m_ea p.2

def xycb_01 (z : Z80State) : Z80State :=
  let p := rlc z (rm z z.m_ea); let z := setC p.1 p.2; wm z z.m_ea p.2

def xycb_02 (z : Z80State) : Z80State :=
  let p := rlc z (rm z z.m_ea); let z := setD p.1 p.2; wm z z.m_ea p.2

def xycb_03 (z : Z80State) : Z80State :=
  let p := rlc z (rm z z.m_ea); let z := setE p.1 p.2; wm z z.m_ea p.2

def xycb_04 (z : Z80State) : Z80State :=
  let p := rlc z (rm z z.m_ea); let z := setH p.1 p.2; wm z z.m_ea p.2

def xycb_05 (z : Z80State) : Z80State :=
  let p := rlc z (rm z z.m_ea); let z := setL p.1 p.2; wm z z.m_ea p.2

def xycb_06 (z : Z80State) : Z80State :=
  let p := rlc z (rm z z.m_ea); wm p.1 z.m_ea p.2

def xycb_07 (z : Z80State) : Z80State :=
  let p := rlc z (rm z z.m_ea); let z := setA p.1 p.2; wm z z.m_ea p.2

def xycb_08 (z : Z80State) : Z80State :=
  let p := rrc z (rm z z.m_ea); let z := setB p.1 p.2; wm z z.m_ea p.2

def xycb_09 (z : Z80State) : Z80State :=
  let p := rrc z (rm z z.m_ea); let z := setC p.1 p.2; wm z z.m_ea p.2

def xycb_0a (z : Z80State) : Z80State :=
  let p := rrc z (rm z z.m_ea); let z := setD p.1 p.2; wm z z.m_ea p.2

def xycb_0b (z : Z80State) : Z80State :=
  let p := rrc z (rm z z.m_ea); let z := setE p.1 p.2; wm z z.m_ea p.2

def xycb_0c (z : Z80State) : Z80State :=
  let p := rrc z (rm z z.m_ea); let z := setH p.1 p.2; wm z z.m_ea p.2

def xycb_0d (z : Z80State) : Z80State :=
  let p := rrc z (rm z z.m_ea); let z := setL p.1 p.2; wm z z.m_ea p.2

def xycb_0e (z : Z80State) : Z80State :=
  let p := rrc z (rm z z.m_ea); wm p.1 z.m_ea p.2

def xycb_0f (z : Z80State) : Z80State :=
  let p := rrc z (rm z z.m_ea); let z := setA p.1 p.2; wm z z.m_ea p.2

def xycb_10 (z : Z80State) : Z80State :=
  let p := rl z (rm z z.m_ea); let z := setB p.1 p.2; wm z z.m_ea p.2

def xycb_11 (z : Z80State) : Z80State :=
  let p := rl z (rm z z.m_ea); let z := setC p.1 p.2; wm z z.m_ea p.2

def xycb_12 (z : Z80State) : Z80State :=
  let p := rl z (rm z z.m_ea); let z := setD p.1 p.2; wm z z.m_ea p.2

def xycb_13 (z : Z80State) : Z80State :=
  let p := rl z (rm z z.m_ea); let z := setE p.1 p.2; wm z z.m_ea p.2

def xycb_14 (z : Z80State) : Z80State :=
  let p := rl z (rm z z.m_ea); let z := setH p.1 p.2; wm z z.m_ea p.2

def xycb_15 (z : Z80State) : Z80State :=
  let p := rl z (rm z z.m_ea); let z := setL p.1 p.2; wm z z.m_ea p.2

def xycb_16 (z : Z80State) : Z80State :=
  let p := rl z (rm z z.m_ea); wm p.1 z.m_ea p.2

def xycb_17 (z : Z80State) : Z80State :=
  let p := rl z (rm z z.m_ea); let z := setA p.1 p.2; wm z z.m_ea p.2

def xycb_18 (z : Z80State) : Z80State :=
  let p := rr z (rm z z.m_ea); let z := setB p.1 p.2; wm z z.m_ea p.2

def xycb_19 (z : Z80State) : Z80State :=
  let p := rr z (rm z z.m_ea); let z := setC p.1 p.2; wm z z.m_ea p.2

def xycb_1a (z : Z80State) : Z80State :=
  let p := rr z (rm z z.m_ea); let z := setD p.1 p.2; wm z z.m_ea p.2

def xycb_1b (z : Z80State) : Z80State :=
  let p := rr z (rm z z.m_ea); let z := setE p.1 p.2; wm z z.m_ea p.2

def xycb_1c (z : Z80State) : Z80State :=
  let p := rr z (rm z z.m_ea); let z := setH p.1 p.2; wm z z.m_ea p.2

def xycb_1d (z : Z80State) : Z80State :=
  let p := rr z (rm z z.m_ea); let z := setL p.1 p.2; wm z z.m_ea p.2

def xycb_1e (z : Z80State) : Z80State :=
  let p := rr z (rm z z.m_ea); wm p.1 z.m_ea p.2

def xycb_1f (z : Z80State) : Z80State :=
  let p := rr z (rm z z.m_ea); let z := setA p.1 p.2; wm z z.m_ea p.2

def xycb_20 (z : Z80State) : Z80State :=
  let p := sla z (rm z z.m_ea); let z := setB p.1 p.2; wm z z.m_ea p.2

def xycb_21 (z : Z80State) : Z80State :=
  let p := sla z (rm z z.m_ea); let z := setC p.1 p.2; wm z z.m_ea p.2

def xycb_22 (z : Z80State) : Z80State :=
  let p := sla z (rm z z.m_ea); let z := setD p.1 p.2; wm z z.m_ea p.2

def xycb_23 (z : Z80State) : Z80State :=
  let p := sla z (rm z z.m_ea); let z := setE p.1 p.2; wm z z.m_ea p.2

def xycb_24 (z : Z80State) : Z80State :=
  let p := sla z (rm z z.m_ea); let z := setH p.1 p.2; wm z z.m_ea p.2

def xycb_25 (z : Z80State) : Z80State :=
  let p := sla z (rm z z.m_ea); let z := setL p.1 p.2; wm z z.m_ea p.2

def xycb_26 (z : Z80State) : Z80State :=
  let p := sla z (rm z z.m_ea); wm p.1 z.m_ea p.2

def xycb_27 (z : Z80State) : Z80State :=
  let p := sla z (rm z z.m_ea); let z := setA p.1 p.2; wm z z.m_ea p.2

def xycb_28 (z : Z80State) : Z80State :=
  let p := sra z (rm z z.m_ea); let z := setB p.1 p.2; wm z z.m_ea p.2

def xycb_29 (z : Z80State) : Z80State :=
  let p := sra z (rm z z.m_ea); let z := setC p.1 p.2; wm z z.m_ea p.2

def xycb_2a (z : Z80State) : Z80State :=
  let p := sra z (rm z z.m_ea); let z := setD p.1 p.2; wm z z.m_ea p.2

def xycb_2b (z : Z80State) : Z80State :=
  let p := sra z (rm z z.m_ea); let z := setE p.1 p.2; wm z z.m_ea p.2

def xycb_2c (z : Z80State) : Z80State :=
  let p := sra z (rm z z.m_ea); let z := setH p.1 p.2; wm z z.m_ea p.2

def xycb_2d (z : Z80State) : Z80State :=
  let p := sra z (rm z z.m_ea); let z := setL p.1 p.2; wm z z.m_ea p.2

def xycb_2e (z : Z80State) : Z80State :=
  let p := sra z (rm z z.m_ea); wm p.1 z.m_ea p.2

def xycb_2f (z : Z80State) : Z80State :=
  let p := sra z (rm z z.m_ea); let z := setA p.1 p.2; wm z z.m_ea p.2

def xycb_30 (z : Z80State) : Z80State :=
  let p := sll z (rm z z.m_ea); let z := setB p.1 p.2; wm z z.m_ea p.2

def xycb_31 (z : Z80State) : Z80State :=
  let p := sll z (rm z z.m_ea); let z := setC p.1 p.2; wm z z.m_ea p.2

def xycb_32 (z : Z80State) : Z80State :=
  let p := sll z (rm z z.m_ea); let z := setD p.1 p.2; wm z z.m_ea p.2

def xycb_33 (z : Z80State) : Z80State :=
  let p := sll z (rm z z.m_ea); let z := setE p.1 p.2; wm z z.m_ea p.2

def xycb_34 (z : Z80State) : Z80State :=
  let p := sll z (rm z z.m_ea); let z := setH p.1 p.2; wm z z.m_ea p.2

def xycb_35 (z : Z80State) : Z80State :=
  let p := sll z (rm z z.m_ea); let z := setL p.1 p.2; wm z z.m_ea p.2

def xycb_36 (z : Z80State) : Z80State :=
  let p := sll z (rm z z.m_ea); wm p.1 z.m_ea p.2

def xycb_37 (z : Z80State) : Z80State :=
  let p := sll z (rm z z.m_ea); let z := setA p.1 p.2; wm z z.m_ea p.2

def xycb_38 (z : Z80State) : Z80State :=
  let p := srl z (rm z z.m_ea); let z := setB p.1 p.2; wm z z.m_ea p.2

def xycb_39 (z : Z80State) : Z80State :=
  let p := srl z (rm z z.m_ea); let z := setC p.1 p.2; wm z z.m_ea p.2

def xycb_3a (z : Z80State) : Z80State :=
  let p := srl z (rm z z.m_ea); let z := setD p.1 p.2; wm z z.m_ea p.2

def xycb_3b (z : Z80State) : Z80State :=
  let p := srl z (rm z z.m_ea); let z := setE p.1 p.2; wm z z.m_ea p.2

def xycb_3c (z : Z80State) : Z80State :=
  let p := srl z (rm z z.m_ea); let z := setH p.1 p.2; wm z z.m_ea p.2

def xycb_3d (z : Z80State) : Z80State :=
  let p := srl z (rm z z.m_ea); let z := setL p.1 p.2; wm z z.m_ea p.2

def xycb_3e (z : Z80State) : Z80State :=
  let p := srl z (rm z z.m_ea); wm p.1 z.m_ea p.2

def xycb_3f (z : Z80State) : Z80State :=
  let p := srl z (rm z z.m_ea); let z := setA p.1 p.2; wm z z.m_ea p.2

def xycb_40 (z : Z80State) : Z80State :=
  xycb_46 z

def xycb_41 (z : Z80State) : Z80State :=
  xycb_46 z

def xycb_42 (z : Z80State) : Z80State :=
  xycb_46 z

def xycb_43 (z : Z80State) : Z80State :=
  xycb_46 z

def xycb_44 (z : Z80State) : Z80State :=
  xycb_46 z

def xycb_45 (z : Z80State) : Z80State :=
  xycb_46 z

def xycb_47 (z : Z80State) : Z80State :=
  xycb_46 z

def xycb_48 (z : Z80State) : Z80State :=
  xycb_4e z

def xycb_49 (z : Z80State) : Z80State :=
  xycb_4e z

def xycb_4a (z : Z80State) : Z80State :=
  xycb_4e z

def xycb_4b (z : Z80State) : Z80State :=
  xycb_4e z

def xycb_4c (z : Z80State) : Z80State :=
  xycb_4e z

def xycb_4d (z : Z80State) : Z80State :=
  xycb_4e z

def xycb_4f (z : Z80State) : Z80State :=
  xycb_4e z

def xycb_50 (z : Z80State) : Z80State :=
  xycb_56 z

def xycb_51 (z : Z80State) : Z80State :=
  xycb_56 z

def xycb_52 (z : Z80State) : Z80State :=
  xycb_56 z

def xycb_53 (z : Z80State) : Z80State :=
  xycb_56 z

def xycb_54 (z : Z80State) : Z80State :=
  xycb_56 z

def xycb_55 (z : Z80State) : Z80State :=
  xycb_56 z

def xycb_57 (z : Z80State) : Z80State :=
  xycb_56 z

def xycb_58 (z : Z80State) : Z80State :=
  xycb_5e z

def xycb_59 (z : Z80State) : Z80State :=
  xycb_5e z

def xycb_5a (z : Z80State) : Z80State :=
  xycb_5e z

def xycb_5b (z : Z80State) : Z80State :=
  xycb_5e z

def xycb_5c (z : Z80State) : Z80State :=
  xycb_5e z

def xycb_5d (z : Z80State) : Z80State :=
  xycb_5e z

def xycb_5f (z : Z80State) : Z80State :=
  xycb_5e z

def xycb_60 (z : Z80State) : Z80State :=
  xycb_66 z

def xycb_61 (z : Z80State) : Z80State :=
  xycb_66 z

def xycb_62 (z : Z80State) : Z80State :=
  xycb_66 z

def xycb_63 (z : Z80State) : Z80State :=
  xycb_66 z

def xycb_64 (z : Z80State) : Z80State :=
  xycb_66 z

def xycb_65 (z : Z80State) : Z80State :=
  xycb_66 z

def xycb_67 (z : Z80State) : Z80State :=
  xycb_66 z

def xycb_68 (z : Z80State) : Z80State :=
  xycb_6e z

def xycb_69 (z : Z80State) : Z80State :=
  xycb_6e z

def xycb_6a (z : Z80State) : Z80State :=
  xycb_6e z

def xycb_6b (z : Z80State) : Z80State :=
  xycb_6e z

def xycb_6c (z : Z80State) : Z80State :=
  xycb_6e z

def xycb_6d (z : Z80State) : Z80State :=
  xycb_6e z

def xycb_6f (z : Z80State) : Z80State :=
  xycb_6e z

def xycb_70 (z : Z80State) : Z80State :=
  xycb_76 z

def xycb_71 (z : Z80State) : Z80State :=
  xycb_76 z

def xycb_72 (z : Z80State) : Z80State :=
  xycb_76 z

def xycb_73 (z : Z80State) : Z80State :=
  xycb_76 z

def xycb_74 (z : Z80State) : Z80State :=
  xycb_76 z

def xycb_75 (z : Z80State) : Z80State :=
  xycb_76 z

def xycb_77 (z : Z80State) : Z80State :=
  xycb_76 z

def xycb_78 (z : Z80State) : Z80State :=
  xycb_7e z

def xycb_79 (z : Z80State) : Z80State :=
  xycb_7e z

def xycb_7a (z : Z80State) : Z80State :=
  xycb_7e z

def xycb_7b (z : Z80State) : Z80State :=
  xycb_7e z

def xycb_7c (z : Z80State) : Z80State :=
  xycb_7e z

def xycb_7d (z : Z80State) : Z80State :=
  xycb_7e z

def xycb_7f (z : Z80State) : Z80State :=
  xycb_7e z

def xycb_80 (z : Z80State) : Z80State :=
  let v := res 0 (rm z z.m_ea); let z := setB z v; wm z z.m_ea v

def xycb_81 (z : Z80State) : Z80State :=
  let v := res 0 (rm z z.m_ea); let z := setC z v; wm z z.m_ea v

def xycb_82 (z : Z80State) : Z80State :=
  let v := res 0 (rm z z.m_ea); let z := setD z v; wm z z.m_ea v

def xycb_83 (z : Z80State) : Z80State :=
  let v := res 0 (rm z z.m_ea); let z := setE z v; wm z z.m_ea v

def xycb_84 (z : Z80State) : Z80State :=
  let v := res 0 (rm z z.m_ea); let z := setH z v; wm z z.m_ea v

def xycb_85 (z : Z80State) : Z80State :=
  let v := res 0 (rm z z.m_ea); let z := setL z v; wm z z.m_ea v

def xycb_86 (z : Z80State) : Z80State :=
  wm z z.m_ea (res 0 (rm z z.m_ea))

def xycb_87 (z : Z80State) : Z80State :=
  let v := res 0 (rm z z.m_ea); let z := setA z v; wm z z.m_ea v

def xycb_88 (z : Z80State) : Z80State :=
  let v := res 1 (rm z z.m_ea); let z := setB z v; wm z z.m_ea v

def xycb_89 (z : Z80State) : Z80State :=
  let v := res 1 (rm z z.m_ea); let z := setC z v; wm z z.m_ea v

def xycb_8a (z : Z80State) : Z80State :=
  let v := res 1 (rm z z.m_ea); let z := setD z v; wm z z.m_ea v

def xycb_8b (z : Z80State) : Z80State :=
  let v := res 1 (rm z z.m_ea); let z := setE z v; wm z z.m_ea v

def xycb_8c (z : Z80State) : Z80State :=
  let v := res 1 (rm z z.m_ea); let z := setH z v; wm z z.m_ea v

def xycb_8d (z : Z80State) : Z80State :=
  let v := res 1 (rm z z.m_ea); let z := setL z v; wm z z.m_ea v

def xycb_8e (z : Z80State) : Z80State :=
  wm z z.m_ea (res 1 (rm z z.m_ea))

def xycb_8f (z : Z80State) : Z80State :=
  let v := res 1 (rm z z.m_ea); let z := setA z v; wm z z.m_ea v

def xycb_90 (z : Z80State) : Z80State :=
  let v := res 2 (rm z z.m_ea); let z := setB z v; wm z z.m_ea v

def xycb_91 (z : Z80State) : Z80State :=
  let v := res 2 (rm z z.m_ea); let z := setC z v; wm z z.m_ea v

def xycb_92 (z : Z80State) : Z80State :=
  let v := res 2 (rm z z.m_ea); let z := setD z v; wm z z.m_ea v

def xycb_93 (z : Z80State) : Z80State :=
  let v := res 2 (rm z z.m_ea); let z := setE z v; wm z z.m_ea v

def xycb_94 (z : Z80State) : Z80State :=
  let v := res 2 (rm z z.m_ea); let z := setH z v; wm z z.m_ea v

def xycb_95 (z : Z80State) : Z80State :=
  let v := res 2 (rm z z.m_ea); let z := setL z v; wm z z.m_ea v

def xycb_96 (z : Z80State) : Z80State :=
  wm z z.m_ea (res 2 (rm z z.m_ea))

def xycb_97 (z : Z80State) : Z80State :=
  let v := res 2 (rm z z.m_ea); let z := setA z v; wm z z.m_ea v

def xycb_98 (z : Z80State) : Z80State :=
  let v := res 3 (rm z z.m_ea); let z := setB z v; wm z z.m_ea v

def xycb_99 (z : Z80State) : Z80State :=
  let v := res 3 (rm z z.m_ea); let z := setC z v; wm z z.m_ea v

def xycb_9a (z : Z80State) : Z80State :=
  let v := res 3 (rm z z.m_ea); let z := setD z v; wm z z.m_ea v

def xycb_9b (z : Z80State) : Z80State :=
  let v := res 3 (rm z z.m_ea); let z := setE z v; wm z z.m_ea v

def xycb_9c (z : Z80State) : Z80State :=
  let v := res 3 (rm z z.m_ea); let z := setH z v; wm z z.m_ea v

def xycb_9d (z : Z80State) : Z80State :=
  let v := res 3 (rm z z.m_ea); let z := setL z v; wm z z.m_ea v

def xycb_9e (z : Z80State) : Z80State :=
  wm z z.m_ea (res 3 (rm z z.m_ea))

def xycb_9f (z : Z80State) : Z80State :=
  let v := res 3 (rm z z.m_ea); let z := setA z v; wm z z.m_ea v

def xycb_a0 (z : Z80State) : Z80State :=
  let v := res 4 (rm z z.m_ea); let z := setB z v; wm z z.m_ea v

def xycb_a1 (z : Z80State) : Z80State :=
  let v := res 4 (rm z z.m_ea); let z := setC z v; wm z z.m_ea v

def xycb_a2 (z : Z80State) : Z80State :=
  let v := res 4 (rm z z.m_ea); let z := setD z v; wm z z.m_ea v

def xycb_a3 (z : Z80State) : Z80State :=
  let v := res 4 (rm z z.m_ea); let z := setE z v; wm z z.m_ea v

def xycb_a4 (z : Z80State) : Z80State :=
  let v := res 4 (rm z z.m_ea); let z := setH z v; wm z z.m_ea v

def xycb_a5 (z : Z80State) : Z80State :=
  let v := res 4 (rm z z.m_ea); let z := setL z v; wm z z.m_ea v

def xycb_a6 (z : Z80State) : Z80State :=
  wm z z.m_ea (res 4 (rm z z.m_ea))

def xycb_a7 (z : Z80State) : Z80State :=
  let v := res 4 (rm z z.m_ea); let z := setA z v; wm z z.m_ea v

def xycb_a8 (z : Z80State) : Z80State :=
  let v := res 5 (rm z z.m_ea); let z := setB z v; wm z z.m_ea v

def xycb_a9 (z : Z80State) : Z80State :=
  let v := res 5 (rm z z.m_ea); let z := setC z v; wm z z.m_ea v

def xycb_aa (z : Z80State) : Z80State :=
  let v := res 5 (rm z z.m_ea); let z := setD z v; wm z z.m_ea v

def xycb_ab (z : Z80State) : Z80State :=
  let v := res 5 (rm z z.m_ea); let z := setE z v; wm z z.m_ea v

def xycb_ac (z : Z80State) : Z80State :=
  let v := res 5 (rm z z.m_ea); let z := setH z v; wm z z.m_ea v

def xycb_ad (z : Z80State) : Z80State :=
  let v := res 5 (rm z z.m_ea); let z := setL z v; wm z z.m_ea v

def xycb_ae (z : Z80State) : Z80State :=
  wm z z.m_ea (res 5 (rm z z.m_ea))

def xycb_af (z : Z80State) : Z80State :=
  let v := res 5 (rm z z.m_ea); let z := setA z v; wm z z.m_ea v

def xycb_b0 (z : Z80State) : Z80State :=
  let v := res 6 (rm z z.m_ea); let z := setB z v; wm z z.m_ea v

def xycb_b1 (z : Z80State) : Z80State :=
  let v := res 6 (rm z z.m_ea); let z := setC z v; wm z z.m_ea v

def xycb_b2 (z : Z80State) : Z80State :=
  let v := res 6 (rm z z.m_ea); let z := setD z v; wm z z.m_ea v

def xycb_b3 (z : Z80State) : Z80State :=
  let v := res 6 (rm z z.m_ea); let z := setE z v; wm z z.m_ea v

def xycb_b4 (z : Z80State) : Z80State :=
  let v := res 6 (rm z z.m_ea); let z := setH z v; wm z z.m_ea v

def xycb_b5 (z : Z80State) : Z80State :=
  let v := res 6 (rm z z.m_ea); let z := setL z v; wm z z.m_ea v

def xycb_b6 (z : Z80State) : Z80State :=
  wm z z.m_ea (res 6 (rm z z.m_ea))

def xycb_b7 (z : Z80State) : Z80State :=
  let v := res 6 (rm z z.m_ea); let z := setA z v; wm z z.m_ea v

def xycb_b8 (z : Z80State) : Z80State :=
  let v := res 7 (rm z z.m_ea); let z := setB z v; wm z z.m_ea v

def xycb_b9 (z : Z80State) : Z80State :=
  let v := res 7 (rm z z.m_ea); let z := setC z v; wm z z.m_ea v

def xycb_ba (z : Z80State) : Z80State :=
  let v := res 7 (rm z z.m_ea); let z := setD z v; wm z z.m_ea v

def xycb_bb (z : Z80State) : Z80State :=
  let v := res 7 (rm z z.m_ea); let z := setE z v; wm z z.m_ea v

def xycb_bc (z : Z80State) : Z80State :=
  let v := res 7 (rm z z.m_ea); let z := setH z v; wm z z.m_ea v

def xycb_bd (z : Z80State) : Z80State :=
  let v := res 7 (rm z z.m_ea); let z := setL z v; wm z z.m_ea v

def xycb_be (z : Z80State) : Z80State :=
  wm z z.m_ea (res 7 (rm z z.m_ea))

def xycb_bf (z : Z80State) : Z80State :=
  let v := res 7 (rm z z.m_ea); let z := setA z v; wm z z.m_ea v

def xycb_c0 (z : Z80State) : Z80State :=
  let v := set 0 (rm z z.m_ea); let z := setB z v; wm z z.m_ea v

def xycb_c1 (z : Z80State) : Z80State :=
  let v := set 0 (rm z z.m_ea); let z := setC z v; wm z z.m_ea v

def xycb_c2 (z : Z80State) : Z80State :=
  let v := set 0 (rm z z.m_ea); let z := setD z v; wm z z.m_ea v

def xycb_c3 (z : Z80State) : Z80State :=
  let v := set 0 (rm z z.m_ea); let z := setE z v; wm z z.m_ea v

def xycb_c4 (z : Z80State) : Z80State :=
  let v := set 0 (rm z z.m_ea); let z := setH z v; wm z z.m_ea v

def xycb_c5 (z : Z80State) : Z80State :=
  let v := set 0 (rm z z.m_ea); let z := setL z v; wm z z.m_ea v

def xycb_c6 (z : Z80State) : Z80State :=
  wm z z.m_ea (set 0 (rm z z.m_ea))

def xycb_c7 (z : Z80State) : Z80State :=
  let v := set 0 (rm z z.m_ea); let z := setA z v; wm z z.m_ea v

def xycb_c8 (z : Z80State) : Z80State :=
  let v := set 1 (rm z z.m_ea); let z := setB z v; wm z z.m_ea v

def xycb_c9 (z : Z80State) : Z80State :=
  let v := set 1 (rm z z.m_ea); let z := setC z v; wm z z.m_ea v

def xycb_ca (z : Z80State) : Z80State :=
  let v := set 1 (rm z z.m_ea); let z := setD z v; wm z z.m_ea v

def xycb_cb (z : Z80State) : Z80State :=
  let v := set 1 (rm z z.m_ea); let z := setE z v; wm z z.m_ea v

def xycb_cc (z : Z80State) : Z80State :=
  let v := set 1 (rm z z.m_ea); let z := setH z v; wm z z.m_ea v

def xycb_cd (z : Z80State) : Z80State :=
  let v := set 1 (rm z z.m_ea); let z := setL z v; wm z z.m_ea v

def xycb_ce (z : Z80State) : Z80State :=
  wm z z.m_ea (set 1 (rm z z.m_ea))

def xycb_cf (z : Z80State) : Z80State :=
  let v := set 1 (rm z z.m_ea); let z := setA z v; wm z z.m_ea v

def xycb_d0 (z : Z80State) : Z80State :=
  let v := set 2 (rm z z.m_ea); let z := setB z v; wm z z.m_ea v

def xycb_d1 (z : Z80State) : Z80State :=
  let v := set 2 (rm z z.m_ea); let z := setC z v; wm z z.m_ea v

def xycb_d2 (z : Z80State) : Z80State :=
  let v := set 2 (rm z z.m_ea); let z := setD z v; wm z z.m_ea v

def xycb_d3 (z : Z80State) : Z80State :=
  let v := set 2 (rm z z.m_ea); let z := setE z v; wm z z.m_ea v

def xycb_d4 (z : Z80State) : Z80State :=
  let v := set 2 (rm z z.m_ea); let z := setH z v; wm z z.m_ea v

def xycb_d5 (z : Z80State) : Z80State :=
  let v := set 2 (rm z z.m_ea); let z := setL z v; wm z z.m_ea v

def xycb_d6 (z : Z80State) : Z80State :=
  wm z z.m_ea (set 2 (rm z z.m_ea))

def xycb_d7 (z : Z80State) : Z80State :=
  let v := set 2 (rm z z.m_ea); let z := setA z v; wm z z.m_ea v

def xycb_d8 (z : Z80State) : Z80State :=
  let v := set 3 (rm z z.m_ea); let z := setB z v; wm z z.m_ea v

def xycb_d9 (z : Z80State) : Z80State :=
  let v := set 3 (rm z z.m_ea); let z := setC z v; wm z z.m_ea v

def xycb_da (z : Z80State) : Z80State :=
  let v := set 3 (rm z z.m_ea); let z := setD z v; wm z z.m_ea v

def xycb_db (z : Z80State) : Z80State :=
  let v := set 3 (rm z z.m_ea); let z := setE z v; wm z z.m_ea v

def xycb_dc (z : Z80State) : Z80State :=
  let v := set 3 (rm z z.m_ea); let z := setH z v; wm z z.m_ea v

def xycb_dd (z : Z80State) : Z80State :=
  let v := set 3 (rm z z.m_ea); let z := setL z v; wm z z.m_ea v

def xycb_de (z : Z80State) : Z80State :=
  wm z z.m_ea (set 3 (rm z z.m_ea))

def xycb_df (z : Z80State) : Z80State :=
  let v := set 3 (rm z z.m_ea); let z := setA z v; wm z z.m_ea v

def xycb_e0 (z : Z80State) : Z80State :=
  let v := set 4 (rm z z.m_ea); let z := setB z v; wm z z.m_ea v

def xycb_e1 (z : Z80State) : Z80State :=
  let v := set 4 (rm z z.m_ea); let z := setC z v; wm z z.m_ea v

def xycb_e2 (z : Z80State) : Z80State :=
  let v := set 4 (rm z z.m_ea); let z := setD z v; wm z z.m_ea v

def xycb_e3 (z : Z80State) : Z80State :=
  let v := set 4 (rm z z.m_ea); let z := setE z v; wm z z.m_ea v

def xycb_e4 (z : Z80State) : Z80State :=
  let v := set 4 (rm z z.m_ea); let z := setH z v; wm z z.m_ea v

def xycb_e5 (z : Z80State) : Z80State :=
  let v := set 4 (rm z z.m_ea); let z := setL z v; wm z z.m_ea v

def xycb_e6 (z : Z80State) : Z80State :=
  wm z z.m_ea (set 4 (rm z z.m_ea))

def xycb_e7 (z : Z80State) : Z80State :=
  let v := set 4 (rm z z.m_ea); let z := setA z v; wm z z.m_ea v

def xycb_e8 (z : Z80State) : Z80State :=
  let v := set 5 (rm z z.m_ea); let z := setB z v; wm z z.m_ea v

def xycb_e9 (z : Z80State) : Z80State :=
  let v := set 5 (rm z z.m_ea); let z := setC z v; wm z z.m_ea v

def xycb_ea (z : Z80State) : Z80State :=
  let v := set 5 (rm z z.m_ea); let z := setD z v; wm z z.m_ea v

def xycb_eb (z : Z80State) : Z80State :=
  let v := set 5 (rm z z.m_ea); let z := setE z v; wm z z.m_ea v

def xycb_ec (z : Z80State) : Z80State :=
  let v := set 5 (rm z z.m_ea); let z := setH z v; wm z z.m_ea v

def xycb_ed (z : Z80State) : Z80State :=
  let v := set 5 (rm z z.m_ea); let z := setL z v; wm z z.m_ea v

def xycb_ee (z : Z80State) : Z80State :=
  wm z z.m_ea (set 5 (rm z z.m_ea))

def xycb_ef (z : Z80State) : Z80State :=
  let v := set 5 (rm z z.m_ea); let z := setA z v; wm z z.m_ea v

def xycb_f0 (z : Z80State) : Z80State :=
  let v := set 6 (rm z z.m_ea); let z := setB z v; wm z z.m_ea v

def xycb_f1 (z : Z80State) : Z80State :=
  let v := set 6 (rm z z.m_ea); let z := setC z v; wm z z.m_ea v

def xycb_f2 (z : Z80State) : Z80State :=
  let v := set 6 (rm z z.m_ea); let z := setD z v; wm z z.m_ea v

def xycb_f3 (z : Z80State) : Z80State :=
  let v := set 6 (rm z z.m_ea); let z := setE z v; wm z z.m_ea v

def xycb_f4 (z : Z80State) : Z80State :=
  let v := set 6 (rm z z.m_ea); let z := setH z v; wm z z.m_ea v

def xycb_f5 (z : Z80State) : Z80State :=
  let v := set 6 (rm z z.m_ea); let z := setL z v; wm z z.m_ea v

def xycb_f6 (z : Z80State) : Z80State :=
  wm z z.m_ea (set 6 (rm z z.m_ea))

def xycb_f7 (z : Z80State) : Z80State :=
  let v := set 6 (rm z z.m_ea); let z := setA z v; wm z z.m_ea v

def xycb_f8 (z : Z80State) : Z80State :=
  let v := set 7 (rm z z.m_ea); let z := setB z v; wm z z.m_ea v

def xycb_f9 (z : Z80State) : Z80State :=
  let v := set 7 (rm z z.m_ea); let z := setC z v; wm z z.m_ea v

def xycb_fa (z : Z80State) : Z80State :=
  let v := set 7 (rm z z.m_ea); let z := setD z v; wm z z.m_ea v

def xycb_fb (z : Z80State) : Z80State :=
  let v := set 7 (rm z z.m_ea); let z := setE z v; wm z z.m_ea v

def xycb_fc (z : Z80State) : Z80State :=
  let v := set 7 (rm z z.m_ea); let z := setH z v; wm z z.m_ea v

def xycb_fd (z : Z80State) : Z80State :=
  let v := set 7 (rm z z.m_ea); let z := setL z v; wm z z.m_ea v

def xycb_fe (z : Z80State) : Z80State :=
  wm z z.m_ea (set 7 (rm z z.m_ea))

def xycb_ff (z : Z80State) : Z80State :=
  let v := set 7 (rm z z.m_ea); let z := setA z v; wm z z.m_ea v

def exec_xycb (z : Z80State) (o : Nat) : Z80State :=
  let z := ccXycb z o
  match o with
  | 0x00 => xycb_00 z
  | 0x01 => xycb_01 z
  | 0x02 => xycb_02 z
  | 0x03 => xycb_03 z
  | 0x04 => xycb_04 z
  | 0x05 => xycb_05 z
  | 0x06 => xycb_06 z
  | 0x07 => xycb_07 z
  | 0x08 => xycb_08 z
  | 0x09 => xycb_09 z
  | 0x0a => xycb_0a z
  | 0x0b => xycb_0b z
  | 0x0c => xycb_0c z
  | 0x0d => xycb_0d z
  | 0x0e => xycb_0e z
  | 0x0f => xycb_0f z
  | 0x10 => xycb_10 z
  | 0x11 => xycb_11 z
  | 0x12 => xycb_12 z
  | 0x13 => xycb_13 z
  | 0x14 => xycb_14 z
  | 0x15 => xycb_15 z
  | 0x16 => xycb_16 z
  | 0x17 => xycb_17 z
  | 0x18 => xycb_18 z
  | 0x19 => xycb_19 z
  | 0x1a => xycb_1a z
  | 0x1b => xycb_1b z
  | 0x1c => xycb_1c z
  | 0x1d => xycb_1d z
  | 0x1e => xycb_1e z
  | 0x1f => xycb_1f z
  | 0x20 => xycb_20 z
  | 0x21 => xycb_21 z
  | 0x22 => xycb_22 z
  | 0x23 => xycb_23 z
  | 0x24 => xycb_24 z
  | 0x25 => xycb_25 z
  | 0x26 => xycb_26 z
  | 0x27 => xycb_27 z
  | 0x28 => xycb_28 z
  | 0x29 => xycb_29 z
  | 0x2a => xycb_2a z
  | 0x2b => xycb_2b z
  | 0x2c => xycb_2c z
  | 0x2d => xycb_2d z
  | 0x2e => xycb_2e z
  | 0x2f => xycb_2f z
  | 0x30 => xycb_30 z
  | 0x31 => xycb_31 z
  | 0x32 => xycb_32 z
  | 0x33 => xycb_33 z
  | 0x34 => xycb_34 z
  | 0x35 => xycb_35 z
  | 0x36 => xycb_36 z
  | 0x37 => xycb_37 z
  | 0x38 => xycb_38 z
  | 0x39 => xycb_39 z
  | 0x3a => xycb_3a z
  | 0x3b => xycb_3b z
  | 0x3c => xycb_3c z
  | 0x3d => xycb_3d z
  | 0x3e => xycb_3e z
  | 0x3f => xycb_3f z
  | 0x40 => xycb_40 z
  | 0x41 => xycb_41 z
  | 0x42 => xycb_42 z
  | 0x43 => xycb_43 z
  | 0x44 => xycb_44 z
  | 0x45 => xycb_45 z
  | 0x46 => xycb_46 z
  | 0x47 => xycb_47 z
  | 0x48 => xycb_48 z
  | 0x49 => xycb_49 z
  | 0x4a => xycb_4a z
  | 0x4b => xycb_4b z
  | 0x4c => xycb_4c z
  | 0x4d => xycb_4d z
  | 0x4e => xycb_4e z
  | 0x4f => xycb_4f z
  | 0x50 => xycb_50 z
  | 0x51 => xycb_51 z
  | 0x52 => xycb_52 z
  | 0x53 => xycb_53 z
  | 0x54 => xycb_54 z
  | 0x55 => xycb_55 z
  | 0x56 => xycb_56 z
  | 0x57 => xycb_57 z
  | 0x58 => xycb_58 z
  | 0x59 => xycb_59 z
  | 0x5a => xycb_5a z
  | 0x5b => xycb_5b z
  | 0x5c => xycb_5c z
  | 0x5d => xycb_5d z
  | 0x5e => xycb_5e z
  | 0x5f => xycb_5f z
  | 0x60 => xycb_60 z
  | 0x61 => xycb_61 z
  | 0x62 => xycb_62 z
  | 0x63 => xycb_63 z
  | 0x64 => xycb_64 z
  | 0x65 => xycb_65 z
  | 0x66 => xycb_66 z
  | 0x67 => xycb_67 z
  | 0x68 => xycb_68 z
  | 0x69 => xycb_69 z
  | 0x6a => xycb_6a z
  | 0x6b => xycb_6b z
  | 0x6c => xycb_6c z
  | 0x6d => xycb_6d z
  | 0x6e => xycb_6e z
  | 0x6f => xycb_6f z
  | 0x70 => xycb_70 z
  | 0x71 => xycb_71 z
  | 0x72 => xycb_72 z
  | 0x73 => xycb_73 z
  | 0x74 => xycb_74 z
  | 0x75 => xycb_75 z
  | 0x76 => xycb_76 z
  | 0x77 => xycb_77 z
  | 0x78 => xycb_78 z
  | 0x79 => xycb_79 z
  | 0x7a => xycb_7a z
  | 0x7b => xycb_7b z
  | 0x7c => xycb_7c z
  | 0x7d => xycb_7d z
  | 0x7e => xycb_7e z
  | 0x7f => xycb_7f z
  | 0x80 => xycb_80 z
  | 0x81 => xycb_81 z
  | 0x82 => xycb_82 z
  | 0x83 => xycb_83 z
  | 0x84 => xycb_84 z
  | 0x85 => xycb_85 z
  | 0x86 => xycb_86 z
  | 0x87 => xycb_87 z
  | 0x88 => xycb_88 z
  | 0x89 => xycb_89 z
  | 0x8a => xycb_8a z
  | 0x8b => xycb_8b z
  | 0x8c => xycb_8c z
  | 0x8d => xycb_8d z
  | 0x8e => xycb_8e z
  | 0x8f => xycb_8f z
  | 0x90 => xycb_90 z
  | 0x91 => xycb_91 z
  | 0x92 => xycb_92 z
  | 0x93 => xycb_93 z
  | 0x94 => xycb_94 z
  | 0x95 => xycb_95 z
  | 0x96 => xycb_96 z
  | 0x97 => xycb_97 z
  | 0x98 => xycb_98 z
  | 0x99 => xycb_99 z
  | 0x9a => xycb_9a z
  | 0x9b => xycb_9b z
  | 0x9c => xycb_9c z
  | 0x9d => xycb_9d z
  | 0x9e => xycb_9e z
  | 0x9f => xycb_9f z
  | 0xa0 => xycb_a0 z
  | 0xa1 => xycb_a1 z
  | 0xa2 => xycb_a2 z
  | 0xa3 => xycb_a3 z
  | 0xa4 => xycb_a4 z
  | 0xa5 => xycb_a5 z
  | 0xa6 => xycb_a6 z
  | 0xa7 => xycb_a7 z
  | 0xa8 => xycb_a8 z
  | 0xa9 => xycb_a9 z
  | 0xaa => xycb_aa z
  | 0xab => xycb_ab z
  | 0xac => xycb_ac z
  | 0xad => xycb_ad z
  | 0xae => xycb_ae z
  | 0xaf => xycb_af z
  | 0xb0 => xycb_b0 z
  | 0xb1 => xycb_b1 z
  | 0xb2 => xycb_b2 z
  | 0xb3 => xycb_b3 z
  | 0xb4 => xycb_b4 z
  | 0xb5 => xycb_b5 z
  | 0xb6 => xycb_b6 z
  | 0xb7 => xycb_b7 z
  | 0xb8 => xycb_b8 z
  | 0xb9 => xycb_b9 z
  | 0xba => xycb_ba z
  | 0xbb => xycb_bb z
  | 0xbc => xycb_bc z
  | 0xbd => xycb_bd z
  | 0xbe => xycb_be z
  | 0xbf => xycb_bf z
  | 0xc0 => xycb_c0 z
  | 0xc1 => xycb_c1 z
  | 0xc2 => xycb_c2 z
  | 0xc3 => xycb_c3 z
  | 0xc4 => xycb_c4 z
  | 0xc5 => xycb_c5 z
  | 0xc6 => xycb_c6 z
  | 0xc7 => xycb_c7 z
  | 0xc8 => xycb_c8 z
  | 0xc9 => xycb_c9 z
  | 0xca => xycb_ca z
  | 0xcb => xycb_cb z
  | 0xcc => xycb_cc z
  | 0xcd => xycb_cd z
  | 0xce => xycb_ce z
  | 0xcf => xycb_cf z
  | 0xd0 => xycb_d0 z
  | 0xd1 => xycb_d1 z
  | 0xd2 => xycb_d2 z
  | 0xd3 => xycb_d3 z
  | 0xd4 => xycb_d4 z
  | 0xd5 => xycb_d5 z
  | 0xd6 => xycb_d6 z
  | 0xd7 => xycb_d7 z
  | 0xd8 => xycb_d8 z
  | 0xd9 => xycb_d9 z
  | 0xda => xycb_da z
  | 0xdb => xycb_db z
  | 0xdc => xycb_dc z
  | 0xdd => xycb_dd z
  | 0xde => xycb_de z
  | 0xdf => xycb_df z
  | 0xe0 => xycb_e0 z
  | 0xe1 => xycb_e1 z
  | 0xe2 => xycb_e2 z
  | 0xe3 => xycb_e3 z
  | 0xe4 => xycb_e4 z
  | 0xe5 => xycb_e5 z
  | 0xe6 => xycb_e6 z
  | 0xe7 => xycb_e7 z
  | 0xe8 => xycb_e8 z
  | 0xe9 => xycb_e9 z
  | 0xea => xycb_ea z
  | 0xeb => xycb_eb z
  | 0xec => xycb_ec z
  | 0xed => xycb_ed z
  | 0xee => xycb_ee z
  | 0xef => xycb_ef z
  | 0xf0 => xycb_f0 z
  | 0xf1 => xycb_f1 z
  | 0xf2 => xycb_f2 z
  | 0xf3 => xycb_f3 z
  | 0xf4 => xycb_f4 z
  | 0xf5 => xycb_f5 z
  | 0xf6 => xycb_f6 z
  | 0xf7 => xycb_f7 z
  | 0xf8 => xycb_f8 z
  | 0xf9 => xycb_f9 z
  | 0xfa => xycb_fa z
  | 0xfb => xycb_fb z
  | 0xfc => xycb_fc z
  | 0xfd => xycb_fd z
  | 0xfe => xycb_fe z
  | 0xff => xycb_ff z
  | _ => z


/- ED-prefixed opcodes (z80.c); unused slots are illegal_2,
   which only logs. -/

def ed_00 (z : Z80State) : Z80State :=
  illegal_2 z

def ed_01 (z : Z80State) : Z80State :=
  illegal_2 z

def ed_02 (z : Z80State) : Z80State :=
  illegal_2 z

def ed_03 (z : Z80State) : Z80State :=
  illegal_2 z

def ed_04 (z : Z80State) : Z80State :=
  illegal_2 z

def ed_05 (z : Z80State) : Z80State :=
  illegal_2 z

def ed_06 (z : Z80State) : Z80State :=
  illegal_2 z

def ed_07 (z : Z80State) : Z80State :=
  illegal_2 z

def ed_08 (z : Z80State) : Z80State :=
  illegal_2 z

def ed_09 (z : Z80State) : Z80State :=
  illegal_2 z

def ed_0a (z : Z80State) : Z80State :=
  illegal_2 z

def ed_0b (z : Z80State) : Z80State :=
  illegal_2 z

def ed_0c (z : Z80State) : Z80State :=
  illegal_2 z

def ed_0d (z : Z80State) : Z80State :=
  illegal_2 z

def ed_0e (z : Z80State) : Z80State :=
  illegal_2 z

def ed_0f (z : Z80State) : Z80State :=
  illegal_2 z

def ed_10 (z : Z80State) : Z80State :=
  illegal_2 z

def ed_11 (z : Z80State) : Z80State :=
  illegal_2 z

def ed_12 (z : Z80State) : Z80State :=
  illegal_2 z

def ed_13 (z : Z80State) : Z80State :=
  illegal_2 z

def ed_14 (z : Z80State) : Z80State :=
  illegal_2 z

def ed_15 (z : Z80State) : Z80State :=
  illegal_2 z

def ed_16 (z : Z80State) : Z80State :=
  illegal_2 z

def ed_17 (z : Z80State) : Z80State :=
  illegal_2 z

def ed_18 (z : Z80State) : Z80State :=
  illegal_2 z

def ed_19 (z : Z80State) : Z80State :=
  illegal_2 z

def ed_1a (z : Z80State) : Z80State :=
  illegal_2 z

def ed_1b (z : Z80State) : Z80State :=
  illegal_2 z

def ed_1c (z : Z80State) : Z80State :=
  illegal_2 z

def ed_1d (z : Z80State) : Z80State :=
  illegal_2 z

def ed_1e (z : Z80State) : Z80State :=
  illegal_2 z

def ed_1f (z : Z80State) : Z80State :=
  illegal_2 z

def ed_20 (z : Z80State) : Z80State :=
  illegal_2 z

def ed_21 (z : Z80State) : Z80State :=
  illegal_2 z

def ed_22 (z : Z80State) : Z80State :=
  illegal_2 z

def ed_23 (z : Z80State) : Z80State :=
  illegal_2 z

def ed_24 (z : Z80State) : Z80State :=
  illegal_2 z

def ed_25 (z : Z80State) : Z80State :=
  illegal_2 z

def ed_26 (z : Z80State) : Z80State :=
  illegal_2 z

def ed_27 (z : Z80State) : Z80State :=
  illegal_2 z

def ed_28 (z : Z80State) : Z80State :=
  illegal_2 z

def ed_29 (z : Z80State) : Z80State :=
  illegal_2 z

def ed_2a (z : Z80State) : Z80State :=
  illegal_2 z

def ed_2b (z : Z80State) : Z80State :=
  illegal_2 z

def ed_2c (z : Z80State) : Z80State :=
  illegal_2 z

def ed_2d (z : Z80State) : Z80State :=
  illegal_2 z

def ed_2e (z : Z80State) : Z80State :=
  illegal_2 z

def ed_2f (z : Z80State) : Z80State :=
  illegal_2 z

def ed_30 (z : Z80State) : Z80State :=
  illegal_2 z

def ed_31 (z : Z80State) : Z80State :=
  illegal_2 z

def ed_32 (z : Z80State) : Z80State :=
  illegal_2 z

def ed_33 (z : Z80State) : Z80State :=
  illegal_2 z

def ed_34 (z : Z80State) : Z80State :=
  illegal_2 z

def ed_35 (z : Z80State) : Z80State :=
  illegal_2 z

def ed_36 (z : Z80State) : Z80State :=
  illegal_2 z

def ed_37 (z : Z80State) : Z80State :=
  illegal_2 z

def ed_38 (z : Z80State) : Z80State :=
  illegal_2 z

def ed_39 (z : Z80State) : Z80State :=
  illegal_2 z

def ed_3a (z : Z80State) : Z80State :=
  illegal_2 z

def ed_3b (z : Z80State) : Z80State :=
  illegal_2 z

def ed_3c (z : Z80State) : Z80State :=
  illegal_2 z

def ed_3d (z : Z80State) : Z80State :=
  illegal_2 z

def ed_3e (z : Z80State) : Z80State :=
  illegal_2 z

def ed_3f (z : Z80State) : Z80State :=
  illegal_2 z

def ed_40 (z : Z80State) : Z80State :=
  let v := in_ z (BC z); let z := setB z v; setF z ((F z &&& CF) ||| SZP v)

def ed_41 (z : Z80State) : Z80State :=
  out z (BC z) (B z)

def ed_42 (z : Z80State) : Z80State :=
  sbc_hl z z.m_bc

def ed_43 (z : Z80State) : Z80State :=
  let p := arg16 z; let z := { p.1 with m_ea := p.2 }; let z := wm16 z z.m_ea z.m_bc; setWZ z (z.m_ea + 1)

def ed_44 (z : Z80State) : Z80State :=
  neg z

def ed_45 (z : Z80State) : Z80State :=
  retn z

def ed_46 (z : Z80State) : Z80State :=
  { z with m_im := 0 }

def ed_47 (z : Z80State) : Z80State :=
  ld_i_a z

def ed_48 (z : Z80State) : Z80State :=
  let v := in_ z (BC z); let z := setC z v; setF z ((F z &&& CF) ||| SZP v)

def ed_49 (z : Z80State) : Z80State :=
  out z (BC z) (C z)

def ed_4a (z : Z80State) : Z80State :=
  adc_hl z z.m_bc

def ed_4b (z : Z80State) : Z80State :=
  let p := arg16 z; let z := { p.1 with m_ea := p.2 }; let z := { z with m_bc := rm16 z z.m_ea z.m_bc }; setWZ z (z.m_ea + 1)

def ed_4c (z : Z80State) : Z80State :=
  neg z

def ed_4d (z : Z80State) : Z80State :=
  reti z

def ed_4e (z : Z80State) : Z80State :=
  { z with m_im := 0 }

def ed_4f (z : Z80State) : Z80State :=
  ld_r_a z

def ed_50 (z : Z80State) : Z80State :=
  let v := in_ z (BC z); let z := setD z v; setF z ((F z &&& CF) ||| SZP v)

def ed_51 (z : Z80State) : Z80State :=
  out z (BC z) (D z)

def ed_52 (z : Z80State) : Z80State :=
  sbc_hl z z.m_de

def ed_53 (z : Z80State) : Z80State :=
  let p := arg16 z; let z := { p.1 with m_ea := p.2 }; let z := wm16 z z.m_ea z.m_de; setWZ z (z.m_ea + 1)

def ed_54 (z : Z80State) : Z80State :=
  neg z

def ed_55 (z : Z80State) : Z80State :=
  retn z

def ed_56 (z : Z80State) : Z80State :=
  { z with m_im := 1 }

def ed_57 (z : Z80State) : Z80State :=
  ld_a_i z

def ed_58 (z : Z80State) : Z80State :=
  let v := in_ z (BC z); let z := setE z v; setF z ((F z &&& CF) ||| SZP v)

def ed_59 (z : Z80State) : Z80State :=
  out z (BC z) (E z)

def ed_5a (z : Z80State) : Z80State :=
  adc_hl z z.m_de

def ed_5b (z : Z80State) : Z80State :=
  let p := arg16 z; let z := { p.1 with m_ea := p.2 }; let z := { z with m_de := rm16 z z.m_ea z.m_de }; setWZ z (z.m_ea + 1)

def ed_5c (z : Z80State) : Z80State :=
  neg z

def ed_5d (z : Z80State) : Z80State :=
  reti z

def ed_5e (z : Z80State) : Z80State :=
  { z with m_im := 2 }

def ed_5f (z : Z80State) : Z80State :=
  ld_a_r z

def ed_60 (z : Z80State) : Z80State :=
  let v := in_ z (BC z); let z := setH z v; setF z ((F z &&& CF) ||| SZP v)

def ed_61 (z : Z80State) : Z80State :=
  out z (BC z) (H z)

def ed_62 (z : Z80State) : Z80State :=
  sbc_hl z z.m_hl

def ed_63 (z : Z80State) : Z80State :=
  let p := arg16 z; let z := { p.1 with m_ea := p.2 }; let z := wm16 z z.m_ea z.m_hl; setWZ z (z.m_ea + 1)

def ed_64 (z : Z80State) : Z80State :=
  neg z

def ed_65 (z : Z80State) : Z80State :=
  retn z

def ed_66 (z : Z80State) : Z80State :=
  { z with m_im := 0 }

def ed_67 (z : Z80State) : Z80State :=
  rrd z

def ed_68 (z : Z80State) : Z80State :=
  let v := in_ z (BC z); let z := setL z v; setF z ((F z &&& CF) ||| SZP v)

def ed_69 (z : Z80State) : Z80State :=
  out z (BC z) (L z)

def ed_6a (z : Z80State) : Z80State :=
  adc_hl z z.m_hl

def ed_6b (z : Z80State) : Z80State :=
  let p := arg16 z; let z := { p.1 with m_ea := p.2 }; let z := { z with m_hl := rm16 z z.m_ea z.m_hl }; setWZ z (z.m_ea + 1)

def ed_6c (z : Z80State) : Z80State :=
  neg z

def ed_6d (z : Z80State) : Z80State :=
  reti z

def ed_6e (z : Z80State) : Z80State :=
  { z with m_im := 0 }

def ed_6f (z : Z80State) : Z80State :=
  rld z

def ed_70 (z : Z80State) : Z80State :=
  let v := in_ z (BC z); setF z ((F z &&& CF) ||| SZP v)

def ed_71 (z : Z80State) : Z80State :=
  out z (BC z) 0

def ed_72 (z : Z80State) : Z80State :=
  sbc_hl z z.m_sp

def ed_73 (z : Z80State) : Z80State :=
  let p := arg16 z; let z := { p.1 with m_ea := p.2 }; let z := wm16 z z.m_ea z.m_sp; setWZ z (z.m_ea + 1)

def ed_74 (z : Z80State) : Z80State :=
  neg z

def ed_75 (z : Z80State) : Z80State :=
  retn z

def ed_76 (z : Z80State) : Z80State :=
  { z with m_im := 1 }

def ed_77 (z : Z80State) : Z80State :=
  illegal_2 z

def ed_78 (z : Z80State) : Z80State :=
  let v := in_ z (BC z); let z := setA z v; let z := setF z ((F z &&& CF) ||| SZP v); setWZ z (BC z + 1)

def ed_79 (z : Z80State) : Z80State :=
  let z := out z (BC z) (A z); setWZ z (BC z + 1)

def ed_7a (z : Z80State) : Z80State :=
  adc_hl z z.m_sp

def ed_7b (z : Z80State) : Z80State :=
  let p := arg16 z; let z := { p.1 with m_ea := p.2 }; let z := { z with m_sp := rm16 z z.m_ea z.m_sp }; setWZ z (z.m_ea + 1)

def ed_7c (z : Z80State) : Z80State :=
  neg z

def ed_7d (z : Z80State) : Z80State :=
  reti z

def ed_7e (z : Z80State) : Z80State :=
  { z with m_im := 2 }

def ed_7f (z : Z80State) : Z80State :=
  illegal_2 z

def ed_80 (z : Z80State) : Z80State :=
  illegal_2 z

def ed_81 (z : Z80State) : Z80State :=
  illegal_2 z

def ed_82 (z : Z80State) : Z80State :=
  illegal_2 z

def ed_83 (z : Z80State) : Z80State :=
  illegal_2 z

def ed_84 (z : Z80State) : Z80State :=
  illegal_2 z

def ed_85 (z : Z80State) : Z80State :=
  illegal_2 z

def ed_86 (z : Z80State) : Z80State :=
  illegal_2 z

def ed_87 (z : Z80State) : Z80State :=
  illegal_2 z

def ed_88 (z : Z80State) : Z80State :=
  illegal_2 z

def ed_89 (z : Z80State) : Z80State :=
  illegal_2 z

def ed_8a (z : Z80State) : Z80State :=
  illegal_2 z

def ed_8b (z : Z80State) : Z80State :=
  illegal_2 z

def ed_8c (z : Z80State) : Z80State :=
  illegal_2 z

def ed_8d (z : Z80State) : Z80State :=
  illegal_2 z

def ed_8e (z : Z80State) : Z80State :=
  illegal_2 z

def ed_8f (z : Z80State) : Z80State :=
  illegal_2 z

def ed_90 (z : Z80State) : Z80State :=
  illegal_2 z

def ed_91 (z : Z80State) : Z80State :=
  illegal_2 z

def ed_92 (z : Z80State) : Z80State :=
  illegal_2 z

def ed_93 (z : Z80State) : Z80State :=
  illegal_2 z

def ed_94 (z : Z80State) : Z80State :=
  illegal_2 z

def ed_95 (z : Z80State) : Z80State :=
  illegal_2 z

def ed_96 (z : Z80State) : Z80State :=
  illegal_2 z

def ed_97 (z : Z80State) : Z80State :=
  illegal_2 z

def ed_98 (z : Z80State) : Z80State :=
  illegal_2 z

def ed_99 (z : Z80State) : Z80State :=
  illegal_2 z

def ed_9a (z : Z80State) : Z80State :=
  illegal_2 z

def ed_9b (z : Z80State) : Z80State :=
  illegal_2 z

def ed_9c (z : Z80State) : Z80State :=
  illegal_2 z

def ed_9d (z : Z80State) : Z80State :=
  illegal_2 z

def ed_9e (z : Z80State) : Z80State :=
  illegal_2 z

def ed_9f (z : Z80State) : Z80State :=
  illegal_2 z

def ed_a0 (z : Z80State) : Z80State :=
  ldi z

def ed_a1 (z : Z80State) : Z80State :=
  cpi z

def ed_a2 (z : Z80State) : Z80State :=
  ini z

def ed_a3 (z : Z80State) : Z80State :=
  outi z

def ed_a4 (z : Z80State) : Z80State :=
  illegal_2 z

def ed_a5 (z : Z80State) : Z80State :=
  illegal_2 z

def ed_a6 (z : Z80State) : Z80State :=
  illegal_2 z

def ed_a7 (z : Z80State) : Z80State :=
  illegal_2 z

def ed_a8 (z : Z80State) : Z80State :=
  ldd z

def ed_a9 (z : Z80State) : Z80State :=
  cpd z

def ed_aa (z : Z80State) : Z80State :=
  ind z

def ed_ab (z : Z80State) : Z80State :=
  outd z

def ed_ac (z : Z80State) : Z80State :=
  illegal_2 z

def ed_ad (z : Z80State) : Z80State :=
  illegal_2 z

def ed_ae (z : Z80State) : Z80State :=
  illegal_2 z

def ed_af (z : Z80State) : Z80State :=
  illegal_2 z

def ed_b0 (z : Z80State) : Z80State :=
  ldir z

def ed_b1 (z : Z80State) : Z80State :=
  cpir z

def ed_b2 (z : Z80State) : Z80State :=
  inir z

def ed_b3 (z : Z80State) : Z80State :=
  otir z

def ed_b4 (z : Z80State) : Z80State :=
  illegal_2 z

def ed_b5 (z : Z80State) : Z80State :=
  illegal_2 z

def ed_b6 (z : Z80State) : Z80State :=
  illegal_2 z

def ed_b7 (z : Z80State) : Z80State :=
  illegal_2 z

def ed_b8 (z : Z80State) : Z80State :=
  lddr z

def ed_b9 (z : Z80State) : Z80State :=
  cpdr z

def ed_ba (z : Z80State) : Z80State :=
  indr z

def ed_bb (z : Z80State) : Z80State :=
  otdr z

def ed_bc (z : Z80State) : Z80State :=
  illegal_2 z

def ed_bd (z : Z80State) : Z80State :=
  illegal_2 z

def ed_be (z : Z80State) : Z80State :=
  illegal_2 z

def ed_bf (z : Z80State) : Z80State :=
  illegal_2 z

def ed_c0 (z : Z80State) : Z80State :=
  illegal_2 z

def ed_c1 (z : Z80State) : Z80State :=
  illegal_2 z

def ed_c2 (z : Z80State) : Z80State :=
  illegal_2 z

def ed_c3 (z : Z80State) : Z80State :=
  illegal_2 z

def ed_c4 (z : Z80State) : Z80State :=
  illegal_2 z

def ed_c5 (z : Z80State) : Z80State :=
  illegal_2 z

def ed_c6 (z : Z80State) : Z80State :=
  illegal_2 z

def ed_c7 (z : Z80State) : Z80State :=
  illegal_2 z

def ed_c8 (z : Z80State) : Z80State :=
  illegal_2 z

def ed_c9 (z : Z80State) : Z80State :=
  illegal_2 z

def ed_ca (z : Z80State) : Z80State :=
  illegal_2 z

def ed_cb (z : Z80State) : Z80State :=
  illegal_2 z

def ed_cc (z : Z80State) : Z80State :=
  illegal_2 z

def ed_cd (z : Z80State) : Z80State :=
  illegal_2 z

def ed_ce (z : Z80State) : Z80State :=
  illegal_2 z

def ed_cf (z : Z80State) : Z80State :=
  illegal_2 z

def ed_d0 (z : Z80State) : Z80State :=
  illegal_2 z

def ed_d1 (z : Z80State) : Z80State :=
  illegal_2 z

def ed_d2 (z : Z80State) : Z80State :=
  illegal_2 z

def ed_d3 (z : Z80State) : Z80State :=
  illegal_2 z

def ed_d4 (z : Z80State) : Z80State :=
  illegal_2 z

def ed_d5 (z : Z80State) : Z80State :=
  illegal_2 z

def ed_d6 (z : Z80State) : Z80State :=
  illegal_2 z

def ed_d7 (z : Z80State) : Z80State :=
  illegal_2 z

def ed_d8 (z : Z80State) : Z80State :=
  illegal_2 z

def ed_d9 (z : Z80State) : Z80State :=
  illegal_2 z

def ed_da (z : Z80State) : Z80State :=
  illegal_2 z

def ed_db (z : Z80State) : Z80State :=
  illegal_2 z

def ed_dc (z : Z80State) : Z80State :=
  illegal_2 z

def ed_dd (z : Z80State) : Z80State :=
  illegal_2 z

def ed_de (z : Z80State) : Z80State :=
  illegal_2 z

def ed_df (z : Z80State) : Z80State :=
  illegal_2 z

def ed_e0 (z : Z80State) : Z80State :=
  illegal_2 z

def ed_e1 (z : Z80State) : Z80State :=
  illegal_2 z

def ed_e2 (z : Z80State) : Z80State :=
  illegal_2 z

def ed_e3 (z : Z80State) : Z80State :=
  illegal_2 z

def ed_e4 (z : Z80State) : Z80State :=
  illegal_2 z

def ed_e5 (z : Z80State) : Z80State :=
  illegal_2 z

def ed_e6 (z : Z80State) : Z80State :=
  illegal_2 z

def ed_e7 (z : Z80State) : Z80State :=
  illegal_2 z

def ed_e8 (z : Z80State) : Z80State :=
  illegal_2 z

def ed_e9 (z : Z80State) : Z80State :=
  illegal_2 z

def ed_ea (z : Z80State) : Z80State :=
  illegal_2 z

def ed_eb (z : Z80State) : Z80State :=
  illegal_2 z

def ed_ec (z : Z80State) : Z80State :=
  illegal_2 z

def ed_ed (z : Z80State) : Z80State :=
  illegal_2 z

def ed_ee (z : Z80State) : Z80State :=
  illegal_2 z

def ed_ef (z : Z80State) : Z80State :=
  illegal_2 z

def ed_f0 (z : Z80State) : Z80State :=
  illegal_2 z

def ed_f1 (z : Z80State) : Z80State :=
  illegal_2 z

def ed_f2 (z : Z80State) : Z80State :=
  illegal_2 z

def ed_f3 (z : Z80State) : Z80State :=
  illegal_2 z

def ed_f4 (z : Z80State) : Z80State :=
  illegal_2 z

def ed_f5 (z : Z80State) : Z80State :=
  illegal_2 z

def ed_f6 (z : Z80State) : Z80State :=
  illegal_2 z

def ed_f7 (z : Z80State) : Z80State :=
  illegal_2 z

def ed_f8 (z : Z80State) : Z80State :=
  illegal_2 z

def ed_f9 (z : Z80State) : Z80State :=
  illegal_2 z

def ed_fa (z : Z80State) : Z80State :=
  illegal_2 z

def ed_fb (z : Z80State) : Z80State :=
  illegal_2 z

def ed_fc (z : Z80State) : Z80State :=
  illegal_2 z

def ed_fd (z : Z80State) : Z80State :=
  illegal_2 z

def ed_fe (z : Z80State) : Z80State :=
  illegal_2 z

def ed_ff (z : Z80State) : Z80State :=
  illegal_2 z

def exec_ed (z : Z80State) (o : Nat) : Z80State :=
  let z := ccEd z o
  match o with
  | 0x00 => ed_00 z
  | 0x01 => ed_01 z
  | 0x02 => ed_02 z
  | 0x03 => ed_03 z
  | 0x04 => ed_04 z
  | 0x05 => ed_05 z
  | 0x06 => ed_06 z
  | 0x07 => ed_07 z
  | 0x08 => ed_08 z
  | 0x09 => ed_09 z
  | 0x0a => ed_0a z
  | 0x0b => ed_0b z
  | 0x0c => ed_0c z
  | 0x0d => ed_0d z
  | 0x0e => ed_0e z
  | 0x0f => ed_0f z
  | 0x10 => ed_10 z
  | 0x11 => ed_11 z
  | 0x12 => ed_12 z
  | 0x13 => ed_13 z
  | 0x14 => ed_14 z
  | 0x15 => ed_15 z
  | 0x16 => ed_16 z
  | 0x17 => ed_17 z
  | 0x18 => ed_18 z
  | 0x19 => ed_19 z
  | 0x1a => ed_1a z
  | 0x1b => ed_1b z
  | 0x1c => ed_1c z
  | 0x1d => ed_1d z
  | 0x1e => ed_1e z
  | 0x1f => ed_1f z
  | 0x20 => ed_20 z
  | 0x21 => ed_21 z
  | 0x22 => ed_22 z
  | 0x23 => ed_23 z
  | 0x24 => ed_24 z
  | 0x25 => ed_25 z
  | 0x26 => ed_26 z
  | 0x27 => ed_27 z
  | 0x28 => ed_28 z
  | 0x29 => ed_29 z
  | 0x2a => ed_2a z
  | 0x2b => ed_2b z
  | 0x2c => ed_2c z
  | 0x2d => ed_2d z
  | 0x2e => ed_2e z
  | 0x2f => ed_2f z
  | 0x30 => ed_30 z
  | 0x31 => ed_31 z
  | 0x32 => ed_32 z
  | 0x33 => ed_33 z
  | 0x34 => ed_34 z
  | 0x35 => ed_35 z
  | 0x36 => ed_36 z
  | 0x37 => ed_37 z
  | 0x38 => ed_38 z
  | 0x39 => ed_39 z
  | 0x3a => ed_3a z
  | 0x3b => ed_3b z
  | 0x3c => ed_3c z
  | 0x3d => ed_3d z
  | 0x3e => ed_3e z
  | 0x3f => ed_3f z
  | 0x40 => ed_40 z
  | 0x41 => ed_41 z
  | 0x42 => ed_42 z
  | 0x43 => ed_43 z
  | 0x44 => ed_44 z
  | 0x45 => ed_45 z
  | 0x46 => ed_46 z
  | 0x47 => ed_47 z
  | 0x48 => ed_48 z
  | 0x49 => ed_49 z
  | 0x4a => ed_4a z
  | 0x4b => ed_4b z
  | 0x4c => ed_4c z
  | 0x4d => ed_4d z
  | 0x4e => ed_4e z
  | 0x4f => ed_4f z
  | 0x50 => ed_50 z
  | 0x51 => ed_51 z
  | 0x52 => ed_52 z
  | 0x53 => ed_53 z
  | 0x54 => ed_54 z
  | 0x55 => ed_55 z
  | 0x56 => ed_56 z
  | 0x57 => ed_57 z
  | 0x58 => ed_58 z
  | 0x59 => ed_59 z
  | 0x5a => ed_5a z
  | 0x5b => ed_5b z
  | 0x5c => ed_5c z
  | 0x5d => ed_5d z
  | 0x5e => ed_5e z
  | 0x5f => ed_5f z
  | 0x60 => ed_60 z
  | 0x61 => ed_61 z
  | 0x62 => ed_62 z
  | 0x63 => ed_63 z
  | 0x64 => ed_64 z
  | 0x65 => ed_65 z
  | 0x66 => ed_66 z
  | 0x67 => ed_67 z
  | 0x68 => ed_68 z
  | 0x69 => ed_69 z
  | 0x6a => ed_6a z
  | 0x6b => ed_6b z
  | 0x6c => ed_6c z
  | 0x6d => ed_6d z
  | 0x6e => ed_6e z
  | 0x6f => ed_6f z
  | 0x70 => ed_70 z
  | 0x71 => ed_71 z
  | 0x72 => ed_72 z
  | 0x73 => ed_73 z
  | 0x74 => ed_74 z
  | 0x75 => ed_75 z
  | 0x76 => ed_76 z
  | 0x77 => ed_77 z
  | 0x78 => ed_78 z
  | 0x79 => ed_79 z
  | 0x7a => ed_7a z
  | 0x7b => ed_7b z
  | 0x7c => ed_7c z
  | 0x7d => ed_7d z
  | 0x7e => ed_7e z
  | 0x7f => ed_7f z
  | 0x80 => ed_80 z
  | 0x81 => ed_81 z
  | 0x82 => ed_82 z
  | 0x83 => ed_83 z
  | 0x84 => ed_84 z
  | 0x85 => ed_85 z
  | 0x86 => ed_86 z
  | 0x87 => ed_87 z
  | 0x88 => ed_88 z
  | 0x89 => ed_89 z
  | 0x8a => ed_8a z
  | 0x8b => ed_8b z
  | 0x8c => ed_8c z
  | 0x8d => ed_8d z
  | 0x8e => ed_8e z
  | 0x8f => ed_8f z
  | 0x90 => ed_90 z
  | 0x91 => ed_91 z
  | 0x92 => ed_92 z
  | 0x93 => ed_93 z
  | 0x94 => ed_94 z
  | 0x95 => ed_95 z
  | 0x96 => ed_96 z
  | 0x97 => ed_97 z
  | 0x98 => ed_98 z
  | 0x99 => ed_99 z
  | 0x9a => ed_9a z
  | 0x9b => ed_9b z
  | 0x9c => ed_9c z
  | 0x9d => ed_9d z
  | 0x9e => ed_9e z
  | 0x9f => ed_9f z
  | 0xa0 => ed_a0 z
  | 0xa1 => ed_a1 z
  | 0xa2 => ed_a2 z
  | 0xa3 => ed_a3 z
  | 0xa4 => ed_a4 z
  | 0xa5 => ed_a5 z
  | 0xa6 => ed_a6 z
  | 0xa7 => ed_a7 z
  | 0xa8 => ed_a8 z
  | 0xa9 => ed_a9 z
  | 0xaa => ed_aa z
  | 0xab => ed_ab z
  | 0xac => ed_ac z
  | 0xad => ed_ad z
  | 0xae => ed_ae z
  | 0xaf => ed_af z
  | 0xb0 => ed_b0 z
  | 0xb1 => ed_b1 z
  | 0xb2 => ed_b2 z
  | 0xb3 => ed_b3 z
  | 0xb4 => ed_b4 z
  | 0xb5 => ed_b5 z
  | 0xb6 => ed_b6 z
  | 0xb7 => ed_b7 z
  | 0xb8 => ed_b8 z
  | 0xb9 => ed_b9 z
  | 0xba => ed_ba z
  | 0xbb => ed_bb z
  | 0xbc => ed_bc z
  | 0xbd => ed_bd z
  | 0xbe => ed_be z
  | 0xbf => ed_bf z
  | 0xc0 => ed_c0 z
  | 0xc1 => ed_c1 z
  | 0xc2 => ed_c2 z
  | 0xc3 => ed_c3 z
  | 0xc4 => ed_c4 z
  | 0xc5 => ed_c5 z
  | 0xc6 => ed_c6 z
  | 0xc7 => ed_c7 z
  | 0xc8 => ed_c8 z
  | 0xc9 => ed_c9 z
  | 0xca => ed_ca z
  | 0xcb => ed_cb z
  | 0xcc => ed_cc z
  | 0xcd => ed_cd z
  | 0xce => ed_ce z
  | 0xcf => ed_cf z
  | 0xd0 => ed_d0 z
  | 0xd1 => ed_d1 z
  | 0xd2 => ed_d2 z
  | 0xd3 => ed_d3 z
  | 0xd4 => ed_d4 z
  | 0xd5 => ed_d5 z
  | 0xd6 => ed_d6 z
  | 0xd7 => ed_d7 z
  | 0xd8 => ed_d8 z
  | 0xd9 => ed_d9 z
  | 0xda => ed_da z
  | 0xdb => ed_db z
  | 0xdc => ed_dc z
  | 0xdd => ed_dd z
  | 0xde => ed_de z
  | 0xdf => ed_df z
  | 0xe0 => ed_e0 z
  | 0xe1 => ed_e1 z
  | 0xe2 => ed_e2 z
  | 0xe3 => ed_e3 z
  | 0xe4 => ed_e4 z
  | 0xe5 => ed_e5 z
  | 0xe6 => ed_e6 z
  | 0xe7 => ed_e7 z
  | 0xe8 => ed_e8 z
  | 0xe9 => ed_e9 z
  | 0xea => ed_ea z
  | 0xeb => ed_eb z
  | 0xec => ed_ec z
  | 0xed => ed_ed z
  | 0xee => ed_ee z
  | 0xef => ed_ef z
  | 0xf0 => ed_f0 z
  | 0xf1 => ed_f1 z
  | 0xf2 => ed_f2 z
  | 0xf3 => ed_f3 z
  | 0xf4 => ed_f4 z
  | 0xf5 => ed_f5 z
  | 0xf6 => ed_f6 z
  | 0xf7 => ed_f7 z
  | 0xf8 => ed_f8 z
  | 0xf9 => ed_f9 z
  | 0xfa => ed_fa z
  | 0xfb => ed_fb z
  | 0xfc => ed_fc z
  | 0xfd => ed_fd z
  | 0xfe => ed_fe z
  | 0xff => ed_ff z
  | _ => z


/- Main opcode page (z80.c).  op_dd and op_fd recurse through the
   prefix pages and live inside exec_go below. -/

def op_00 (z : Z80State) : Z80State :=
  z

def op_01 (z : Z80State) : Z80State :=
  let p := arg16 z; setBC p.1 p.2

def op_02 (z : Z80State) : Z80State :=
  let z := wm z (BC z) (A z); let z := setWZL z ((BC z + 1) &&& 0xFF); setWZH z (A z)

def op_03 (z : Z80State) : Z80State :=
  setBC z (BC z + 1)

def op_04 (z : Z80State) : Z80State :=
  let p := inc z (B z); setB p.1 p.2

def op_05 (z : Z80State) : Z80State :=
  let p := dec z (B z); setB p.1 p.2

def op_06 (z : Z80State) : Z80State :=
  let p := rop z; setB p.1 p.2

def op_07 (z : Z80State) : Z80State :=
  rlca z

def op_08 (z : Z80State) : Z80State :=
  ex_af z

def op_09 (z : Z80State) : Z80State :=
  let p := add16 z z.m_hl z.m_bc; { p.1 with m_hl := p.2 }

def op_0a (z : Z80State) : Z80State :=
  let z := setA z (rm z (BC z)); setWZ z (BC z + 1)

def op_0b (z : Z80State) : Z80State :=
  setBC z (BC z + 65535)

def op_0c (z : Z80State) : Z80State :=
  let p := inc z (C z); setC p.1 p.2

def op_0d (z : Z80State) : Z80State :=
  let p := dec z (C z); setC p.1 p.2

def op_0e (z : Z80State) : Z80State :=
  let p := rop z; setC p.1 p.2

def op_0f (z : Z80State) : Z80State :=
  rrca z

def op_10 (z : Z80State) : Z80State :=
  let z := setB z (B z + 255); jr_cond z (B z ≠ 0) 0x10

def op_11 (z : Z80State) : Z80State :=
  let p := arg16 z; setDE p.1 p.2

def op_12 (z : Z80State) : Z80State :=
  let z := wm z (DE z) (A z); let z := setWZL z ((DE z + 1) &&& 0xFF); setWZH z (A z)

def op_13 (z : Z80State) : Z80State :=
  setDE z (DE z + 1)

def op_14 (z : Z80State) : Z80State :=
  let p := inc z (D z); setD p.1 p.2

def op_15 (z : Z80State) : Z80State :=
  let p := dec z (D z); setD p.1 p.2

def op_16 (z : Z80State) : Z80State :=
  let p := rop z; setD p.1 p.2

def op_17 (z : Z80State) : Z80State :=
  rla z

def op_18 (z : Z80State) : Z80State :=
  jr z

def op_19 (z : Z80State) : Z80State :=
  let p := add16 z z.m_hl z.m_de; { p.1 with m_hl := p.2 }

def op_1a (z : Z80State) : Z80State :=
  let z := setA z (rm z (DE z)); setWZ z (DE z + 1)

def op_1b (z : Z80State) : Z80State :=
  setDE z (DE z + 65535)

def op_1c (z : Z80State) : Z80State :=
  let p := inc z (E z); setE p.1 p.2

def op_1d (z : Z80State) : Z80State :=
  let p := dec z (E z); setE p.1 p.2

def op_1e (z : Z80State) : Z80State :=
  let p := rop z; setE p.1 p.2

def op_1f (z : Z80State) : Z80State :=
  rra z

def op_20 (z : Z80State) : Z80State :=
  jr_cond z (F z &&& ZF = 0) 0x20

def op_21 (z : Z80State) : Z80State :=
  let p := arg16 z; setHL p.1 p.2

def op_22 (z : Z80State) : Z80State :=
  let p := arg16 z; let z := { p.1 with m_ea := p.2 }; let z := wm16 z z.m_ea z.m_hl; setWZ z (z.m_ea + 1)

def op_23 (z : Z80State) : Z80State :=
  setHL z (HL z + 1)

def op_24 (z : Z80State) : Z80State :=
  let p := inc z (H z); setH p.1 p.2

def op_25 (z : Z80State) : Z80State :=
  let p := dec z (H z); setH p.1 p.2

def op_26 (z : Z80State) : Z80State :=
  let p := rop z; setH p.1 p.2

def op_27 (z : Z80State) : Z80State :=
  daa z

def op_28 (z : Z80State) : Z80State :=
  jr_cond z (F z &&& ZF ≠ 0) 0x28

def op_29 (z : Z80State) : Z80State :=
  let p := add16 z z.m_hl z.m_hl; { p.1 with m_hl := p.2 }

def op_2a (z : Z80State) : Z80State :=
  let p := arg16 z; let z := { p.1 with m_ea := p.2 }; let z := { z with m_hl := rm16 z z.m_ea z.m_hl }; setWZ z (z.m_ea + 1)

def op_2b (z : Z80State) : Z80State :=
  setHL z (HL z + 65535)

def op_2c (z : Z80State) : Z80State :=
  let p := inc z (L z); setL p.1 p.2

def op_2d (z : Z80State) : Z80State :=
  let p := dec z (L z); setL p.1 p.2

def op_2e (z : Z80State) : Z80State :=
  let p := rop z; setL p.1 p.2

def op_2f (z : Z80State) : Z80State :=
  let z := setA z (A z ^^^ 0xff); setF z ((F z &&& (SF ||| ZF ||| PF ||| CF)) ||| HF ||| NF ||| (A z &&& (YF ||| XF)))

def op_30 (z : Z80State) : Z80State :=
  jr_cond z (F z &&& CF = 0) 0x30

def op_31 (z : Z80State) : Z80State :=
  let p := arg16 z; setSP p.1 p.2

def op_32 (z : Z80State) : Z80State :=
  let p := arg16 z; let z := { p.1 with m_ea := p.2 }; let z := wm z z.m_ea (A z); let z := setWZL z ((z.m_ea + 1) &&& 0xFF); setWZH z (A z)

def op_33 (z : Z80State) : Z80State :=
  setSP z (SP z + 1)

def op_34 (z : Z80State) : Z80State :=
  let p := inc z (rm z (HL z)); wm p.1 (HL p.1) p.2

def op_35 (z : Z80State) : Z80State :=
  let p := dec z (rm z (HL z)); wm p.1 (HL p.1) p.2

def op_36 (z : Z80State) : Z80State :=
  let p := rop z; wm p.1 (HL p.1) p.2

def op_37 (z : Z80State) : Z80State :=
  setF z ((F z &&& (SF ||| ZF ||| YF ||| XF ||| PF)) ||| CF ||| (A z &&& (YF ||| XF)))

def op_38 (z : Z80State) : Z80State :=
  jr_cond z (F z &&& CF ≠ 0) 0x38

def op_39 (z : Z80State) : Z80State :=
  let p := add16 z z.m_hl z.m_sp; { p.1 with m_hl := p.2 }

def op_3a (z : Z80State) : Z80State :=
  let p := arg16 z; let z := { p.1 with m_ea := p.2 }; let z := setA z (rm z z.m_ea); setWZ z (z.m_ea + 1)

def op_3b (z : Z80State) : Z80State :=
  setSP z (SP z + 65535)

def op_3c (z : Z80State) : Z80State :=
  let p := inc z (A z); setA p.1 p.2

def op_3d (z : Z80State) : Z80State :=
  let p := dec z (A z); setA p.1 p.2

def op_3e (z : Z80State) : Z80State :=
  let p := rop z; setA p.1 p.2

def op_3f (z : Z80State) : Z80State :=
  setF z (((F z &&& (SF ||| ZF ||| YF ||| XF ||| PF ||| CF)) ||| ((F z &&& CF) <<< 4) ||| (A z &&& (YF ||| XF))) ^^^ CF)

def op_40 (z : Z80State) : Z80State :=
  z

def op_41 (z : Z80State) : Z80State :=
  setB z (C z)

def op_42 (z : Z80State) : Z80State :=
  setB z (D z)

def op_43 (z : Z80State) : Z80State :=
  setB z (E z)

def op_44 (z : Z80State) : Z80State :=
  setB z (H z)

def op_45 (z : Z80State) : Z80State :=
  setB z (L z)

def op_46 (z : Z80State) : Z80State :=
  setB z (rm z (HL z))

def op_47 (z : Z80State) : Z80State :=
  setB z (A z)

def op_48 (z : Z80State) : Z80State :=
  setC z (B z)

def op_49 (z : Z80State) : Z80State :=
  z

def op_4a (z : Z80State) : Z80State :=
  setC z (D z)

def op_4b (z : Z80State) : Z80State :=
  setC z (E z)

def op_4c (z : Z80State) : Z80State :=
  setC z (H z)

def op_4d (z : Z80State) : Z80State :=
  setC z (L z)

def op_4e (z : Z80State) : Z80State :=
  setC z (rm z (HL z))

def op_4f (z : Z80State) : Z80State :=
  setC z (A z)

def op_50 (z : Z80State) : Z80State :=
  setD z (B z)

def op_51 (z : Z80State) : Z80State :=
  setD z (C z)

def op_52 (z : Z80State) : Z80State :=
  z

def op_53 (z : Z80State) : Z80State :=
  setD z (E z)

def op_54 (z : Z80State) : Z80State :=
  setD z (H z)

def op_55 (z : Z80State) : Z80State :=
  setD z (L z)

def op_56 (z : Z80State) : Z80State :=
  setD z (rm z (HL z))

def op_57 (z : Z80State) : Z80State :=
  setD z (A z)

def op_58 (z : Z80State) : Z80State :=
  setE z (B z)

def op_59 (z : Z80State) : Z80State :=
  setE z (C z)

def op_5a (z : Z80State) : Z80State :=
  setE z (D z)

def op_5b (z : Z80State) : Z80State :=
  z

def op_5c (z : Z80State) : Z80State :=
  setE z (H z)

def op_5d (z : Z80State) : Z80State :=
  setE z (L z)

def op_5e (z : Z80State) : Z80State :=
  setE z (rm z (HL z))

def op_5f (z : Z80State) : Z80State :=
  setE z (A z)

def op_60 (z : Z80State) : Z80State :=
  setH z (B z)

def op_61 (z : Z80State) : Z80State :=
  setH z (C z)

def op_62 (z : Z80State) : Z80State :=
  setH z (D z)

def op_63 (z : Z80State) : Z80State :=
  setH z (E z)

def op_64 (z : Z80State) : Z80State :=
  z

def op_65 (z : Z80State) : Z80State :=
  setH z (L z)

def op_66 (z : Z80State) : Z80State :=
  setH z (rm z (HL z))

def op_67 (z : Z80State) : Z80State :=
  setH z (A z)

def op_68 (z : Z80State) : Z80State :=
  setL z (B z)

def op_69 (z : Z80State) : Z80State :=
  setL z (C z)

def op_6a (z : Z80State) : Z80State :=
  setL z (D z)

def op_6b (z : Z80State) : Z80State :=
  setL z (E z)

def op_6c (z : Z80State) : Z80State :=
  setL z (H z)

def op_6d (z : Z80State) : Z80State :=
  z

def op_6e (z : Z80State) : Z80State :=
  setL z (rm z (HL z))

def op_6f (z : Z80State) : Z80State :=
  setL z (A z)

def op_70 (z : Z80State) : Z80State :=
  wm z (HL z) (B z)

def op_71 (z : Z80State) : Z80State :=
  wm z (HL z) (C z)

def op_72 (z : Z80State) : Z80State :=
  wm z (HL z) (D z)

def op_73 (z : Z80State) : Z80State :=
  wm z (HL z) (E z)

def op_74 (z : Z80State) : Z80State :=
  wm z (HL z) (H z)

def op_75 (z : Z80State) : Z80State :=
  wm z (HL z) (L z)

def op_76 (z : Z80State) : Z80State :=
  halt z

def op_77 (z : Z80State) : Z80State :=
  wm z (HL z) (A z)

def op_78 (z : Z80State) : Z80State :=
  setA z (B z)

def op_79 (z : Z80State) : Z80State :=
  setA z (C z)

def op_7a (z : Z80State) : Z80State :=
  setA z (D z)

def op_7b (z : Z80State) : Z80State :=
  setA z (E z)

def op_7c (z : Z80State) : Z80State :=
  setA z (H z)

def op_7d (z : Z80State) : Z80State :=
  setA z (L z)

def op_7e (z : Z80State) : Z80State :=
  setA z (rm z (HL z))

def op_7f (z : Z80State) : Z80State :=
  z

def op_80 (z : Z80State) : Z80State :=
  add_a z (B z)

def op_81 (z : Z80State) : Z80State :=
  add_a z (C z)

def op_82 (z : Z80State) : Z80State :=
  add_a z (D z)

def op_83 (z : Z80State) : Z80State :=
  add_a z (E z)

def op_84 (z : Z80State) : Z80State :=
  add_a z (H z)

def op_85 (z : Z80State) : Z80State :=
  add_a z (L z)

def op_86 (z : Z80State) : Z80State :=
  add_a z (rm z (HL z))

def op_87 (z : Z80State) : Z80State :=
  add_a z (A z)

def op_88 (z : Z80State) : Z80State :=
  adc_a z (B z)

def op_89 (z : Z80State) : Z80State :=
  adc_a z (C z)

def op_8a (z : Z80State) : Z80State :=
  adc_a z (D z)

def op_8b (z : Z80State) : Z80State :=
  adc_a z (E z)

def op_8c (z : Z80State) : Z80State :=
  adc_a z (H z)

def op_8d (z : Z80State) : Z80State :=
  adc_a z (L z)

def op_8e (z : Z80State) : Z80State :=
  adc_a z (rm z (HL z))

def op_8f (z : Z80State) : Z80State :=
  adc_a z (A z)

def op_90 (z : Z80State) : Z80State :=
  sub z (B z)

def op_91 (z : Z80State) : Z80State :=
  sub z (C z)

def op_92 (z : Z80State) : Z80State :=
  sub z (D z)

def op_93 (z : Z80State) : Z80State :=
  sub z (E z)

def op_94 (z : Z80State) : Z80State :=
  sub z (H z)

def op_95 (z : Z80State) : Z80State :=
  sub z (L z)

def op_96 (z : Z80State) : Z80State :=
  sub z (rm z (HL z))

def op_97 (z : Z80State) : Z80State :=
  sub z (A z)

def op_98 (z : Z80State) : Z80State :=
  sbc_a z (B z)

def op_99 (z : Z80State) : Z80State :=
  sbc_a z (C z)

def op_9a (z : Z80State) : Z80State :=
  sbc_a z (D z)

def op_9b (z : Z80State) : Z80State :=
  sbc_a z (E z)

def op_9c (z : Z80State) : Z80State :=
  sbc_a z (H z)

def op_9d (z : Z80State) : Z80State :=
  sbc_a z (L z)

def op_9e (z : Z80State) : Z80State :=
  sbc_a z (rm z (HL z))

def op_9f (z : Z80State) : Z80State :=
  sbc_a z (A z)

def op_a0 (z : Z80State) : Z80State :=
  and_a z (B z)

def op_a1 (z : Z80State) : Z80State :=
  and_a z (C z)

def op_a2 (z : Z80State) : Z80State :=
  and_a z (D z)

def op_a3 (z : Z80State) : Z80State :=
  and_a z (E z)

def op_a4 (z : Z80State) : Z80State :=
  and_a z (H z)

def op_a5 (z : Z80State) : Z80State :=
  and_a z (L z)

def op_a6 (z : Z80State) : Z80State :=
  and_a z (rm z (HL z))

def op_a7 (z : Z80State) : Z80State :=
  and_a z (A z)

def op_a8 (z : Z80State) : Z80State :=
  xor_a z (B z)

def op_a9 (z : Z80State) : Z80State :=
  xor_a z (C z)

def op_aa (z : Z80State) : Z80State :=
  xor_a z (D z)

def op_ab (z : Z80State) : Z80State :=
  xor_a z (E z)

def op_ac (z : Z80State) : Z80State :=
  xor_a z (H z)

def op_ad (z : Z80State) : Z80State :=
  xor_a z (L z)

def op_ae (z : Z80State) : Z80State :=
  xor_a z (rm z (HL z))

def op_af (z : Z80State) : Z80State :=
  xor_a z (A z)

def op_b0 (z : Z80State) : Z80State :=
  or_a z (B z)

def op_b1 (z : Z80State) : Z80State :=
  or_a z (C z)

def op_b2 (z : Z80State) : Z80State :=
  or_a z (D z)

def op_b3 (z : Z80State) : Z80State :=
  or_a z (E z)

def op_b4 (z : Z80State) : Z80State :=
  or_a z (H z)

def op_b5 (z : Z80State) : Z80State :=
  or_a z (L z)

def op_b6 (z : Z80State) : Z80State :=
  or_a z (rm z (HL z))

def op_b7 (z : Z80State) : Z80State :=
  or_a z (A z)

def op_b8 (z : Z80State) : Z80State :=
  cp z (B z)

def op_b9 (z : Z80State) : Z80State :=
  cp z (C z)

def op_ba (z : Z80State) : Z80State :=
  cp z (D z)

def op_bb (z : Z80State) : Z80State :=
  cp z (E z)

def op_bc (z : Z80State) : Z80State :=
  cp z (H z)

def op_bd (z : Z80State) : Z80State :=
  cp z (L z)

def op_be (z : Z80State) : Z80State :=
  cp z (rm z (HL z))

def op_bf (z : Z80State) : Z80State :=
  cp z (A z)

def op_c0 (z : Z80State) : Z80State :=
  ret_cond z (F z &&& ZF = 0) 0xc0

def op_c1 (z : Z80State) : Z80State :=
  let p := pop z z.m_bc; { p.1 with m_bc := p.2 }

def op_c2 (z : Z80State) : Z80State :=
  jp_cond z (F z &&& ZF = 0)

def op_c3 (z : Z80State) : Z80State :=
  jp z

def op_c4 (z : Z80State) : Z80State :=
  call_cond z (F z &&& ZF = 0) 0xc4

def op_c5 (z : Z80State) : Z80State :=
  push z z.m_bc

def op_c6 (z : Z80State) : Z80State :=
  let p := rop z; add_a p.1 p.2

def op_c7 (z : Z80State) : Z80State :=
  rst z 0x00

def op_c8 (z : Z80State) : Z80State :=
  ret_cond z (F z &&& ZF ≠ 0) 0xc8

def op_c9 (z : Z80State) : Z80State :=
  let p := pop z z.m_pc; let z := { p.1 with m_pc := p.2 }; setWZ z (PCD z)

def op_ca (z : Z80State) : Z80State :=
  jp_cond z (F z &&& ZF ≠ 0)

def op_cb (z : Z80State) : Z80State :=
  let z := { z with m_r := (z.m_r + 1) % 256 }; let p := rop z; exec_cb p.1 p.2

def op_cc (z : Z80State) : Z80State :=
  call_cond z (F z &&& ZF ≠ 0) 0xcc

def op_cd (z : Z80State) : Z80State :=
  call z

def op_ce (z : Z80State) : Z80State :=
  let p := rop z; adc_a p.1 p.2

def op_cf (z : Z80State) : Z80State :=
  rst z 0x08

def op_d0 (z : Z80State) : Z80State :=
  ret_cond z (F z &&& CF = 0) 0xd0

def op_d1 (z : Z80State) : Z80State :=
  let p := pop z z.m_de; { p.1 with m_de := p.2 }

def op_d2 (z : Z80State) : Z80State :=
  jp_cond z (F z &&& CF = 0)

def op_d3 (z : Z80State) : Z80State :=
  let p := rop z; let z := p.1; let n := p.2 ||| (A z <<< 8); let z := out z n (A z); let z := setWZL z (((n &&& 0xff) + 1) &&& 0xff); setWZH z (A z)

def op_d4 (z : Z80State) : Z80State :=
  call_cond z (F z &&& CF = 0) 0xd4

def op_d5 (z : Z80State) : Z80State :=
  push z z.m_de

def op_d6 (z : Z80State) : Z80State :=
  let p := rop z; sub p.1 p.2

def op_d7 (z : Z80State) : Z80State :=
  rst z 0x10

def op_d8 (z : Z80State) : Z80State :=
  ret_cond z (F z &&& CF ≠ 0) 0xd8

def op_d9 (z : Z80State) : Z80State :=
  exx z

def op_da (z : Z80State) : Z80State :=
  jp_cond z (F z &&& CF ≠ 0)

def op_db (z : Z80State) : Z80State :=
  let p := rop z; let z := p.1; let n := p.2 ||| (A z <<< 8); let z := setA z (in_ z n); setWZ z (n + 1)

def op_dc (z : Z80State) : Z80State :=
  call_cond z (F z &&& CF ≠ 0) 0xdc

def op_de (z : Z80State) : Z80State :=
  let p := rop z; sbc_a p.1 p.2

def op_df (z : Z80State) : Z80State :=
  rst z 0x18

def op_e0 (z : Z80State) : Z80State :=
  ret_cond z (F z &&& PF = 0) 0xe0

def op_e1 (z : Z80State) : Z80State :=
  let p := pop z z.m_hl; { p.1 with m_hl := p.2 }

def op_e2 (z : Z80State) : Z80State :=
  jp_cond z (F z &&& PF = 0)

def op_e3 (z : Z80State) : Z80State :=
  let p := ex_sp z z.m_hl; { p.1 with m_hl := p.2 }

def op_e4 (z : Z80State) : Z80State :=
  call_cond z (F z &&& PF = 0) 0xe4

def op_e5 (z : Z80State) : Z80State :=
  push z z.m_hl

def op_e6 (z : Z80State) : Z80State :=
  let p := rop z; and_a p.1 p.2

def op_e7 (z : Z80State) : Z80State :=
  rst z 0x20

def op_e8 (z : Z80State) : Z80State :=
  ret_cond z (F z &&& PF ≠ 0) 0xe8

def op_e9 (z : Z80State) : Z80State :=
  setPC z (HL z)

def op_ea (z : Z80State) : Z80State :=
  jp_cond z (F z &&& PF ≠ 0)

def op_eb (z : Z80State) : Z80State :=
  ex_de_hl z

def op_ec (z : Z80State) : Z80State :=
  call_cond z (F z &&& PF ≠ 0) 0xec

def op_ed (z : Z80State) : Z80State :=
  let z := { z with m_r := (z.m_r + 1) % 256 }; let p := rop z; exec_ed p.1 p.2

def op_ee (z : Z80State) : Z80State :=
  let p := rop z; xor_a p.1 p.2

def op_ef (z : Z80State) : Z80State :=
  rst z 0x28

def op_f0 (z : Z80State) : Z80State :=
  ret_cond z (F z &&& SF = 0) 0xf0

def op_f1 (z : Z80State) : Z80State :=
  let p := pop z z.m_af; { p.1 with m_af := p.2 }

def op_f2 (z : Z80State) : Z80State :=
  jp_cond z (F z &&& SF = 0)

def op_f3 (z : Z80State) : Z80State :=
  { z with m_iff1 := 0, m_iff2 := 0 }

def op_f4 (z : Z80State) : Z80State :=
  call_cond z (F z &&& SF = 0) 0xf4

def op_f5 (z : Z80State) : Z80State :=
  push z z.m_af

def op_f6 (z : Z80State) : Z80State :=
  let p := rop z; or_a p.1 p.2

def op_f7 (z : Z80State) : Z80State :=
  rst z 0x30

def op_f8 (z : Z80State) : Z80State :=
  ret_cond z (F z &&& SF ≠ 0) 0xf8

def op_f9 (z : Z80State) : Z80State :=
  setSP z (HL z)

def op_fa (z : Z80State) : Z80State :=
  jp_cond z (F z &&& SF ≠ 0)

def op_fb (z : Z80State) : Z80State :=
  ei z

def op_fc (z : Z80State) : Z80State :=
  call_cond z (F z &&& SF ≠ 0) 0xfc

def op_fe (z : Z80State) : Z80State :=
  let p := rop z; cp p.1 p.2

def op_ff (z : Z80State) : Z80State :=
  rst z 0x38


/- DD-prefixed (IX) opcodes; undefined slots are illegal_1 followed
   by the unprefixed handler. -/

def dd_00 (z : Z80State) : Z80State :=
  op_00 (illegal_1 z)

def dd_01 (z : Z80State) : Z80State :=
  op_01 (illegal_1 z)

def dd_02 (z : Z80State) : Z80State :=
  op_02 (illegal_1 z)

def dd_03 (z : Z80State) : Z80State :=
  op_03 (illegal_1 z)

def dd_04 (z : Z80State) : Z80State :=
  op_04 (illegal_1 z)

def dd_05 (z : Z80State) : Z80State :=
  op_05 (illegal_1 z)

def dd_06 (z : Z80State) : Z80State :=
  op_06 (illegal_1 z)

def dd_07 (z : Z80State) : Z80State :=
  op_07 (illegal_1 z)

def dd_08 (z : Z80State) : Z80State :=
  op_08 (illegal_1 z)

def dd_09 (z : Z80State) : Z80State :=
  let p := add16 z z.m_ix z.m_bc; { p.1 with m_ix := p.2 }

def dd_0a (z : Z80State) : Z80State :=
  op_0a (illegal_1 z)

def dd_0b (z : Z80State) : Z80State :=
  op_0b (illegal_1 z)

def dd_0c (z : Z80State) : Z80State :=
  op_0c (illegal_1 z)

def dd_0d (z : Z80State) : Z80State :=
  op_0d (illegal_1 z)

def dd_0e (z : Z80State) : Z80State :=
  op_0e (illegal_1 z)

def dd_0f (z : Z80State) : Z80State :=
  op_0f (illegal_1 z)

def dd_10 (z : Z80State) : Z80State :=
  op_10 (illegal_1 z)

def dd_11 (z : Z80State) : Z80State :=
  op_11 (illegal_1 z)

def dd_12 (z : Z80State) : Z80State :=
  op_12 (illegal_1 z)

def dd_13 (z : Z80State) : Z80State :=
  op_13 (illegal_1 z)

def dd_14 (z : Z80State) : Z80State :=
  op_14 (illegal_1 z)

def dd_15 (z : Z80State) : Z80State :=
  op_15 (illegal_1 z)

def dd_16 (z : Z80State) : Z80State :=
  op_16 (illegal_1 z)

def dd_17 (z : Z80State) : Z80State :=
  op_17 (illegal_1 z)

def dd_18 (z : Z80State) : Z80State :=
  op_18 (illegal_1 z)

def dd_19 (z : Z80State) : Z80State :=
  let p := add16 z z.m_ix z.m_de; { p.1 with m_ix := p.2 }

def dd_1a (z : Z80State) : Z80State :=
  op_1a (illegal_1 z)

def dd_1b (z : Z80State) : Z80State :=
  op_1b (illegal_1 z)

def dd_1c (z : Z80State) : Z80State :=
  op_1c (illegal_1 z)

def dd_1d (z : Z80State) : Z80State :=
  op_1d (illegal_1 z)

def dd_1e (z : Z80State) : Z80State :=
  op_1e (illegal_1 z)

def dd_1f (z : Z80State) : Z80State :=
  op_1f (illegal_1 z)

def dd_20 (z : Z80State) : Z80State :=
  op_20 (illegal_1 z)

def dd_21 (z : Z80State) : Z80State :=
  let p := arg16 z; setIX p.1 p.2

def dd_22 (z : Z80State) : Z80State :=
  let p := arg16 z; let z := { p.1 with m_ea := p.2 }; let z := wm16 z z.m_ea z.m_ix; setWZ z (z.m_ea + 1)

def dd_23 (z : Z80State) : Z80State :=
  setIX z (IX z + 1)

def dd_24 (z : Z80State) : Z80State :=
  let p := inc z (HX z); setHX p.1 p.2

def dd_25 (z : Z80State) : Z80State :=
  let p := dec z (HX z); setHX p.1 p.2

def dd_26 (z : Z80State) : Z80State :=
  let p := rop z; setHX p.1 p.2

def dd_27 (z : Z80State) : Z80State :=
  op_27 (illegal_1 z)

def dd_28 (z : Z80State) : Z80State :=
  op_28 (illegal_1 z)

def dd_29 (z : Z80State) : Z80State :=
  let p := add16 z z.m_ix z.m_ix; { p.1 with m_ix := p.2 }

def dd_2a (z : Z80State) : Z80State :=
  let p := arg16 z; let z := { p.1 with m_ea := p.2 }; let z := { z with m_ix := rm16 z z.m_ea z.m_ix }; setWZ z (z.m_ea + 1)

def dd_2b (z : Z80State) : Z80State :=
  setIX z (IX z + 65535)

def dd_2c (z : Z80State) : Z80State :=
  let p := inc z (LX z); setLX p.1 p.2

def dd_2d (z : Z80State) : Z80State :=
  let p := dec z (LX z); setLX p.1 p.2

def dd_2e (z : Z80State) : Z80State :=
  let p := rop z; setLX p.1 p.2

def dd_2f (z : Z80State) : Z80State :=
  op_2f (illegal_1 z)

def dd_30 (z : Z80State) : Z80State :=
  op_30 (illegal_1 z)

def dd_31 (z : Z80State) : Z80State :=
  op_31 (illegal_1 z)

def dd_32 (z : Z80State) : Z80State :=
  op_32 (illegal_1 z)

def dd_33 (z : Z80State) : Z80State :=
  op_33 (illegal_1 z)

def dd_34 (z : Z80State) : Z80State :=
  let z := eax z; let p := inc z (rm z z.m_ea); wm p.1 z.m_ea p.2

def dd_35 (z : Z80State) : Z80State :=
  let z := eax z; let p := dec z (rm z z.m_ea); wm p.1 z.m_ea p.2

def dd_36 (z : Z80State) : Z80State :=
  let z := eax z; let p := rop z; wm p.1 z.m_ea p.2

def dd_37 (z : Z80State) : Z80State :=
  op_37 (illegal_1 z)

def dd_38 (z : Z80State) : Z80State :=
  op_38 (illegal_1 z)

def dd_39 (z : Z80State) : Z80State :=
  let p := add16 z z.m_ix z.m_sp; { p.1 with m_ix := p.2 }

def dd_3a (z : Z80State) : Z80State :=
  op_3a (illegal_1 z)

def dd_3b (z : Z80State) : Z80State :=
  op_3b (illegal_1 z)

def dd_3c (z : Z80State) : Z80State :=
  op_3c (illegal_1 z)

def dd_3d (z : Z80State) : Z80State :=
  op_3d (illegal_1 z)

def dd_3e (z : Z80State) : Z80State :=
  op_3e (illegal_1 z)

def dd_3f (z : Z80State) : Z80State :=
  op_3f (illegal_1 z)

def dd_40 (z : Z80State) : Z80State :=
  op_40 (illegal_1 z)

def dd_41 (z : Z80State) : Z80State :=
  op_41 (illegal_1 z)

def dd_42 (z : Z80State) : Z80State :=
  op_42 (illegal_1 z)

def dd_43 (z : Z80State) : Z80State :=
  op_43 (illegal_1 z)

def dd_44 (z : Z80State) : Z80State :=
  setB z (HX z)

def dd_45 (z : Z80State) : Z80State :=
  setB z (LX z)

def dd_46 (z : Z80State) : Z80State :=
  let z := eax z; setB z (rm z z.m_ea)

def dd_47 (z : Z80State) : Z80State :=
  op_47 (illegal_1 z)

def dd_48 (z : Z80State) : Z80State :=
  op_48 (illegal_1 z)

def dd_49 (z : Z80State) : Z80State :=
  op_49 (illegal_1 z)

def dd_4a (z : Z80State) : Z80State :=
  op_4a (illegal_1 z)

def dd_4b (z : Z80State) : Z80State :=
  op_4b (illegal_1 z)

def dd_4c (z : Z80State) : Z80State :=
  setC z (HX z)

def dd_4d (z : Z80State) : Z80State :=
  setC z (LX z)

def dd_4e (z : Z80State) : Z80State :=
  let z := eax z; setC z (rm z z.m_ea)

def dd_4f (z : Z80State) : Z80State :=
  op_4f (illegal_1 z)

def dd_50 (z : Z80State) : Z80State :=
  op_50 (illegal_1 z)

def dd_51 (z : Z80State) : Z80State :=
  op_51 (illegal_1 z)

def dd_52 (z : Z80State) : Z80State :=
  op_52 (illegal_1 z)

def dd_53 (z : Z80State) : Z80State :=
  op_53 (illegal_1 z)

def dd_54 (z : Z80State) : Z80State :=
  setD z (HX z)

def dd_55 (z : Z80State) : Z80State :=
  setD z (LX z)

def dd_56 (z : Z80State) : Z80State :=
  let z := eax z; setD z (rm z z.m_ea)

def dd_57 (z : Z80State) : Z80State :=
  op_57 (illegal_1 z)

def dd_58 (z : Z80State) : Z80State :=
  op_58 (illegal_1 z)

def dd_59 (z : Z80State) : Z80State :=
  op_59 (illegal_1 z)

def dd_5a (z : Z80State) : Z80State :=
  op_5a (illegal_1 z)

def dd_5b (z : Z80State) : Z80State :=
  op_5b (illegal_1 z)

def dd_5c (z : Z80State) : Z80State :=
  setE z (HX z)

def dd_5d (z : Z80State) : Z80State :=
  setE z (LX z)

def dd_5e (z : Z80State) : Z80State :=
  let z := eax z; setE z (rm z z.m_ea)

def dd_5f (z : Z80State) : Z80State :=
  op_5f (illegal_1 z)

def dd_60 (z : Z80State) : Z80State :=
  setHX z (B z)

def dd_61 (z : Z80State) : Z80State :=
  setHX z (C z)

def dd_62 (z : Z80State) : Z80State :=
  setHX z (D z)

def dd_63 (z : Z80State) : Z80State :=
  setHX z (E z)

def dd_64 (z : Z80State) : Z80State :=
  z

def dd_65 (z : Z80State) : Z80State :=
  setHX z (LX z)

def dd_66 (z : Z80State) : Z80State :=
  let z := eax z; setH z (rm z z.m_ea)

def dd_67 (z : Z80State) : Z80State :=
  setHX z (A z)

def dd_68 (z : Z80State) : Z80State :=
  setLX z (B z)

def dd_69 (z : Z80State) : Z80State :=
  setLX z (C z)

def dd_6a (z : Z80State) : Z80State :=
  setLX z (D z)

def dd_6b (z : Z80State) : Z80State :=
  setLX z (E z)

def dd_6c (z : Z80State) : Z80State :=
  setLX z (HX z)

def dd_6d (z : Z80State) : Z80State :=
  z

def dd_6e (z : Z80State) : Z80State :=
  let z := eax z; setL z (rm z z.m_ea)

def dd_6f (z : Z80State) : Z80State :=
  setLX z (A z)

def dd_70 (z : Z80State) : Z80State :=
  let z := eax z; wm z z.m_ea (B z)

def dd_71 (z : Z80State) : Z80State :=
  let z := eax z; wm z z.m_ea (C z)

def dd_72 (z : Z80State) : Z80State :=
  let z := eax z; wm z z.m_ea (D z)

def dd_73 (z : Z80State) : Z80State :=
  let z := eax z; wm z z.m_ea (E z)

def dd_74 (z : Z80State) : Z80State :=
  let z := eax z; wm z z.m_ea (H z)

def dd_75 (z : Z80State) : Z80State :=
  let z := eax z; wm z z.m_ea (L z)

def dd_76 (z : Z80State) : Z80State :=
  op_76 (illegal_1 z)

def dd_77 (z : Z80State) : Z80State :=
  let z := eax z; wm z z.m_ea (A z)

def dd_78 (z : Z80State) : Z80State :=
  op_78 (illegal_1 z)

def dd_79 (z : Z80State) : Z80State :=
  op_79 (illegal_1 z)

def dd_7a (z : Z80State) : Z80State :=
  op_7a (illegal_1 z)

def dd_7b (z : Z80State) : Z80State :=
  op_7b (illegal_1 z)

def dd_7c (z : Z80State) : Z80State :=
  setA z (HX z)

def dd_7d (z : Z80State) : Z80State :=
  setA z (LX z)

def dd_7e (z : Z80State) : Z80State :=
  let z := eax z; setA z (rm z z.m_ea)

def dd_7f (z : Z80State) : Z80State :=
  op_7f (illegal_1 z)

def dd_80 (z : Z80State) : Z80State :=
  op_80 (illegal_1 z)

def dd_81 (z : Z80State) : Z80State :=
  op_81 (illegal_1 z)

def dd_82 (z : Z80State) : Z80State :=
  op_82 (illegal_1 z)

def dd_83 (z : Z80State) : Z80State :=
  op_83 (illegal_1 z)

def dd_84 (z : Z80State) : Z80State :=
  add_a z (HX z)

def dd_85 (z : Z80State) : Z80State :=
  add_a z (LX z)

def dd_86 (z : Z80State) : Z80State :=
  let z := eax z; add_a z (rm z z.m_ea)

def dd_87 (z : Z80State) : Z80State :=
  op_87 (illegal_1 z)

def dd_88 (z : Z80State) : Z80State :=
  op_88 (illegal_1 z)

def dd_89 (z : Z80State) : Z80State :=
  op_89 (illegal_1 z)

def dd_8a (z : Z80State) : Z80State :=
  op_8a (illegal_1 z)

def dd_8b (z : Z80State) : Z80State :=
  op_8b (illegal_1 z)

def dd_8c (z : Z80State) : Z80State :=
  adc_a z (HX z)

def dd_8d (z : Z80State) : Z80State :=
  adc_a z (LX z)

def dd_8e (z : Z80State) : Z80State :=
  let z := eax z; adc_a z (rm z z.m_ea)

def dd_8f (z : Z80State) : Z80State :=
  op_8f (illegal_1 z)

def dd_90 (z : Z80State) : Z80State :=
  op_90 (illegal_1 z)

def dd_91 (z : Z80State) : Z80State :=
  op_91 (illegal_1 z)

def dd_92 (z : Z80State) : Z80State :=
  op_92 (illegal_1 z)

def dd_93 (z : Z80State) : Z80State :=
  op_93 (illegal_1 z)

def dd_94 (z : Z80State) : Z80State :=
  sub z (HX z)

def dd_95 (z : Z80State) : Z80State :=
  sub z (LX z)

def dd_96 (z : Z80State) : Z80State :=
  let z := eax z; sub z (rm z z.m_ea)

def dd_97 (z : Z80State) : Z80State :=
  op_97 (illegal_1 z)

def dd_98 (z : Z80State) : Z80State :=
  op_98 (illegal_1 z)

def dd_99 (z : Z80State) : Z80State :=
  op_99 (illegal_1 z)

def dd_9a (z : Z80State) : Z80State :=
  op_9a (illegal_1 z)

def dd_9b (z : Z80State) : Z80State :=
  op_9b (illegal_1 z)

def dd_9c (z : Z80State) : Z80State :=
  sbc_a z (HX z)

def dd_9d (z : Z80State) : Z80State :=
  sbc_a z (LX z)

def dd_9e (z : Z80State) : Z80State :=
  let z := eax z; sbc_a z (rm z z.m_ea)

def dd_9f (z : Z80State) : Z80State :=
  op_9f (illegal_1 z)

def dd_a0 (z : Z80State) : Z80State :=
  op_a0 (illegal_1 z)

def dd_a1 (z : Z80State) : Z80State :=
  op_a1 (illegal_1 z)

def dd_a2 (z : Z80State) : Z80State :=
  op_a2 (illegal_1 z)

def dd_a3 (z : Z80State) : Z80State :=
  op_a3 (illegal_1 z)

def dd_a4 (z : Z80State) : Z80State :=
  and_a z (HX z)

def dd_a5 (z : Z80State) : Z80State :=
  and_a z (LX z)

def dd_a6 (z : Z80State) : Z80State :=
  let z := eax z; and_a z (rm z z.m_ea)

def dd_a7 (z : Z80State) : Z80State :=
  op_a7 (illegal_1 z)

def dd_a8 (z : Z80State) : Z80State :=
  op_a8 (illegal_1 z)

def dd_a9 (z : Z80State) : Z80State :=
  op_a9 (illegal_1 z)

def dd_aa (z : Z80State) : Z80State :=
  op_aa (illegal_1 z)

def dd_ab (z : Z80State) : Z80State :=
  op_ab (illegal_1 z)

def dd_ac (z : Z80State) : Z80State :=
  xor_a z (HX z)

def dd_ad (z : Z80State) : Z80State :=
  xor_a z (LX z)

def dd_ae (z : Z80State) : Z80State :=
  let z := eax z; xor_a z (rm z z.m_ea)

def dd_af (z : Z80State) : Z80State :=
  op_af (illegal_1 z)

def dd_b0 (z : Z80State) : Z80State :=
  op_b0 (illegal_1 z)

def dd_b1 (z : Z80State) : Z80State :=
  op_b1 (illegal_1 z)

def dd_b2 (z : Z80State) : Z80State :=
  op_b2 (illegal_1 z)

def dd_b3 (z : Z80State) : Z80State :=
  op_b3 (illegal_1 z)

def dd_b4 (z : Z80State) : Z80State :=
  or_a z (HX z)

def dd_b5 (z : Z80State) : Z80State :=
  or_a z (LX z)

def dd_b6 (z : Z80State) : Z80State :=
  let z := eax z; or_a z (rm z z.m_ea)

def dd_b7 (z : Z80State) : Z80State :=
  op_b7 (illegal_1 z)

def dd_b8 (z : Z80State) : Z80State :=
  op_b8 (illegal_1 z)

def dd_b9 (z : Z80State) : Z80State :=
  op_b9 (illegal_1 z)

def dd_ba (z : Z80State) : Z80State :=
  op_ba (illegal_1 z)

def dd_bb (z : Z80State) : Z80State :=
  op_bb (illegal_1 z)

def dd_bc (z : Z80State) : Z80State :=
  cp z (HX z)

def dd_bd (z : Z80State) : Z80State :=
  cp z (LX z)

def dd_be (z : Z80State) : Z80State :=
  let z := eax z; cp z (rm z z.m_ea)

def dd_bf (z : Z80State) : Z80State :=
  op_bf (illegal_1 z)

def dd_c0 (z : Z80State) : Z80State :=
  op_c0 (illegal_1 z)

def dd_c1 (z : Z80State) : Z80State :=
  op_c1 (illegal_1 z)

def dd_c2 (z : Z80State) : Z80State :=
  op_c2 (illegal_1 z)

def dd_c3 (z : Z80State) : Z80State :=
  op_c3 (illegal_1 z)

def dd_c4 (z : Z80State) : Z80State :=
  op_c4 (illegal_1 z)

def dd_c5 (z : Z80State) : Z80State :=
  op_c5 (illegal_1 z)

def dd_c6 (z : Z80State) : Z80State :=
  op_c6 (illegal_1 z)

def dd_c7 (z : Z80State) : Z80State :=
  op_c7 (illegal_1 z)

def dd_c8 (z : Z80State) : Z80State :=
  op_c8 (illegal_1 z)

def dd_c9 (z : Z80State) : Z80State :=
  op_c9 (illegal_1 z)

def dd_ca (z : Z80State) : Z80State :=
  op_ca (illegal_1 z)

def dd_cb (z : Z80State) : Z80State :=
  let z := eax z; let p := rop z; exec_xycb p.1 p.2

def dd_cc (z : Z80State) : Z80State :=
  op_cc (illegal_1 z)

def dd_cd (z : Z80State) : Z80State :=
  op_cd (illegal_1 z)

def dd_ce (z : Z80State) : Z80State :=
  op_ce (illegal_1 z)

def dd_cf (z : Z80State) : Z80State :=
  op_cf (illegal_1 z)

def dd_d0 (z : Z80State) : Z80State :=
  op_d0 (illegal_1 z)

def dd_d1 (z : Z80State) : Z80State :=
  op_d1 (illegal_1 z)

def dd_d2 (z : Z80State) : Z80State :=
  op_d2 (illegal_1 z)

def dd_d3 (z : Z80State) : Z80State :=
  op_d3 (illegal_1 z)

def dd_d4 (z : Z80State) : Z80State :=
  op_d4 (illegal_1 z)

def dd_d5 (z : Z80State) : Z80State :=
  op_d5 (illegal_1 z)

def dd_d6 (z : Z80State) : Z80State :=
  op_d6 (illegal_1 z)

def dd_d7 (z : Z80State) : Z80State :=
  op_d7 (illegal_1 z)

def dd_d8 (z : Z80State) : Z80State :=
  op_d8 (illegal_1 z)

def dd_d9 (z : Z80State) : Z80State :=
  op_d9 (illegal_1 z)

def dd_da (z : Z80State) : Z80State :=
  op_da (illegal_1 z)

def dd_db (z : Z80State) : Z80State :=
  op_db (illegal_1 z)

def dd_dc (z : Z80State) : Z80State :=
  op_dc (illegal_1 z)

def dd_de (z : Z80State) : Z80State :=
  op_de (illegal_1 z)

def dd_df (z : Z80State) : Z80State :=
  op_df (illegal_1 z)

def dd_e0 (z : Z80State) : Z80State :=
  op_e0 (illegal_1 z)

def dd_e1 (z : Z80State) : Z80State :=
  let p := pop z z.m_ix; { p.1 with m_ix := p.2 }

def dd_e2 (z : Z80State) : Z80State :=
  op_e2 (illegal_1 z)

def dd_e3 (z : Z80State) : Z80State :=
  let p := ex_sp z z.m_ix; { p.1 with m_ix := p.2 }

def dd_e4 (z : Z80State) : Z80State :=
  op_e4 (illegal_1 z)

def dd_e5 (z : Z80State) : Z80State :=
  push z z.m_ix

def dd_e6 (z : Z80State) : Z80State :=
  op_e6 (illegal_1 z)

def dd_e7 (z : Z80State) : Z80State :=
  op_e7 (illegal_1 z)

def dd_e8 (z : Z80State) : Z80State :=
  op_e8 (illegal_1 z)

def dd_e9 (z : Z80State) : Z80State :=
  setPC z (IX z)

def dd_ea (z : Z80State) : Z80State :=
  op_ea (illegal_1 z)

def dd_eb (z : Z80State) : Z80State :=
  op_eb (illegal_1 z)

def dd_ec (z : Z80State) : Z80State :=
  op_ec (illegal_1 z)

def dd_ed (z : Z80State) : Z80State :=
  op_ed (illegal_1 z)

def dd_ee (z : Z80State) : Z80State :=
  op_ee (illegal_1 z)

def dd_ef (z : Z80State) : Z80State :=
  op_ef (illegal_1 z)

def dd_f0 (z : Z80State) : Z80State :=
  op_f0 (illegal_1 z)

def dd_f1 (z : Z80State) : Z80State :=
  op_f1 (illegal_1 z)

def dd_f2 (z : Z80State) : Z80State :=
  op_f2 (illegal_1 z)

def dd_f3 (z : Z80State) : Z80State :=
  op_f3 (illegal_1 z)

def dd_f4 (z : Z80State) : Z80State :=
  op_f4 (illegal_1 z)

def dd_f5 (z : Z80State) : Z80State :=
  op_f5 (illegal_1 z)

def dd_f6 (z : Z80State) : Z80State :=
  op_f6 (illegal_1 z)

def dd_f7 (z : Z80State) : Z80State :=
  op_f7 (illegal_1 z)

def dd_f8 (z : Z80State) : Z80State :=
  op_f8 (illegal_1 z)

def dd_f9 (z : Z80State) : Z80State :=
  setSP z (IX z)

def dd_fa (z : Z80State) : Z80State :=
  op_fa (illegal_1 z)

def dd_fb (z : Z80State) : Z80State :=
  op_fb (illegal_1 z)

def dd_fc (z : Z80State) : Z80State :=
  op_fc (illegal_1 z)

def dd_fe (z : Z80State) : Z80State :=
  op_fe (illegal_1 z)

def dd_ff (z : Z80State) : Z80State :=
  op_ff (illegal_1 z)


/- FD-prefixed (IY) opcodes. -/

def fd_00 (z : Z80State) : Z80State :=
  op_00 (illegal_1 z)

def fd_01 (z : Z80State) : Z80State :=
  op_01 (illegal_1 z)

def fd_02 (z : Z80State) : Z80State :=
  op_02 (illegal_1 z)

def fd_03 (z : Z80State) : Z80State :=
  op_03 (illegal_1 z)

def fd_04 (z : Z80State) : Z80State :=
  op_04 (illegal_1 z)

def fd_05 (z : Z80State) : Z80State :=
  op_05 (illegal_1 z)

def fd_06 (z : Z80State) : Z80State :=
  op_06 (illegal_1 z)

def fd_07 (z : Z80State) : Z80State :=
  op_07 (illegal_1 z)

def fd_08 (z : Z80State) : Z80State :=
  op_08 (illegal_1 z)

def fd_09 (z : Z80State) : Z80State :=
  let p := add16 z z.m_iy z.m_bc; { p.1 with m_iy := p.2 }

def fd_0a (z : Z80State) : Z80State :=
  op_0a (illegal_1 z)

def fd_0b (z : Z80State) : Z80State :=
  op_0b (illegal_1 z)

def fd_0c (z : Z80State) : Z80State :=
  op_0c (illegal_1 z)

def fd_0d (z : Z80State) : Z80State :=
  op_0d (illegal_1 z)

def fd_0e (z : Z80State) : Z80State :=
  op_0e (illegal_1 z)

def fd_0f (z : Z80State) : Z80State :=
  op_0f (illegal_1 z)

def fd_10 (z : Z80State) : Z80State :=
  op_10 (illegal_1 z)

def fd_11 (z : Z80State) : Z80State :=
  op_11 (illegal_1 z)

def fd_12 (z : Z80State) : Z80State :=
  op_12 (illegal_1 z)

def fd_13 (z : Z80State) : Z80State :=
  op_13 (illegal_1 z)

def fd_14 (z : Z80State) : Z80State :=
  op_14 (illegal_1 z)

def fd_15 (z : Z80State) : Z80State :=
  op_15 (illegal_1 z)

def fd_16 (z : Z80State) : Z80State :=
  op_16 (illegal_1 z)

def fd_17 (z : Z80State) : Z80State :=
  op_17 (illegal_1 z)

def fd_18 (z : Z80State) : Z80State :=
  op_18 (illegal_1 z)

def fd_19 (z : Z80State) : Z80State :=
  let p := add16 z z.m_iy z.m_de; { p.1 with m_iy := p.2 }

def fd_1a (z : Z80State) : Z80State :=
  op_1a (illegal_1 z)

def fd_1b (z : Z80State) : Z80State :=
  op_1b (illegal_1 z)

def fd_1c (z : Z80State) : Z80State :=
  op_1c (illegal_1 z)

def fd_1d (z : Z80State) : Z80State :=
  op_1d (illegal_1 z)

def fd_1e (z : Z80State) : Z80State :=
  op_1e (illegal_1 z)

def fd_1f (z : Z80State) : Z80State :=
  op_1f (illegal_1 z)

def fd_20 (z : Z80State) : Z80State :=
  op_20 (illegal_1 z)

def fd_21 (z : Z80State) : Z80State :=
  let p := arg16 z; setIY p.1 p.2

def fd_22 (z : Z80State) : Z80State :=
  let p := arg16 z; let z := { p.1 with m_ea := p.2 }; let z := wm16 z z.m_ea z.m_iy; setWZ z (z.m_ea + 1)

def fd_23 (z : Z80State) : Z80State :=
  setIY z (IY z + 1)

def fd_24 (z : Z80State) : Z80State :=
  let p := inc z (HY z); setHY p.1 p.2

def fd_25 (z : Z80State) : Z80State :=
  let p := dec z (HY z); setHY p.1 p.2

def fd_26 (z : Z80State) : Z80State :=
  let p := rop z; setHY p.1 p.2

def fd_27 (z : Z80State) : Z80State :=
  op_27 (illegal_1 z)

def fd_28 (z : Z80State) : Z80State :=
  op_28 (illegal_1 z)

def fd_29 (z : Z80State) : Z80State :=
  let p := add16 z z.m_iy z.m_iy; { p.1 with m_iy := p.2 }

def fd_2a (z : Z80State) : Z80State :=
  let p := arg16 z; let z := { p.1 with m_ea := p.2 }; let z := { z with m_iy := rm16 z z.m_ea z.m_iy }; setWZ z (z.m_ea + 1)

def fd_2b (z : Z80State) : Z80State :=
  setIY z (IY z + 65535)

def fd_2c (z : Z80State) : Z80State :=
  let p := inc z (LY z); setLY p.1 p.2

def fd_2d (z : Z80State) : Z80State :=
  let p := dec z (LY z); setLY p.1 p.2

def fd_2e (z : Z80State) : Z80State :=
  let p := rop z; setLY p.1 p.2

def fd_2f (z : Z80State) : Z80State :=
  op_2f (illegal_1 z)

def fd_30 (z : Z80State) : Z80State :=
  op_30 (illegal_1 z)

def fd_31 (z : Z80State) : Z80State :=
  op_31 (illegal_1 z)

def fd_32 (z : Z80State) : Z80State :=
  op_32 (illegal_1 z)

def fd_33 (z : Z80State) : Z80State :=
  op_33 (illegal_1 z)

def fd_34 (z : Z80State) : Z80State :=
  let z := eay z; let p := inc z (rm z z.m_ea); wm p.1 z.m_ea p.2

def fd_35 (z : Z80State) : Z80State :=
  let z := eay z; let p := dec z (rm z z.m_ea); wm p.1 z.m_ea p.2

def fd_36 (z : Z80State) : Z80State :=
  let z := eay z; let p := rop z; wm p.1 z.m_ea p.2

def fd_37 (z : Z80State) : Z80State :=
  op_37 (illegal_1 z)

def fd_38 (z : Z80State) : Z80State :=
  op_38 (illegal_1 z)

def fd_39 (z : Z80State) : Z80State :=
  let p := add16 z z.m_iy z.m_sp; { p.1 with m_iy := p.2 }

def fd_3a (z : Z80State) : Z80State :=
  op_3a (illegal_1 z)

def fd_3b (z : Z80State) : Z80State :=
  op_3b (illegal_1 z)

def fd_3c (z : Z80State) : Z80State :=
  op_3c (illegal_1 z)

def fd_3d (z : Z80State) : Z80State :=
  op_3d (illegal_1 z)

def fd_3e (z : Z80State) : Z80State :=
  op_3e (illegal_1 z)

def fd_3f (z : Z80State) : Z80State :=
  op_3f (illegal_1 z)

def fd_40 (z : Z80State) : Z80State :=
  op_40 (illegal_1 z)

def fd_41 (z : Z80State) : Z80State :=
  op_41 (illegal_1 z)

def fd_42 (z : Z80State) : Z80State :=
  op_42 (illegal_1 z)

def fd_43 (z : Z80State) : Z80State :=
  op_43 (illegal_1 z)

def fd_44 (z : Z80State) : Z80State :=
  setB z (HY z)

def fd_45 (z : Z80State) : Z80State :=
  setB z (LY z)

def fd_46 (z : Z80State) : Z80State :=
  let z := eay z; setB z (rm z z.m_ea)

def fd_47 (z : Z80State) : Z80State :=
  op_47 (illegal_1 z)

def fd_48 (z : Z80State) : Z80State :=
  op_48 (illegal_1 z)

def fd_49 (z : Z80State) : Z80State :=
  op_49 (illegal_1 z)

def fd_4a (z : Z80State) : Z80State :=
  op_4a (illegal_1 z)

def fd_4b (z : Z80State) : Z80State :=
  op_4b (illegal_1 z)

def fd_4c (z : Z80State) : Z80State :=
  setC z (HY z)

def fd_4d (z : Z80State) : Z80State :=
  setC z (LY z)

def fd_4e (z : Z80State) : Z80State :=
  let z := eay z; setC z (rm z z.m_ea)

def fd_4f (z : Z80State) : Z80State :=
  op_4f (illegal_1 z)

def fd_50 (z : Z80State) : Z80State :=
  op_50 (illegal_1 z)

def fd_51 (z : Z80State) : Z80State :=
  op_51 (illegal_1 z)

def fd_52 (z : Z80State) : Z80State :=
  op_52 (illegal_1 z)

def fd_53 (z : Z80State) : Z80State :=
  op_53 (illegal_1 z)

def fd_54 (z : Z80State) : Z80State :=
  setD z (HY z)

def fd_55 (z : Z80State) : Z80State :=
  setD z (LY z)

def fd_56 (z : Z80State) : Z80State :=
  let z := eay z; setD z (rm z z.m_ea)

def fd_57 (z : Z80State) : Z80State :=
  op_57 (illegal_1 z)

def fd_58 (z : Z80State) : Z80State :=
  op_58 (illegal_1 z)

def fd_59 (z : Z80State) : Z80State :=
  op_59 (illegal_1 z)

def fd_5a (z : Z80State) : Z80State :=
  op_5a (illegal_1 z)

def fd_5b (z : Z80State) : Z80State :=
  op_5b (illegal_1 z)

def fd_5c (z : Z80State) : Z80State :=
  setE z (HY z)

def fd_5d (z : Z80State) : Z80State :=
  setE z (LY z)

def fd_5e (z : Z80State) : Z80State :=
  let z := eay z; setE z (rm z z.m_ea)

def fd_5f (z : Z80State) : Z80State :=
  op_5f (illegal_1 z)

def fd_60 (z : Z80State) : Z80State :=
  setHY z (B z)

def fd_61 (z : Z80State) : Z80State :=
  setHY z (C z)

def fd_62 (z : Z80State) : Z80State :=
  setHY z (D z)

def fd_63 (z : Z80State) : Z80State :=
  setHY z (E z)

def fd_64 (z : Z80State) : Z80State :=
  z

def fd_65 (z : Z80State) : Z80State :=
  setHY z (LY z)

def fd_66 (z : Z80State) : Z80State :=
  let z := eay z; setH z (rm z z.m_ea)

def fd_67 (z : Z80State) : Z80State :=
  setHY z (A z)

def fd_68 (z : Z80State) : Z80State :=
  setLY z (B z)

def fd_69 (z : Z80State) : Z80State :=
  setLY z (C z)

def fd_6a (z : Z80State) : Z80State :=
  setLY z (D z)

def fd_6b (z : Z80State) : Z80State :=
  setLY z (E z)

def fd_6c (z : Z80State) : Z80State :=
  setLY z (HY z)

def fd_6d (z : Z80State) : Z80State :=
  z

def fd_6e (z : Z80State) : Z80State :=
  let z := eay z; setL z (rm z z.m_ea)

def fd_6f (z : Z80State) : Z80State :=
  setLY z (A z)

def fd_70 (z : Z80State) : Z80State :=
  let z := eay z; wm z z.m_ea (B z)

def fd_71 (z : Z80State) : Z80State :=
  let z := eay z; wm z z.m_ea (C z)

def fd_72 (z : Z80State) : Z80State :=
  let z := eay z; wm z z.m_ea (D z)

def fd_73 (z : Z80State) : Z80State :=
  let z := eay z; wm z z.m_ea (E z)

def fd_74 (z : Z80State) : Z80State :=
  let z := eay z; wm z z.m_ea (H z)

def fd_75 (z : Z80State) : Z80State :=
  let z := eay z; wm z z.m_ea (L z)

def fd_76 (z : Z80State) : Z80State :=
  op_76 (illegal_1 z)

def fd_77 (z : Z80State) : Z80State :=
  let z := eay z; wm z z.m_ea (A z)

def fd_78 (z : Z80State) : Z80State :=
  op_78 (illegal_1 z)

def fd_79 (z : Z80State) : Z80State :=
  op_79 (illegal_1 z)

def fd_7a (z : Z80State) : Z80State :=
  op_7a (illegal_1 z)

def fd_7b (z : Z80State) : Z80State :=
  op_7b (illegal_1 z)

def fd_7c (z : Z80State) : Z80State :=
  setA z (HY z)

def fd_7d (z : Z80State) : Z80State :=
  setA z (LY z)

def fd_7e (z : Z80State) : Z80State :=
  let z := eay z; setA z (rm z z.m_ea)

def fd_7f (z : Z80State) : Z80State :=
  op_7f (illegal_1 z)

def fd_80 (z : Z80State) : Z80State :=
  op_80 (illegal_1 z)

def fd_81 (z : Z80State) : Z80State :=
  op_81 (illegal_1 z)

def fd_82 (z : Z80State) : Z80State :=
  op_82 (illegal_1 z)

def fd_83 (z : Z80State) : Z80State :=
  op_83 (illegal_1 z)

def fd_84 (z : Z80State) : Z80State :=
  add_a z (HY z)

def fd_85 (z : Z80State) : Z80State :=
  add_a z (LY z)

def fd_86 (z : Z80State) : Z80State :=
  let z := eay z; add_a z (rm z z.m_ea)

def fd_87 (z : Z80State) : Z80State :=
  op_87 (illegal_1 z)

def fd_88 (z : Z80State) : Z80State :=
  op_88 (illegal_1 z)

def fd_89 (z : Z80State) : Z80State :=
  op_89 (illegal_1 z)

def fd_8a (z : Z80State) : Z80State :=
  op_8a (illegal_1 z)

def fd_8b (z : Z80State) : Z80State :=
  op_8b (illegal_1 z)

def fd_8c (z : Z80State) : Z80State :=
  adc_a z (HY z)

def fd_8d (z : Z80State) : Z80State :=
  adc_a z (LY z)

def fd_8e (z : Z80State) : Z80State :=
  let z := eay z; adc_a z (rm z z.m_ea)

def fd_8f (z : Z80State) : Z80State :=
  op_8f (illegal_1 z)

def fd_90 (z : Z80State) : Z80State :=
  op_90 (illegal_1 z)

def fd_91 (z : Z80State) : Z80State :=
  op_91 (illegal_1 z)

def fd_92 (z : Z80State) : Z80State :=
  op_92 (illegal_1 z)

def fd_93 (z : Z80State) : Z80State :=
  op_93 (illegal_1 z)

def fd_94 (z : Z80State) : Z80State :=
  sub z (HY z)

def fd_95 (z : Z80State) : Z80State :=
  sub z (LY z)

def fd_96 (z : Z80State) : Z80State :=
  let z := eay z; sub z (rm z z.m_ea)

def fd_97 (z : Z80State) : Z80State :=
  op_97 (illegal_1 z)

def fd_98 (z : Z80State) : Z80State :=
  op_98 (illegal_1 z)

def fd_99 (z : Z80State) : Z80State :=
  op_99 (illegal_1 z)

def fd_9a (z : Z80State) : Z80State :=
  op_9a (illegal_1 z)

def fd_9b (z : Z80State) : Z80State :=
  op_9b (illegal_1 z)

def fd_9c (z : Z80State) : Z80State :=
  sbc_a z (HY z)

def fd_9d (z : Z80State) : Z80State :=
  sbc_a z (LY z)

def fd_9e (z : Z80State) : Z80State :=
  let z := eay z; sbc_a z (rm z z.m_ea)

def fd_9f (z : Z80State) : Z80State :=
  op_9f (illegal_1 z)

def fd_a0 (z : Z80State) : Z80State :=
  op_a0 (illegal_1 z)

def fd_a1 (z : Z80State) : Z80State :=
  op_a1 (illegal_1 z)

def fd_a2 (z : Z80State) : Z80State :=
  op_a2 (illegal_1 z)

def fd_a3 (z : Z80State) : Z80State :=
  op_a3 (illegal_1 z)

def fd_a4 (z : Z80State) : Z80State :=
  and_a z (HY z)

def fd_a5 (z : Z80State) : Z80State :=
  and_a z (LY z)

def fd_a6 (z : Z80State) : Z80State :=
  let z := eay z; and_a z (rm z z.m_ea)

def fd_a7 (z : Z80State) : Z80State :=
  op_a7 (illegal_1 z)

def fd_a8 (z : Z80State) : Z80State :=
  op_a8 (illegal_1 z)

def fd_a9 (z : Z80State) : Z80State :=
  op_a9 (illegal_1 z)

def fd_aa (z : Z80State) : Z80State :=
  op_aa (illegal_1 z)

def fd_ab (z : Z80State) : Z80State :=
  op_ab (illegal_1 z)

def fd_ac (z : Z80State) : Z80State :=
  xor_a z (HY z)

def fd_ad (z : Z80State) : Z80State :=
  xor_a z (LY z)

def fd_ae (z : Z80State) : Z80State :=
  let z := eay z; xor_a z (rm z z.m_ea)

def fd_af (z : Z80State) : Z80State :=
  op_af (illegal_1 z)

def fd_b0 (z : Z80State) : Z80State :=
  op_b0 (illegal_1 z)

def fd_b1 (z : Z80State) : Z80State :=
  op_b1 (illegal_1 z)

def fd_b2 (z : Z80State) : Z80State :=
  op_b2 (illegal_1 z)

def fd_b3 (z : Z80State) : Z80State :=
  op_b3 (illegal_1 z)

def fd_b4 (z : Z80State) : Z80State :=
  or_a z (HY z)

def fd_b5 (z : Z80State) : Z80State :=
  or_a z (LY z)

def fd_b6 (z : Z80State) : Z80State :=
  let z := eay z; or_a z (rm z z.m_ea)

def fd_b7 (z : Z80State) : Z80State :=
  op_b7 (illegal_1 z)

def fd_b8 (z : Z80State) : Z80State :=
  op_b8 (illegal_1 z)

def fd_b9 (z : Z80State) : Z80State :=
  op_b9 (illegal_1 z)

def fd_ba (z : Z80State) : Z80State :=
  op_ba (illegal_1 z)

def fd_bb (z : Z80State) : Z80State :=
  op_bb (illegal_1 z)

def fd_bc (z : Z80State) : Z80State :=
  cp z (HY z)

def fd_bd (z : Z80State) : Z80State :=
  cp z (LY z)

def fd_be (z : Z80State) : Z80State :=
  let z := eay z; cp z (rm z z.m_ea)

def fd_bf (z : Z80State) : Z80State :=
  op_bf (illegal_1 z)

def fd_c0 (z : Z80State) : Z80State :=
  op_c0 (illegal_1 z)

def fd_c1 (z : Z80State) : Z80State :=
  op_c1 (illegal_1 z)

def fd_c2 (z : Z80State) : Z80State :=
  op_c2 (illegal_1 z)

def fd_c3 (z : Z80State) : Z80State :=
  op_c3 (illegal_1 z)

def fd_c4 (z : Z80State) : Z80State :=
  op_c4 (illegal_1 z)

def fd_c5 (z : Z80State) : Z80State :=
  op_c5 (illegal_1 z)

def fd_c6 (z : Z80State) : Z80State :=
  op_c6 (illegal_1 z)

def fd_c7 (z : Z80State) : Z80State :=
  op_c7 (illegal_1 z)

def fd_c8 (z : Z80State) : Z80State :=
  op_c8 (illegal_1 z)

def fd_c9 (z : Z80State) : Z80State :=
  op_c9 (illegal_1 z)

def fd_ca (z : Z80State) : Z80State :=
  op_ca (illegal_1 z)

def fd_cb (z : Z80State) : Z80State :=
  let z := eay z; let p := rop z; exec_xycb p.1 p.2

def fd_cc (z : Z80State) : Z80State :=
  op_cc (illegal_1 z)

def fd_cd (z : Z80State) : Z80State :=
  op_cd (illegal_1 z)

def fd_ce (z : Z80State) : Z80State :=
  op_ce (illegal_1 z)

def fd_cf (z : Z80State) : Z80State :=
  op_cf (illegal_1 z)

def fd_d0 (z : Z80State) : Z80State :=
  op_d0 (illegal_1 z)

def fd_d1 (z : Z80State) : Z80State :=
  op_d1 (illegal_1 z)

def fd_d2 (z : Z80State) : Z80State :=
  op_d2 (illegal_1 z)

def fd_d3 (z : Z80State) : Z80State :=
  op_d3 (illegal_1 z)

def fd_d4 (z : Z80State) : Z80State :=
  op_d4 (illegal_1 z)

def fd_d5 (z : Z80State) : Z80State :=
  op_d5 (illegal_1 z)

def fd_d6 (z : Z80State) : Z80State :=
  op_d6 (illegal_1 z)

def fd_d7 (z : Z80State) : Z80State :=
  op_d7 (illegal_1 z)

def fd_d8 (z : Z80State) : Z80State :=
  op_d8 (illegal_1 z)

def fd_d9 (z : Z80State) : Z80State :=
  op_d9 (illegal_1 z)

def fd_da (z : Z80State) : Z80State :=
  op_da (illegal_1 z)

def fd_db (z : Z80State) : Z80State :=
  op_db (illegal_1 z)

def fd_dc (z : Z80State) : Z80State :=
  op_dc (illegal_1 z)

def fd_de (z : Z80State) : Z80State :=
  op_de (illegal_1 z)

def fd_df (z : Z80State) : Z80State :=
  op_df (illegal_1 z)

def fd_e0 (z : Z80State) : Z80State :=
  op_e0 (illegal_1 z)

def fd_e1 (z : Z80State) : Z80State :=
  let p := pop z z.m_iy; { p.1 with m_iy := p.2 }

def fd_e2 (z : Z80State) : Z80State :=
  op_e2 (illegal_1 z)

def fd_e3 (z : Z80State) : Z80State :=
  let p := ex_sp z z.m_iy; { p.1 with m_iy := p.2 }

def fd_e4 (z : Z80State) : Z80State :=
  op_e4 (illegal_1 z)

def fd_e5 (z : Z80State) : Z80State :=
  push z z.m_iy

def fd_e6 (z : Z80State) : Z80State :=
  op_e6 (illegal_1 z)

def fd_e7 (z : Z80State) : Z80State :=
  op_e7 (illegal_1 z)

def fd_e8 (z : Z80State) : Z80State :=
  op_e8 (illegal_1 z)

def fd_e9 (z : Z80State) : Z80State :=
  setPC z (IY z)

def fd_ea (z : Z80State) : Z80State :=
  op_ea (illegal_1 z)

def fd_eb (z : Z80State) : Z80State :=
  op_eb (illegal_1 z)

def fd_ec (z : Z80State) : Z80State :=
  op_ec (illegal_1 z)

def fd_ed (z : Z80State) : Z80State :=
  op_ed (illegal_1 z)

def fd_ee (z : Z80State) : Z80State :=
  op_ee (illegal_1 z)

def fd_ef (z : Z80State) : Z80State :=
  op_ef (illegal_1 z)

def fd_f0 (z : Z80State) : Z80State :=
  op_f0 (illegal_1 z)

def fd_f1 (z : Z80State) : Z80State :=
  op_f1 (illegal_1 z)

def fd_f2 (z : Z80State) : Z80State :=
  op_f2 (illegal_1 z)

def fd_f3 (z : Z80State) : Z80State :=
  op_f3 (illegal_1 z)

def fd_f4 (z : Z80State) : Z80State :=
  op_f4 (illegal_1 z)

def fd_f5 (z : Z80State) : Z80State :=
  op_f5 (illegal_1 z)

def fd_f6 (z : Z80State) : Z80State :=
  op_f6 (illegal_1 z)

def fd_f7 (z : Z80State) : Z80State :=
  op_f7 (illegal_1 z)

def fd_f8 (z : Z80State) : Z80State :=
  op_f8 (illegal_1 z)

def fd_f9 (z : Z80State) : Z80State :=
  setSP z (IY z)

def fd_fa (z : Z80State) : Z80State :=
  op_fa (illegal_1 z)

def fd_fb (z : Z80State) : Z80State :=
  op_fb (illegal_1 z)

def fd_fc (z : Z80State) : Z80State :=
  op_fc (illegal_1 z)

def fd_fe (z : Z80State) : Z80State :=
  op_fe (illegal_1 z)

def fd_ff (z : Z80State) : Z80State :=
  op_ff (illegal_1 z)


/- The dispatch page selector: the main page and the two index-register
   pages, whose handlers for repeated DD/FD prefix bytes recurse. -/
inductive Pg where
  | pop : Pg
  | pdd : Pg
  | pfd : Pg

/- EXEC(op, o) / EXEC(dd, o) / EXEC(fd, o) of z80.c as one fuel-indexed
   function: a CC deduction from the page cycle table, then the 256-way
   dispatch.  The handlers for opcode bytes DD and FD (op_dd, op_fd, and
   the dd_dd / dd_fd / fd_dd / fd_fd fallthroughs, which are illegal_1
   followed by op_dd / op_fd) are inlined here because they re-enter the
   dispatcher: each inlined body is `m_r++; EXEC(xy, rop)` as in the
   source.  Fuel exhaustion returns none (the C code would recurse
   further). -/

def exec_go : Nat → Pg → Z80State → Nat → Option Z80State
  | 0, _, _, _ => none
  | Nat.succ fuel, Pg.pop, z, o =>
    let z := ccOp z o
    match o with
    | 0x00 => some (op_00 z)
    | 0x01 => some (op_01 z)
    | 0x02 => some (op_02 z)
    | 0x03 => some (op_03 z)
    | 0x04 => some (op_04 z)
    | 0x05 => some (op_05 z)
    | 0x06 => some (op_06 z)
    | 0x07 => some (op_07 z)
    | 0x08 => some (op_08 z)
    | 0x09 => some (op_09 z)
    | 0x0a => some (op_0a z)
    | 0x0b => some (op_0b z)
    | 0x0c => some (op_0c z)
    | 0x0d => some (op_0d z)
    | 0x0e => some (op_0e z)
    | 0x0f => some (op_0f z)
    | 0x10 => some (op_10 z)
    | 0x11 => some (op_11 z)
    | 0x12 => some (op_12 z)
    | 0x13 => some (op_13 z)
    | 0x14 => some (op_14 z)
    | 0x15 => some (op_15 z)
    | 0x16 => some (op_16 z)
    | 0x17 => some (op_17 z)
    | 0x18 => some (op_18 z)
    | 0x19 => some (op_19 z)
    | 0x1a => some (op_1a z)
    | 0x1b => some (op_1b z)
    | 0x1c => some (op_1c z)
    | 0x1d => some (op_1d z)
    | 0x1e => some (op_1e z)
    | 0x1f => some (op_1f z)
    | 0x20 => some (op_20 z)
    | 0x21 => some (op_21 z)
    | 0x22 => some (op_22 z)
    | 0x23 => some (op_23 z)
    | 0x24 => some (op_24 z)
    | 0x25 => some (op_25 z)
    | 0x26 => some (op_26 z)
    | 0x27 => some (op_27 z)
    | 0x28 => some (op_28 z)
    | 0x29 => some (op_29 z)
    | 0x2a => some (op_2a z)
    | 0x2b => some (op_2b z)
    | 0x2c => some (op_2c z)
    | 0x2d => some (op_2d z)
    | 0x2e => some (op_2e z)
    | 0x2f => some (op_2f z)
    | 0x30 => some (op_30 z)
    | 0x31 => some (op_31 z)
    | 0x32 => some (op_32 z)
    | 0x33 => some (op_33 z)
    | 0x34 => some (op_34 z)
    | 0x35 => some (op_35 z)
    | 0x36 => some (op_36 z)
    | 0x37 => some (op_37 z)
    | 0x38 => some (op_38 z)
    | 0x39 => some (op_39 z)
    | 0x3a => some (op_3a z)
    | 0x3b => some (op_3b z)
    | 0x3c => some (op_3c z)
    | 0x3d => some (op_3d z)
    | 0x3e => some (op_3e z)
    | 0x3f => some (op_3f z)
    | 0x40 => some (op_40 z)
    | 0x41 => some (op_41 z)
    | 0x42 => some (op_42 z)
    | 0x43 => some (op_43 z)
    | 0x44 => some (op_44 z)
    | 0x45 => some (op_45 z)
    | 0x46 => some (op_46 z)
    | 0x47 => some (op_47 z)
    | 0x48 => some (op_48 z)
    | 0x49 => some (op_49 z)
    | 0x4a => some (op_4a z)
    | 0x4b => some (op_4b z)
    | 0x4c => some (op_4c z)
    | 0x4d => some (op_4d z)
    | 0x4e => some (op_4e z)
    | 0x4f => some (op_4f z)
    | 0x50 => some (op_50 z)
    | 0x51 => some (op_51 z)
    | 0x52 => some (op_52 z)
    | 0x53 => some (op_53 z)
    | 0x54 => some (op_54 z)
    | 0x55 => some (op_55 z)
    | 0x56 => some (op_56 z)
    | 0x57 => some (op_57 z)
    | 0x58 => some (op_58 z)
    | 0x59 => some (op_59 z)
    | 0x5a => some (op_5a z)
    | 0x5b => some (op_5b z)
    | 0x5c => some (op_5c z)
    | 0x5d => some (op_5d z)
    | 0x5e => some (op_5e z)
    | 0x5f => some (op_5f z)
    | 0x60 => some (op_60 z)
    | 0x61 => some (op_61 z)
    | 0x62 => some (op_62 z)
    | 0x63 => some (op_63 z)
    | 0x64 => some (op_64 z)
    | 0x65 => some (op_65 z)
    | 0x66 => some (op_66 z)
    | 0x67 => some (op_67 z)
    | 0x68 => some (op_68 z)
    | 0x69 => some (op_69 z)
    | 0x6a => some (op_6a z)
    | 0x6b => some (op_6b z)
    | 0x6c => some (op_6c z)
    | 0x6d => some (op_6d z)
    | 0x6e => some (op_6e z)
    | 0x6f => some (op_6f z)
    | 0x70 => some (op_70 z)
    | 0x71 => some (op_71 z)
    | 0x72 => some (op_72 z)
    | 0x73 => some (op_73 z)
    | 0x74 => some (op_74 z)
    | 0x75 => some (op_75 z)
    | 0x76 => some (op_76 z)
    | 0x77 => some (op_77 z)
    | 0x78 => some (op_78 z)
    | 0x79 => some (op_79 z)
    | 0x7a => some (op_7a z)
    | 0x7b => some (op_7b z)
    | 0x7c => some (op_7c z)
    | 0x7d => some (op_7d z)
    | 0x7e => some (op_7e z)
    | 0x7f => some (op_7f z)
    | 0x80 => some (op_80 z)
    | 0x81 => some (op_81 z)
    | 0x82 => some (op_82 z)
    | 0x83 => some (op_83 z)
    | 0x84 => some (op_84 z)
    | 0x85 => some (op_85 z)
    | 0x86 => some (op_86 z)
    | 0x87 => some (op_87 z)
    | 0x88 => some (op_88 z)
    | 0x89 => some (op_89 z)
    | 0x8a => some (op_8a z)
    | 0x8b => some (op_8b z)
    | 0x8c => some (op_8c z)
    | 0x8d => some (op_8d z)
    | 0x8e => some (op_8e z)
    | 0x8f => some (op_8f z)
    | 0x90 => some (op_90 z)
    | 0x91 => some (op_91 z)
    | 0x92 => some (op_92 z)
    | 0x93 => some (op_93 z)
    | 0x94 => some (op_94 z)
    | 0x95 => some (op_95 z)
    | 0x96 => some (op_96 z)
    | 0x97 => some (op_97 z)
    | 0x98 => some (op_98 z)
    | 0x99 => some (op_99 z)
    | 0x9a => some (op_9a z)
    | 0x9b => some (op_9b z)
    | 0x9c => some (op_9c z)
    | 0x9d => some (op_9d z)
    | 0x9e => some (op_9e z)
    | 0x9f => some (op_9f z)
    | 0xa0 => some (op_a0 z)
    | 0xa1 => some (op_a1 z)
    | 0xa2 => some (op_a2 z)
    | 0xa3 => some (op_a3 z)
    | 0xa4 => some (op_a4 z)
    | 0xa5 => some (op_a5 z)
    | 0xa6 => some (op_a6 z)
    | 0xa7 => some (op_a7 z)
    | 0xa8 => some (op_a8 z)
    | 0xa9 => some (op_a9 z)
    | 0xaa => some (op_aa z)
    | 0xab => some (op_ab z)
    | 0xac => some (op_ac z)
    | 0xad => some (op_ad z)
    | 0xae => some (op_ae z)
    | 0xaf => some (op_af z)
    | 0xb0 => some (op_b0 z)
    | 0xb1 => some (op_b1 z)
    | 0xb2 => some (op_b2 z)
    | 0xb3 => some (op_b3 z)
    | 0xb4 => some (op_b4 z)
    | 0xb5 => some (op_b5 z)
    | 0xb6 => some (op_b6 z)
    | 0xb7 => some (op_b7 z)
    | 0xb8 => some (op_b8 z)
    | 0xb9 => some (op_b9 z)
    | 0xba => some (op_ba z)
    | 0xbb => some (op_bb z)
    | 0xbc => some (op_bc z)
    | 0xbd => some (op_bd z)
    | 0xbe => some (op_be z)
    | 0xbf => some (op_bf z)
    | 0xc0 => some (op_c0 z)
    | 0xc1 => some (op_c1 z)
    | 0xc2 => some (op_c2 z)
    | 0xc3 => some (op_c3 z)
    | 0xc4 => some (op_c4 z)
    | 0xc5 => some (op_c5 z)
    | 0xc6 => some (op_c6 z)
    | 0xc7 => some (op_c7 z)
    | 0xc8 => some (op_c8 z)
    | 0xc9 => some (op_c9 z)
    | 0xca => some (op_ca z)
    | 0xcb => some (op_cb z)
    | 0xcc => some (op_cc z)
    | 0xcd => some (op_cd z)
    | 0xce => some (op_ce z)
    | 0xcf => some (op_cf z)
    | 0xd0 => some (op_d0 z)
    | 0xd1 => some (op_d1 z)
    | 0xd2 => some (op_d2 z)
    | 0xd3 => some (op_d3 z)
    | 0xd4 => some (op_d4 z)
    | 0xd5 => some (op_d5 z)
    | 0xd6 => some (op_d6 z)
    | 0xd7 => some (op_d7 z)
    | 0xd8 => some (op_d8 z)
    | 0xd9 => some (op_d9 z)
    | 0xda => some (op_da z)
    | 0xdb => some (op_db z)
    | 0xdc => some (op_dc z)
    | 0xdd =>
      let z := { z with m_r := (z.m_r + 1) % 256 }
      let p := rop z
      exec_go fuel Pg.pdd p.1 p.2
    | 0xde => some (op_de z)
    | 0xdf => some (op_df z)
    | 0xe0 => some (op_e0 z)
    | 0xe1 => some (op_e1 z)
    | 0xe2 => some (op_e2 z)
    | 0xe3 => some (op_e3 z)
    | 0xe4 => some (op_e4 z)
    | 0xe5 => some (op_e5 z)
    | 0xe6 => some (op_e6 z)
    | 0xe7 => some (op_e7 z)
    | 0xe8 => some (op_e8 z)
    | 0xe9 => some (op_e9 z)
    | 0xea => some (op_ea z)
    | 0xeb => some (op_eb z)
    | 0xec => some (op_ec z)
    | 0xed => some (op_ed z)
    | 0xee => some (op_ee z)
    | 0xef => some (op_ef z)
    | 0xf0 => some (op_f0 z)
    | 0xf1 => some (op_f1 z)
    | 0xf2 => some (op_f2 z)
    | 0xf3 => some (op_f3 z)
    | 0xf4 => some (op_f4 z)
    | 0xf5 => some (op_f5 z)
    | 0xf6 => some (op_f6 z)
    | 0xf7 => some (op_f7 z)
    | 0xf8 => some (op_f8 z)
    | 0xf9 => some (op_f9 z)
    | 0xfa => some (op_fa z)
    | 0xfb => some (op_fb z)
    | 0xfc => some (op_fc z)
    | 0xfd =>
      let z := { z with m_r := (z.m_r + 1) % 256 }
      let p := rop z
      exec_go fuel Pg.pfd p.1 p.2
    | 0xfe => some (op_fe z)
    | 0xff => some (op_ff z)
    | _ => some z
  | Nat.succ fuel, Pg.pdd, z, o =>
    let z := ccXy z o
    match o with
    | 0x00 => some (dd_00 z)
    | 0x01 => some (dd_01 z)
    | 0x02 => some (dd_02 z)
    | 0x03 => some (dd_03 z)
    | 0x04 => some (dd_04 z)
    | 0x05 => some (dd_05 z)
    | 0x06 => some (dd_06 z)
    | 0x07 => some (dd_07 z)
    | 0x08 => some (dd_08 z)
    | 0x09 => some (dd_09 z)
    | 0x0a => some (dd_0a z)
    | 0x0b => some (dd_0b z)
    | 0x0c => some (dd_0c z)
    | 0x0d => some (dd_0d z)
    | 0x0e => some (dd_0e z)
    | 0x0f => some (dd_0f z)
    | 0x10 => some (dd_10 z)
    | 0x11 => some (dd_11 z)
    | 0x12 => some (dd_12 z)
    | 0x13 => some (dd_13 z)
    | 0x14 => some (dd_14 z)
    | 0x15 => some (dd_15 z)
    | 0x16 => some (dd_16 z)
    | 0x17 => some (dd_17 z)
    | 0x18 => some (dd_18 z)
    | 0x19 => some (dd_19 z)
    | 0x1a => some (dd_1a z)
    | 0x1b => some (dd_1b z)
    | 0x1c => some (dd_1c z)
    | 0x1d => some (dd_1d z)
    | 0x1e => some (dd_1e z)
    | 0x1f => some (dd_1f z)
    | 0x20 => some (dd_20 z)
    | 0x21 => some (dd_21 z)
    | 0x22 => some (dd_22 z)
    | 0x23 => some (dd_23 z)
    | 0x24 => some (dd_24 z)
    | 0x25 => some (dd_25 z)
    | 0x26 => some (dd_26 z)
    | 0x27 => some (dd_27 z)
    | 0x28 => some (dd_28 z)
    | 0x29 => some (dd_29 z)
    | 0x2a => some (dd_2a z)
    | 0x2b => some (dd_2b z)
    | 0x2c => some (dd_2c z)
    | 0x2d => some (dd_2d z)
    | 0x2e => some (dd_2e z)
    | 0x2f => some (dd_2f z)
    | 0x30 => some (dd_30 z)
    | 0x31 => some (dd_31 z)
    | 0x32 => some (dd_32 z)
    | 0x33 => some (dd_33 z)
    | 0x34 => some (dd_34 z)
    | 0x35 => some (dd_35 z)
    | 0x36 => some (dd_36 z)
    | 0x37 => some (dd_37 z)
    | 0x38 => some (dd_38 z)
    | 0x39 => some (dd_39 z)
    | 0x3a => some (dd_3a z)
    | 0x3b => some (dd_3b z)
    | 0x3c => some (dd_3c z)
    | 0x3d => some (dd_3d z)
    | 0x3e => some (dd_3e z)
    | 0x3f => some (dd_3f z)
    | 0x40 => some (dd_40 z)
    | 0x41 => some (dd_41 z)
    | 0x42 => some (dd_42 z)
    | 0x43 => some (dd_43 z)
    | 0x44 => some (dd_44 z)
    | 0x45 => some (dd_45 z)
    | 0x46 => some (dd_46 z)
    | 0x47 => some (dd_47 z)
    | 0x48 => some (dd_48 z)
    | 0x49 => some (dd_49 z)
    | 0x4a => some (dd_4a z)
    | 0x4b => some (dd_4b z)
    | 0x4c => some (dd_4c z)
    | 0x4d => some (dd_4d z)
    | 0x4e => some (dd_4e z)
    | 0x4f => some (dd_4f z)
    | 0x50 => some (dd_50 z)
    | 0x51 => some (dd_51 z)
    | 0x52 => some (dd_52 z)
    | 0x53 => some (dd_53 z)
    | 0x54 => some (dd_54 z)
    | 0x55 => some (dd_55 z)
    | 0x56 => some (dd_56 z)
    | 0x57 => some (dd_57 z)
    | 0x58 => some (dd_58 z)
    | 0x59 => some (dd_59 z)
    | 0x5a => some (dd_5a z)
    | 0x5b => some (dd_5b z)
    | 0x5c => some (dd_5c z)
    | 0x5d => some (dd_5d z)
    | 0x5e => some (dd_5e z)
    | 0x5f => some (dd_5f z)
    | 0x60 => some (dd_60 z)
    | 0x61 => some (dd_61 z)
    | 0x62 => some (dd_62 z)
    | 0x63 => some (dd_63 z)
    | 0x64 => some (dd_64 z)
    | 0x65 => some (dd_65 z)
    | 0x66 => some (dd_66 z)
    | 0x67 => some (dd_67 z)
    | 0x68 => some (dd_68 z)
    | 0x69 => some (dd_69 z)
    | 0x6a => some (dd_6a z)
    | 0x6b => some (dd_6b z)
    | 0x6c => some (dd_6c z)
    | 0x6d => some (dd_6d z)
    | 0x6e => some (dd_6e z)
    | 0x6f => some (dd_6f z)
    | 0x70 => some (dd_70 z)
    | 0x71 => some (dd_71 z)
    | 0x72 => some (dd_72 z)
    | 0x73 => some (dd_73 z)
    | 0x74 => some (dd_74 z)
    | 0x75 => some (dd_75 z)
    | 0x76 => some (dd_76 z)
    | 0x77 => some (dd_77 z)
    | 0x78 => some (dd_78 z)
    | 0x79 => some (dd_79 z)
    | 0x7a => some (dd_7a z)
    | 0x7b => some (dd_7b z)
    | 0x7c => some (dd_7c z)
    | 0x7d => some (dd_7d z)
    | 0x7e => some (dd_7e z)
    | 0x7f => some (dd_7f z)
    | 0x80 => some (dd_80 z)
    | 0x81 => some (dd_81 z)
    | 0x82 => some (dd_82 z)
    | 0x83 => some (dd_83 z)
    | 0x84 => some (dd_84 z)
    | 0x85 => some (dd_85 z)
    | 0x86 => some (dd_86 z)
    | 0x87 => some (dd_87 z)
    | 0x88 => some (dd_88 z)
    | 0x89 => some (dd_89 z)
    | 0x8a => some (dd_8a z)
    | 0x8b => some (dd_8b z)
    | 0x8c => some (dd_8c z)
    | 0x8d => some (dd_8d z)
    | 0x8e => some (dd_8e z)
    | 0x8f => some (dd_8f z)
    | 0x90 => some (dd_90 z)
    | 0x91 => some (dd_91 z)
    | 0x92 => some (dd_92 z)
    | 0x93 => some (dd_93 z)
    | 0x94 => some (dd_94 z)
    | 0x95 => some (dd_95 z)
    | 0x96 => some (dd_96 z)
    | 0x97 => some (dd_97 z)
    | 0x98 => some (dd_98 z)
    | 0x99 => some (dd_99 z)
    | 0x9a => some (dd_9a z)
    | 0x9b => some (dd_9b z)
    | 0x9c => some (dd_9c z)
    | 0x9d => some (dd_9d z)
    | 0x9e => some (dd_9e z)
    | 0x9f => some (dd_9f z)
    | 0xa0 => some (dd_a0 z)
    | 0xa1 => some (dd_a1 z)
    | 0xa2 => some (dd_a2 z)
    | 0xa3 => some (dd_a3 z)
    | 0xa4 => some (dd_a4 z)
    | 0xa5 => some (dd_a5 z)
    | 0xa6 => some (dd_a6 z)
    | 0xa7 => some (dd_a7 z)
    | 0xa8 => some (dd_a8 z)
    | 0xa9 => some (dd_a9 z)
    | 0xaa => some (dd_aa z)
    | 0xab => some (dd_ab z)
    | 0xac => some (dd_ac z)
    | 0xad => some (dd_ad z)
    | 0xae => some (dd_ae z)
    | 0xaf => some (dd_af z)
    | 0xb0 => some (dd_b0 z)
    | 0xb1 => some (dd_b1 z)
    | 0xb2 => some (dd_b2 z)
    | 0xb3 => some (dd_b3 z)
    | 0xb4 => some (dd_b4 z)
    | 0xb5 => some (dd_b5 z)
    | 0xb6 => some (dd_b6 z)
    | 0xb7 => some (dd_b7 z)
    | 0xb8 => some (dd_b8 z)
    | 0xb9 => some (dd_b9 z)
    | 0xba => some (dd_ba z)
    | 0xbb => some (dd_bb z)
    | 0xbc => some (dd_bc z)
    | 0xbd => some (dd_bd z)
    | 0xbe => some (dd_be z)
    | 0xbf => some (dd_bf z)
    | 0xc0 => some (dd_c0 z)
    | 0xc1 => some (dd_c1 z)
    | 0xc2 => some (dd_c2 z)
    | 0xc3 => some (dd_c3 z)
    | 0xc4 => some (dd_c4 z)
    | 0xc5 => some (dd_c5 z)
    | 0xc6 => some (dd_c6 z)
    | 0xc7 => some (dd_c7 z)
    | 0xc8 => some (dd_c8 z)
    | 0xc9 => some (dd_c9 z)
    | 0xca => some (dd_ca z)
    | 0xcb => some (dd_cb z)
    | 0xcc => some (dd_cc z)
    | 0xcd => some (dd_cd z)
    | 0xce => some (dd_ce z)
    | 0xcf => some (dd_cf z)
    | 0xd0 => some (dd_d0 z)
    | 0xd1 => some (dd_d1 z)
    | 0xd2 => some (dd_d2 z)
    | 0xd3 => some (dd_d3 z)
    | 0xd4 => some (dd_d4 z)
    | 0xd5 => some (dd_d5 z)
    | 0xd6 => some (dd_d6 z)
    | 0xd7 => some (dd_d7 z)
    | 0xd8 => some (dd_d8 z)
    | 0xd9 => some (dd_d9 z)
    | 0xda => some (dd_da z)
    | 0xdb => some (dd_db z)
    | 0xdc => some (dd_dc z)
    | 0xdd =>
      let z := illegal_1 z
      let z := { z with m_r := (z.m_r + 1) % 256 }
      let p := rop z
      exec_go fuel Pg.pdd p.1 p.2
    | 0xde => some (dd_de z)
    | 0xdf => some (dd_df z)
    | 0xe0 => some (dd_e0 z)
    | 0xe1 => some (dd_e1 z)
    | 0xe2 => some (dd_e2 z)
    | 0xe3 => some (dd_e3 z)
    | 0xe4 => some (dd_e4 z)
    | 0xe5 => some (dd_e5 z)
    | 0xe6 => some (dd_e6 z)
    | 0xe7 => some (dd_e7 z)
    | 0xe8 => some (dd_e8 z)
    | 0xe9 => some (dd_e9 z)
    | 0xea => some (dd_ea z)
    | 0xeb => some (dd_eb z)
    | 0xec => some (dd_ec z)
    | 0xed => some (dd_ed z)
    | 0xee => some (dd_ee z)
    | 0xef => some (dd_ef z)
    | 0xf0 => some (dd_f0 z)
    | 0xf1 => some (dd_f1 z)
    | 0xf2 => some (dd_f2 z)
    | 0xf3 => some (dd_f3 z)
    | 0xf4 => some (dd_f4 z)
    | 0xf5 => some (dd_f5 z)
    | 0xf6 => some (dd_f6 z)
    | 0xf7 => some (dd_f7 z)
    | 0xf8 => some (dd_f8 z)
    | 0xf9 => some (dd_f9 z)
    | 0xfa => some (dd_fa z)
    | 0xfb => some (dd_fb z)
    | 0xfc => some (dd_fc z)
    | 0xfd =>
      let z := illegal_1 z
      let z := { z with m_r := (z.m_r + 1) % 256 }
      let p := rop z
      exec_go fuel Pg.pfd p.1 p.2
    | 0xfe => some (dd_fe z)
    | 0xff => some (dd_ff z)
    | _ => some z
  | Nat.succ fuel, Pg.pfd, z, o =>
    let z := ccXy z o
    match o with
    | 0x00 => some (fd_00 z)
    | 0x01 => some (fd_01 z)
    | 0x02 => some (fd_02 z)
    | 0x03 => some (fd_03 z)
    | 0x04 => some (fd_04 z)
    | 0x05 => some (fd_05 z)
    | 0x06 => some (fd_06 z)
    | 0x07 => some (fd_07 z)
    | 0x08 => some (fd_08 z)
    | 0x09 => some (fd_09 z)
    | 0x0a => some (fd_0a z)
    | 0x0b => some (fd_0b z)
    | 0x0c => some (fd_0c z)
    | 0x0d => some (fd_0d z)
    | 0x0e => some (fd_0e z)
    | 0x0f => some (fd_0f z)
    | 0x10 => some (fd_10 z)
    | 0x11 => some (fd_11 z)
    | 0x12 => some (fd_12 z)
    | 0x13 => some (fd_13 z)
    | 0x14 => some (fd_14 z)
    | 0x15 => some (fd_15 z)
    | 0x16 => some (fd_16 z)
    | 0x17 => some (fd_17 z)
    | 0x18 => some (fd_18 z)
    | 0x19 => some (fd_19 z)
    | 0x1a => some (fd_1a z)
    | 0x1b => some (fd_1b z)
    | 0x1c => some (fd_1c z)
    | 0x1d => some (fd_1d z)
    | 0x1e => some (fd_1e z)
    | 0x1f => some (fd_1f z)
    | 0x20 => some (fd_20 z)
    | 0x21 => some (fd_21 z)
    | 0x22 => some (fd_22 z)
    | 0x23 => some (fd_23 z)
    | 0x24 => some (fd_24 z)
    | 0x25 => some (fd_25 z)
    | 0x26 => some (fd_26 z)
    | 0x27 => some (fd_27 z)
    | 0x28 => some (fd_28 z)
    | 0x29 => some (fd_29 z)
    | 0x2a => some (fd_2a z)
    | 0x2b => some (fd_2b z)
    | 0x2c => some (fd_2c z)
    | 0x2d => some (fd_2d z)
    | 0x2e => some (fd_2e z)
    | 0x2f => some (fd_2f z)
    | 0x30 => some (fd_30 z)
    | 0x31 => some (fd_31 z)
    | 0x32 => some (fd_32 z)
    | 0x33 => some (fd_33 z)
    | 0x34 => some (fd_34 z)
    | 0x35 => some (fd_35 z)
    | 0x36 => some (fd_36 z)
    | 0x37 => some (fd_37 z)
    | 0x38 => some (fd_38 z)
    | 0x39 => some (fd_39 z)
    | 0x3a => some (fd_3a z)
    | 0x3b => some (fd_3b z)
    | 0x3c => some (fd_3c z)
    | 0x3d => some (fd_3d z)
    | 0x3e => some (fd_3e z)
    | 0x3f => some (fd_3f z)
    | 0x40 => some (fd_40 z)
    | 0x41 => some (fd_41 z)
    | 0x42 => some (fd_42 z)
    | 0x43 => some (fd_43 z)
    | 0x44 => some (fd_44 z)
    | 0x45 => some (fd_45 z)
    | 0x46 => some (fd_46 z)
    | 0x47 => some (fd_47 z)
    | 0x48 => some (fd_48 z)
    | 0x49 => some (fd_49 z)
    | 0x4a => some (fd_4a z)
    | 0x4b => some (fd_4b z)
    | 0x4c => some (fd_4c z)
    | 0x4d => some (fd_4d z)
    | 0x4e => some (fd_4e z)
    | 0x4f => some (fd_4f z)
    | 0x50 => some (fd_50 z)
    | 0x51 => some (fd_51 z)
    | 0x52 => some (fd_52 z)
    | 0x53 => some (fd_53 z)
    | 0x54 => some (fd_54 z)
    | 0x55 => some (fd_55 z)
    | 0x56 => some (fd_56 z)
    | 0x57 => some (fd_57 z)
    | 0x58 => some (fd_58 z)
    | 0x59 => some (fd_59 z)
    | 0x5a => some (fd_5a z)
    | 0x5b => some (fd_5b z)
    | 0x5c => some (fd_5c z)
    | 0x5d => some (fd_5d z)
    | 0x5e => some (fd_5e z)
    | 0x5f => some (fd_5f z)
    | 0x60 => some (fd_60 z)
    | 0x61 => some (fd_61 z)
    | 0x62 => some (fd_62 z)
    | 0x63 => some (fd_63 z)
    | 0x64 => some (fd_64 z)
    | 0x65 => some (fd_65 z)
    | 0x66 => some (fd_66 z)
    | 0x67 => some (fd_67 z)
    | 0x68 => some (fd_68 z)
    | 0x69 => some (fd_69 z)
    | 0x6a => some (fd_6a z)
    | 0x6b => some (fd_6b z)
    | 0x6c => some (fd_6c z)
    | 0x6d => some (fd_6d z)
    | 0x6e => some (fd_6e z)
    | 0x6f => some (fd_6f z)
    | 0x70 => some (fd_70 z)
    | 0x71 => some (fd_71 z)
    | 0x72 => some (fd_72 z)
    | 0x73 => some (fd_73 z)
    | 0x74 => some (fd_74 z)
    | 0x75 => some (fd_75 z)
    | 0x76 => some (fd_76 z)
    | 0x77 => some (fd_77 z)
    | 0x78 => some (fd_78 z)
    | 0x79 => some (fd_79 z)
    | 0x7a => some (fd_7a z)
    | 0x7b => some (fd_7b z)
    | 0x7c => some (fd_7c z)
    | 0x7d => some (fd_7d z)
    | 0x7e => some (fd_7e z)
    | 0x7f => some (fd_7f z)
    | 0x80 => some (fd_80 z)
    | 0x81 => some (fd_81 z)
    | 0x82 => some (fd_82 z)
    | 0x83 => some (fd_83 z)
    | 0x84 => some (fd_84 z)
    | 0x85 => some (fd_85 z)
    | 0x86 => some (fd_86 z)
    | 0x87 => some (fd_87 z)
    | 0x88 => some (fd_88 z)
    | 0x89 => some (fd_89 z)
    | 0x8a => some (fd_8a z)
    | 0x8b => some (fd_8b z)
    | 0x8c => some (fd_8c z)
    | 0x8d => some (fd_8d z)
    | 0x8e => some (fd_8e z)
    | 0x8f => some (fd_8f z)
    | 0x90 => some (fd_90 z)
    | 0x91 => some (fd_91 z)
    | 0x92 => some (fd_92 z)
    | 0x93 => some (fd_93 z)
    | 0x94 => some (fd_94 z)
    | 0x95 => some (fd_95 z)
    | 0x96 => some (fd_96 z)
    | 0x97 => some (fd_97 z)
    | 0x98 => some (fd_98 z)
    | 0x99 => some (fd_99 z)
    | 0x9a => some (fd_9a z)
    | 0x9b => some (fd_9b z)
    | 0x9c => some (fd_9c z)
    | 0x9d => some (fd_9d z)
    | 0x9e => some (fd_9e z)
    | 0x9f => some (fd_9f z)
    | 0xa0 => some (fd_a0 z)
    | 0xa1 => some (fd_a1 z)
    | 0xa2 => some (fd_a2 z)
    | 0xa3 => some (fd_a3 z)
    | 0xa4 => some (fd_a4 z)
    | 0xa5 => some (fd_a5 z)
    | 0xa6 => some (fd_a6 z)
    | 0xa7 => some (fd_a7 z)
    | 0xa8 => some (fd_a8 z)
    | 0xa9 => some (fd_a9 z)
    | 0xaa => some (fd_aa z)
    | 0xab => some (fd_ab z)
    | 0xac => some (fd_ac z)
    | 0xad => some (fd_ad z)
    | 0xae => some (fd_ae z)
    | 0xaf => some (fd_af z)
    | 0xb0 => some (fd_b0 z)
    | 0xb1 => some (fd_b1 z)
    | 0xb2 => some (fd_b2 z)
    | 0xb3 => some (fd_b3 z)
    | 0xb4 => some (fd_b4 z)
    | 0xb5 => some (fd_b5 z)
    | 0xb6 => some (fd_b6 z)
    | 0xb7 => some (fd_b7 z)
    | 0xb8 => some (fd_b8 z)
    | 0xb9 => some (fd_b9 z)
    | 0xba => some (fd_ba z)
    | 0xbb => some (fd_bb z)
    | 0xbc => some (fd_bc z)
    | 0xbd => some (fd_bd z)
    | 0xbe => some (fd_be z)
    | 0xbf => some (fd_bf z)
    | 0xc0 => some (fd_c0 z)
    | 0xc1 => some (fd_c1 z)
    | 0xc2 => some (fd_c2 z)
    | 0xc3 => some (fd_c3 z)
    | 0xc4 => some (fd_c4 z)
    | 0xc5 => some (fd_c5 z)
    | 0xc6 => some (fd_c6 z)
    | 0xc7 => some (fd_c7 z)
    | 0xc8 => some (fd_c8 z)
    | 0xc9 => some (fd_c9 z)
    | 0xca => some (fd_ca z)
    | 0xcb => some (fd_cb z)
    | 0xcc => some (fd_cc z)
    | 0xcd => some (fd_cd z)
    | 0xce => some (fd_ce z)
    | 0xcf => some (fd_cf z)
    | 0xd0 => some (fd_d0 z)
    | 0xd1 => some (fd_d1 z)
    | 0xd2 => some (fd_d2 z)
    | 0xd3 => some (fd_d3 z)
    | 0xd4 => some (fd_d4 z)
    | 0xd5 => some (fd_d5 z)
    | 0xd6 => some (fd_d6 z)
    | 0xd7 => some (fd_d7 z)
    | 0xd8 => some (fd_d8 z)
    | 0xd9 => some (fd_d9 z)
    | 0xda => some (fd_da z)
    | 0xdb => some (fd_db z)
    | 0xdc => some (fd_dc z)
    | 0xdd =>
      let z := illegal_1 z
      let z := { z with m_r := (z.m_r + 1) % 256 }
      let p := rop z
      exec_go fuel Pg.pdd p.1 p.2
    | 0xde => some (fd_de z)
    | 0xdf => some (fd_df z)
    | 0xe0 => some (fd_e0 z)
    | 0xe1 => some (fd_e1 z)
    | 0xe2 => some (fd_e2 z)
    | 0xe3 => some (fd_e3 z)
    | 0xe4 => some (fd_e4 z)
    | 0xe5 => some (fd_e5 z)
    | 0xe6 => some (fd_e6 z)
    | 0xe7 => some (fd_e7 z)
    | 0xe8 => some (fd_e8 z)
    | 0xe9 => some (fd_e9 z)
    | 0xea => some (fd_ea z)
    | 0xeb => some (fd_eb z)
    | 0xec => some (fd_ec z)
    | 0xed => some (fd_ed z)
    | 0xee => some (fd_ee z)
    | 0xef => some (fd_ef z)
    | 0xf0 => some (fd_f0 z)
    | 0xf1 => some (fd_f1 z)
    | 0xf2 => some (fd_f2 z)
    | 0xf3 => some (fd_f3 z)
    | 0xf4 => some (fd_f4 z)
    | 0xf5 => some (fd_f5 z)
    | 0xf6 => some (fd_f6 z)
    | 0xf7 => some (fd_f7 z)
    | 0xf8 => some (fd_f8 z)
    | 0xf9 => some (fd_f9 z)
    | 0xfa => some (fd_fa z)
    | 0xfb => some (fd_fb z)
    | 0xfc => some (fd_fc z)
    | 0xfd =>
      let z := illegal_1 z
      let z := { z with m_r := (z.m_r + 1) % 256 }
      let p := rop z
      exec_go fuel Pg.pfd p.1 p.2
    | 0xfe => some (fd_fe z)
    | 0xff => some (fd_ff z)
    | _ => some z


end Z80
namespace Backend

/-- A memory map chunk (backend.h; the runtime structure of the spec).
The read/write callback fields are not represented: callback dispatch is
modelled on the slow-path oracles of the CPU states.  `stop` is the C
field `end`. -/
structure memmap_chunk where
  start : Nat
  stop : Nat
  address_mask : Nat
  flags : Nat
  ptr_index : Nat
  buffer : Option Nat

/-- Chunk flag READ.  The flag values live in backend.h (not among the
sources); only their distinctness matters, so they are modelled from the
spec as distinct bits. -/
def MMAP_READ : Nat := 1
/-- Chunk flag WRITE. -/
def MMAP_WRITE : Nat := 2
/-- Chunk flag CODE. -/
def MMAP_CODE : Nat := 4
/-- Chunk flag PTR_IDX. -/
def MMAP_PTR_IDX : Nat := 8
/-- Chunk flag ONLY_ODD. -/
def MMAP_ONLY_ODD : Nat := 16
/-- Chunk flag ONLY_EVEN. -/
def MMAP_ONLY_EVEN : Nat := 32
/-- Chunk flag FUNC_NULL. -/
def MMAP_FUNC_NULL : Nat := 64

/-- Modelled from the spec: find_map_chunk (mem.c, not among the
sources).  The spec: "Chunks do not overlap.  Lookup returns the first
matching chunk."  Matching takes start inclusive and end exclusive, as
the full-coverage test `chunk->end < address + page_size` of the callers
indicates. -/
def find_map_chunk (address : Nat) (memmap : List memmap_chunk) : Option memmap_chunk :=
  memmap.find? (fun c => decide (c.start ≤ address ∧ address < c.stop))

/-- Modelled from the spec: get_native_pointer (mem.c, not among the
sources), the `native_pointer(addr) -> buffer?` operation.  It yields a
pointer into the backing buffer of the first matching chunk when that
chunk is plainly readable: the PTR_IDX flag selects a runtime-bound
buffer from mem_pointers instead of the chunk buffer (the spec: "PTR_IDX
selects one of several swappable physical buffers bound at runtime");
the offset is the address under the chunk address mask.  none is the
null pointer (no chunk, not readable, or a null buffer). -/
def get_native_pointer (address : Nat) (mem_pointers : Nat → Option Nat)
    (memmap : List memmap_chunk) : Option (Nat × Nat) :=
  match find_map_chunk address memmap with
  | none => none
  | some c =>
    if c.flags &&& MMAP_READ = 0 then none
    else
      match (if c.flags &&& MMAP_PTR_IDX ≠ 0 then mem_pointers c.ptr_index else c.buffer) with
      | none => none
      | some b => some (b, address &&& c.address_mask)

end Backend

namespace Z80

/-- z80_options (z80.h), restricted to the fields the embedded code
reads: the memory map and clock divider of the generic options plus the
io address mask. -/
structure z80_options where
  memmap : List Backend.memmap_chunk
  clock_divider : Nat
  io_address_mask : Nat

/-- One iteration of the fast-pointer population loop of
init_z80_context (z80.c lines 3451 to 3469) for the page starting at
`address`: the slot stays null unless the first matching chunk covers
the whole 8 KiB page, has no PTR_IDX flag, names a buffer, and
get_native_pointer yields a pointer; the read (resp. write) slot is
filled when the chunk has the READ (resp. WRITE) flag.  Each loop
iteration writes only its own page slot, so the loop is translated
pointwise. -/
def z80_install_page (memmap : List Backend.memmap_chunk) (mem_pointers : Nat → Option Nat)
    (address : Nat) : Option (Nat × Nat) × Option (Nat × Nat) :=
  match Backend.find_map_chunk address memmap with
  | none => (none, none)
  | some chunk =>
    if chunk.stop < address + 8192 ∨ chunk.flags &&& Backend.MMAP_PTR_IDX ≠ 0 ∨
       chunk.buffer = none then (none, none)
    else
      match Backend.get_native_pointer address mem_pointers memmap with
      | none => (none, none)
      | some ptr =>
        ((if chunk.flags &&& Backend.MMAP_READ ≠ 0 then some ptr else none),
         (if chunk.flags &&& Backend.MMAP_WRITE ≠ 0 then some ptr else none))

/-- init_z80_context (z80.c): the context is calloc-zeroed, the
registers take their reset values (IX = IY = 0xFFFF, the zero flag set),
the cycle tables point at the global tables, and the fast-pointer tables
are populated from the memory map with the calloc-zeroed (all-null)
mem_pointers.  The process-global flag tables of the same function are
the table functions SZ, SZ_BIT, SZP, SZHV_inc, SZHV_dec, SZHVC_add and
SZHVC_sub above, whose builder loops are translated entry-wise.  The
slow-path oracles of a fresh context return 0. -/
def init_z80_context (opts : z80_options) : Z80State :=
  { m_prvpc := ⟨0⟩, m_pc := ⟨0⟩, m_sp := ⟨0⟩
    m_af := Pair.setBL ⟨0⟩ ZF
    m_bc := ⟨0⟩, m_de := ⟨0⟩, m_hl := ⟨0⟩
    m_ix := Pair.setW ⟨0⟩ 0xffff, m_iy := Pair.setW ⟨0⟩ 0xffff
    m_wz := ⟨0⟩, m_af2 := ⟨0⟩, m_bc2 := ⟨0⟩, m_de2 := ⟨0⟩, m_hl2 := ⟨0⟩
    m_r := 0, m_r2 := 0, m_iff1 := 0, m_iff2 := 0, m_halt := 0, m_im := 0, m_i := 0
    m_nmi_state := 0, m_nmi_pending := 0, m_irq_state := 0, m_wait_state := 0
    busreq := 0, busack := 0, reset := 0
    m_after_ei := 0, m_after_ldair := 0, m_ea := 0
    m_icount := 0, current_cycle := 0
    nmi_start := 0, int_pulse_start := 0, int_pulse_end := 0
    im2_vector := 0
    m_cc_op := cc_op, m_cc_cb := cc_cb, m_cc_ed := cc_ed
    m_cc_xy := cc_xy, m_cc_xycb := cc_xycb, m_cc_ex := cc_ex
    read_pointers := fun page =>
      if page < 8 then (z80_install_page opts.memmap (fun _ => none) (page * 8192)).1 else none
    write_pointers := fun page =>
      if page < 8 then (z80_install_page opts.memmap (fun _ => none) (page * 8192)).2 else none
    bufs := fun _ _ => 0, slow_read := fun _ => 0, io_in := fun _ => 0
    io_address_mask := opts.io_address_mask
    clock_divider := opts.clock_divider
    wlog := [], iolog := [] }

/-- take_interrupt (z80.c): leave halt, clear both interrupt flip
flops, and service the interrupt according to the interrupt mode,
deducting the documented T-states from m_icount; WZ tracks the new PC.
The im2_vector field is a uint8, so the IM 0 tests of the 0xCD / 0xC3
prefixes on bits 16..23 are translated as written. -/
def take_interrupt (z : Z80State) : Z80State :=
  let z := { z with m_prvpc := ⟨0xffff⟩ }
  let z := leave_halt z
  let z := { z with m_iff1 := 0, m_iff2 := 0 }
  let irq_vector := z.im2_vector
  let z :=
    if z.m_im = 2 then
      let irq_vector := (irq_vector &&& 0xff) ||| (z.m_i <<< 8)
      let z := push z z.m_pc
      let z := { z with m_pc := rm16 z irq_vector z.m_pc }
      { z with m_icount := z.m_icount - ((z.m_cc_op 0xcd + z.m_cc_ex 0xff : Nat) : Int) }
    else if z.m_im = 1 then
      let z := push z z.m_pc
      let z := { z with m_pc := ⟨0x0038⟩ }
      { z with m_icount := z.m_icount - ((z.m_cc_op 0xff + cc_ex 0xff : Nat) : Int) }
    else
      let z :=
        if irq_vector ≠ 0 then
          if irq_vector &&& 0xff0000 = 0xcd0000 then
            let z := push z z.m_pc
            let z := { z with m_pc := ⟨irq_vector &&& 0xffff⟩ }
            { z with m_icount := z.m_icount - ((z.m_cc_op 0xcd : Nat) : Int) }
          else if irq_vector &&& 0xff0000 = 0xc30000 then
            let z := { z with m_pc := ⟨irq_vector &&& 0xffff⟩ }
            { z with m_icount := z.m_icount - ((z.m_cc_op 0xc3 : Nat) : Int) }
          else
            let z := push z z.m_pc
            let z := { z with m_pc := ⟨irq_vector &&& 0x0038⟩ }
            { z with m_icount := z.m_icount - ((z.m_cc_op 0xff : Nat) : Int) }
        else z
      { z with m_icount := z.m_icount - ((z.m_cc_ex 0xff : Nat) : Int) }
  setWZ z (PCD z)

/-- The do-while body and loop of z80_run (z80.c lines 3541 to 3571).
The next_int_pulse host callback is the function parameter nip (it is a
function-pointer field of the C context, modelled as a parameter); the
interrupt branch of the source invokes it unconditionally, which is
translated as the identity when the pointer is null.  Fuel bounds both
the loop and the prefix-chain recursion of the dispatcher; none means
the fuel ran out, never that the C code stops. -/
def z80_run_body (nip : Option (Z80State → Z80State)) (target_cycle : Nat) :
    Nat → Z80State → Int → Option Z80State
  | 0, _, _ => none
  | Nat.succ fuel, z, int_icount =>
    let st :=
      if z.m_icount ≤ int_icount ∧ z.m_iff1 ≠ 0 ∧ z.m_after_ei = 0 then
        let z := take_interrupt z
        let cc := u32i ((target_cycle : Int) - z.m_icount * (z.clock_divider : Int))
        let z := { z with current_cycle := cc }
        let z := match nip with | some f => f z | none => z
        let ii :=
          if z.int_pulse_start < target_cycle then
            (if z.int_pulse_start < z.current_cycle then z.m_icount
             else i32 ((u32 (u32sub z.int_pulse_start z.current_cycle + z.clock_divider) +
                        4294967295) % 4294967296 / z.clock_divider))
          else int_icount
        (z, ii)
      else (z, int_icount)
    let z := st.1
    let int_icount := st.2
    let z := { z with m_after_ei := 0, m_after_ldair := 0 }
    let z := { z with m_prvpc := z.m_pc }
    let z := { z with m_r := (z.m_r + 1) % 256 }
    let p := rop z
    match exec_go fuel Pg.pop p.1 p.2 with
    | none => none
    | some z =>
      let z := if z.busreq ≠ 0 then { z with busack := 1, m_icount := 0 } else z
      if 0 < z.m_icount then z80_run_body nip target_cycle fuel z int_icount
      else
        let cc := u32i ((target_cycle : Int) - z.m_icount * (z.clock_divider : Int))
        some { z with current_cycle := cc }

/-- z80_run (z80.c lines 3522 to 3572).  With busack or reset active the
context only fast-forwards its cycle counter to the deadline; a deadline
at or before current_cycle returns at once; otherwise the T-state budget
m_icount is computed from the clock divider (in the uint32 and int32
arithmetic of the source) and the instruction loop runs. -/
def z80_run (nip : Option (Z80State → Z80State)) (z : Z80State) (target_cycle : Nat)
    (fuel : Nat) : Option Z80State :=
  let target_cycle := target_cycle % 4294967296
  if z.busack ≠ 0 ∨ z.reset ≠ 0 then some { z with current_cycle := target_cycle }
  else if target_cycle ≤ z.current_cycle then some z
  else
    let z :=
      match nip with
      | some f =>
        if z.int_pulse_end < z.current_cycle ∨ z.int_pulse_end = CYCLE_NEVER then f z else z
      | none => z
    let ic := i32 ((u32 (u32sub target_cycle z.current_cycle + z.clock_divider) + 4294967295) %
      4294967296 / z.clock_divider)
    let z := { z with m_icount := ic }
    let int_icount : Int :=
      if z.int_pulse_start < target_cycle then
        (if z.int_pulse_start < z.current_cycle then z.m_icount
         else i32 ((u32 (u32sub z.int_pulse_start z.current_cycle + z.clock_divider) +
                    4294967295) % 4294967296 / z.clock_divider))
      else INT_MIN
    z80_run_body nip target_cycle fuel z int_icount

/-- z80_assert_reset (z80.c): catch up to the cycle, then latch reset. -/
def z80_assert_reset (nip : Option (Z80State → Z80State)) (z : Z80State) (cycle : Nat)
    (fuel : Nat) : Option Z80State :=
  match z80_run nip z cycle fuel with
  | none => none
  | some z => some { z with reset := 1 }

/-- z80_clear_reset (z80.c lines 3482 to 3500): a no-op when reset is
not latched; otherwise catch up to the cycle (with reset latched the run
only fast-forwards), then apply the reset edge: PC, I, R, R2, the EI/LDAIR
shadows and both interrupt flip flops are cleared, reset is released and
WZ follows PC. -/
def z80_clear_reset (nip : Option (Z80State → Z80State)) (z : Z80State) (cycle : Nat)
    (fuel : Nat) : Option Z80State :=
  if z.reset = 0 then some z
  else
    match z80_run nip z cycle fuel with
    | none => none
    | some z =>
      let z := setPC z 0
      let z := { z with m_i := 0, m_r := 0, m_r2 := 0, m_after_ei := 0, m_after_ldair := 0,
                        m_iff1 := 0, m_iff2 := 0, reset := 0 }
      some (setWZ z (PCD z))

/-- z80_assert_busreq (z80.c): latch the bus request. -/
def z80_assert_busreq (z : Z80State) (cycle : Nat) : Z80State :=
  { z with busreq := 1 }

/-- z80_clear_busreq (z80.c): release the bus request and the
acknowledge. -/
def z80_clear_busreq (z : Z80State) (cycle : Nat) : Z80State :=
  { z with busreq := 0, busack := 0 }

/-- z80_get_busack (z80.c): catch up then report busack. -/
def z80_get_busack (nip : Option (Z80State → Z80State)) (z : Z80State) (cycle : Nat)
    (fuel : Nat) : Option Int :=
  match z80_run nip z cycle fuel with
  | none => none
  | some z => some z.busack

/-- z80_assert_nmi (z80.c): latch the cycle of the NMI edge (the take
path of the NMI is absent from the source). -/
def z80_assert_nmi (z : Z80State) (cycle : Nat) : Z80State :=
  { z with nmi_start := cycle }

/-- z80_adjust_cycles (z80.c lines 3606 to 3634): deduct the rebase
amount from current_cycle (clamping at zero, with a warning log), and
from the interrupt pulse window unless it is already CYCLE_NEVER: a
window that ends before the deduction is invalidated to CYCLE_NEVER,
otherwise the end (when not CYCLE_NEVER) and the start (clamped at zero)
are reduced.  No other field is touched. -/
def z80_adjust_cycles (z : Z80State) (deduction : Nat) : Z80State :=
  let deduction := deduction % 4294967296
  let z :=
    if z.current_cycle < deduction then { z with current_cycle := 0 }
    else { z with current_cycle := z.current_cycle - deduction }
  if z.int_pulse_start ≠ CYCLE_NEVER then
    if z.int_pulse_end < deduction then
      { z with int_pulse_start := CYCLE_NEVER, int_pulse_end := CYCLE_NEVER }
    else
      let z :=
        if z.int_pulse_end ≠ CYCLE_NEVER then { z with int_pulse_end := z.int_pulse_end - deduction }
        else z
      if z.int_pulse_start < deduction then { z with int_pulse_start := 0 }
      else { z with int_pulse_start := z.int_pulse_start - deduction }
  else z

/-- A serialize buffer: the sequence of bytes written so far. -/
def serialize_buffer : Type := List Nat

/-- z80_serialize (z80.c lines 3588 to 3590): the body is empty, so the
buffer is returned unchanged and nothing of the context is recorded. -/
def z80_serialize (z : Z80State) (buf : serialize_buffer) : serialize_buffer := buf

/-- z80_deserialize (z80.c lines 3591 to 3593): the body is empty, so
the target context is returned unchanged and the buffer is ignored. -/
def z80_deserialize (buf : serialize_buffer) (z : Z80State) : Z80State := z

end Z80
namespace M68K

/-- run_mode NORMAL (value from m68kcpu.h, not among the sources; only
distinctness from the reset mode is used). -/
def RUN_MODE_NORMAL : Nat := 0
/-- run_mode BERR_AERR_RESET. -/
def RUN_MODE_BERR_AERR_RESET : Nat := 1
/-- Exception vector 0 = Reset, per the stable vector table of the
spec. -/
def EXCEPTION_RESET : Nat := 0
/-- SFLAG_SET of m68kcpu.h: the S bit of the set_sm_flag argument. -/
def SFLAG_SET : Nat := 4
/-- MFLAG_CLEAR of m68kcpu.h. -/
def MFLAG_CLEAR : Nat := 0

/-- The part of the m68000_base_device context that the embedded
functions reach.  The 64 KiB-page fast pointer tables hold (buffer id,
word offset) pairs into the word-buffer heap bufs16 — the C pointers are
byte pointers cast to uint16_t*, so offsets are kept in words.
`slow_read` is a pure oracle for the read_word callback path and
`slowlog` a ghost log of the write_word slow-path invocations (mem.c is
not among the sources; modelled from the spec). -/
structure M68KState where
  pc : Nat
  ppc : Nat
  sp : Nat
  ir : Nat
  status : Nat
  s_flag : Nat
  m_flag : Nat
  t1_flag : Nat
  t0_flag : Nat
  int_mask : Nat
  stopped : Nat
  run_mode : Nat
  pref_addr : Nat
  current_cycle : Nat
  target_cycle : Nat
  cyc_exception : Nat → Nat
  cyc_instruction : Nat → Nat
  read_pointers : Nat → Option (Nat × Nat)
  write_pointers : Nat → Option (Nat × Nat)
  bufs16 : Nat → Nat → Nat
  slow_read : Nat → Nat
  slowlog : List (Nat × Nat)

/-- Pointwise update of the word-buffer heap. -/
def updBufs16 (f : Nat → Nat → Nat) (b i v : Nat) : Nat → Nat → Nat :=
  fun b2 i2 => if b2 = b ∧ i2 = i then v else f b2 i2

/-- m68ki_read_16 (part_000 lines 801 to 810): mask to the 24-bit
space, consult read_pointers[address >> 16]; a non-null entry is a
uint16_t buffer indexed by (address >> 1) & 0x7FFF, a null entry goes to
the read_word callback (slow oracle). -/
def m68ki_read_16 (m : M68KState) (address : Nat) : Nat :=
  let address := address % 4294967296 &&& 0xFFFFFF
  match m.read_pointers (address >>> 16) with
  | some bo => m.bufs16 bo.1 (bo.2 + (address >>> 1 &&& 0x7FFF)) % 65536
  | none => m.slow_read address % 65536

/-- m68ki_write_16 (part_000 lines 812 to 822), translated exactly as
written: the null test is on write_pointers[base], but the store goes
through `uint16_t *chunk = m68k->read_pointers[base]` — the READ
pointer.  When write_pointers[base] is non-null but read_pointers[base]
is null this dereferences a null pointer: that is the `none` result.
The null write_pointers path calls write_word (slow path, modelled from
the spec as consumed by the callback; observed on slowlog). -/
def m68ki_write_16 (m : M68KState) (address value : Nat) : Option M68KState :=
  let address := address % 4294967296 &&& 0xFFFFFF
  let value := value % 65536
  match m.write_pointers (address >>> 16) with
  | some _ =>
    match m.read_pointers (address >>> 16) with
    | some bo =>
      some { m with bufs16 := updBufs16 m.bufs16 bo.1 (bo.2 + (address >>> 1 &&& 0x7FFF)) value }
    | none => none
  | none => some { m with slowlog := (address, value) :: m.slowlog }

/-- Modelled from the spec: m68ki_set_sm_flag (m68kcpu.h, not among the
sources) sets the S and M status bits from the SFLAG / MFLAG bits of its
argument ("Go to supervisor mode").  The shadow stack-pointer exchange
it performs on the S edge is omitted: m68k_reset_cpu overwrites SP from
memory immediately afterwards, so it cannot be observed by the claims
settled here. -/
def m68ki_set_sm_flag (m : M68KState) (value : Nat) : M68KState :=
  { m with s_flag := value &&& 4, m_flag := value &&& 2 }

/-- Modelled from the spec: m68ki_jump (m68kcpu.h, not among the
sources) sets PC to the target address. -/
def m68ki_jump (m : M68KState) (new_pc : Nat) : M68KState :=
  { m with pc := new_pc % 4294967296 }

/-- Modelled from the spec: m68ki_read_imm_32 (m68kcpu.h, not among the
sources) reads a 32-bit big-endian value at PC through the 16-bit data
interface (high word first) and advances PC by 4; the prefetch queue is
a stub per the spec non-goals. -/
def m68ki_read_imm_32 (m : M68KState) : M68KState × Nat :=
  let hi := m68ki_read_16 m m.pc
  let lo := m68ki_read_16 m ((m.pc + 2) % 4294967296)
  ({ m with pc := (m.pc + 4) % 4294967296 }, (hi <<< 16) ||| lo)

/-- Modelled from the spec: m68ki_read_imm_16 (m68kcpu.h, not among the
sources) reads a 16-bit value at PC through the 16-bit data interface
and advances PC by 2; the prefetch queue is a stub per the spec
non-goals. -/
def m68ki_read_imm_16 (m : M68KState) : M68KState × Nat :=
  ({ m with pc := (m.pc + 2) % 4294967296 }, m68ki_read_16 m m.pc)

/-- The main loop of m68k_cpu_execute (part_000 lines 682 to 714): while
current_cycle < target_cycle, apply the T1 trace hook, latch PPC, return
to the normal run mode, fetch the instruction word into ir, dispatch the
jump_table handler for it, charge cyc_instruction[ir] (uint32 addition)
and apply the trace-exception hook.  The m68kcpu.h trace hooks (trace1,
trace_ex) and the generated jump_table handlers are not among the
sources; like the host callbacks of the Z80 core they are function
parameters.  Fuel bounds the loop; none means the fuel ran out, never
that the C code stops. -/
def m68k_cpu_execute_loop (trace1 trace_ex : M68KState → M68KState)
    (handler : Nat → M68KState → M68KState) : Nat → M68KState → Option M68KState
  | 0, _ => none
  | Nat.succ fuel, m =>
    if m.current_cycle < m.target_cycle then
      let m := trace1 m
      let m := { m with ppc := m.pc }
      let m := { m with run_mode := RUN_MODE_NORMAL }
      let p := m68ki_read_imm_16 m
      let m := { p.1 with ir := p.2 }
      let m := handler m.ir m
      let m := { m with current_cycle := (m.current_cycle + m.cyc_instruction m.ir) % 4294967296 }
      let m := trace_ex m
      m68k_cpu_execute_loop trace1 trace_ex handler fuel m
    else some m

/-- m68k_cpu_execute (part_000 lines 634 to 720): check pending
interrupts, then either run the main instruction loop (when not
stopped) and latch PPC, or fast-forward current_cycle to target_cycle
(when stopped and short of the deadline); finally publish the status
byte.  The m68kcpu.h helpers m68ki_check_interrupts and m68ki_get_sr
are not among the sources and are function parameters, like the trace
hooks and handlers of the loop. -/
def m68k_cpu_execute (check_ints trace1 trace_ex : M68KState → M68KState)
    (handler : Nat → M68KState → M68KState) (get_sr : M68KState → Nat)
    (fuel : Nat) (m : M68KState) : Option M68KState :=
  let m := check_ints m
  if m.stopped = 0 then
    match m68k_cpu_execute_loop trace1 trace_ex handler fuel m with
    | none => none
    | some m =>
      let m := { m with ppc := m.pc }
      some { m with status := get_sr m >>> 8 }
  else
    let m :=
      if m.current_cycle < m.target_cycle then { m with current_cycle := m.target_cycle }
      else m
    some { m with status := get_sr m >>> 8 }

/-- m68k_reset_cpu (part_000 lines 743 to 768): clear the stop levels,
enter the reset run mode, set supervisor mode with M cleared, reset the
prefetch address, load SP then PC from the vectors at 0 and 4, return to
the normal run mode, and charge cyc_exception[EXCEPTION_RESET]. -/
def m68k_reset_cpu (m : M68KState) : M68KState :=
  let m := { m with stopped := 0 }
  let m := { m with run_mode := RUN_MODE_BERR_AERR_RESET }
  let m := m68ki_set_sm_flag m (SFLAG_SET ||| MFLAG_CLEAR)
  let m := { m with pref_addr := 0x1000 }
  let m := m68ki_jump m 0
  let p1 := m68ki_read_imm_32 m
  let m := { p1.1 with sp := p1.2 }
  let p2 := m68ki_read_imm_32 m
  let m := { p2.1 with pc := p2.2 }
  let m := m68ki_jump m m.pc
  let m := { m with run_mode := RUN_MODE_NORMAL }
  { m with current_cycle := (m.current_cycle + m.cyc_exception EXCEPTION_RESET) % 4294967296 }

/-- One iteration of the fast-pointer population loop of
m68k_init_cpu_m68000 (part_000 lines 862 to 880) for the 64 KiB page at
`address`: the slot stays null unless the first matching chunk covers
the whole page, has neither ONLY_ODD nor ONLY_EVEN, names a buffer, and
get_native_pointer yields a pointer; READ fills the read slot, WRITE
the write slot.  The byte pointer is recorded as a word offset (the
store/load sites cast it to uint16_t*).  Each iteration writes only its
own page slot, so the loop is translated pointwise. -/
def m68k_install_page (memmap : List Backend.memmap_chunk) (mem_pointers : Nat → Option Nat)
    (address : Nat) : Option (Nat × Nat) × Option (Nat × Nat) :=
  match Backend.find_map_chunk address memmap with
  | none => (none, none)
  | some chunk =>
    if chunk.stop < address + 65536 ∨
       chunk.flags &&& (Backend.MMAP_ONLY_ODD ||| Backend.MMAP_ONLY_EVEN) ≠ 0 ∨
       chunk.buffer = none then (none, none)
    else
      match Backend.get_native_pointer address mem_pointers memmap with
      | none => (none, none)
      | some ptr =>
        ((if chunk.flags &&& Backend.MMAP_READ ≠ 0 then some (ptr.1, ptr.2 >>> 1) else none),
         (if chunk.flags &&& Backend.MMAP_WRITE ≠ 0 then some (ptr.1, ptr.2 >>> 1) else none))

/-- The read_pointers table produced by the loop of
m68k_init_cpu_m68000 over the 384 pages of the 24 MiB space. -/
def m68k_init_read_pointers (memmap : List Backend.memmap_chunk)
    (mem_pointers : Nat → Option Nat) (page : Nat) : Option (Nat × Nat) :=
  if page < 384 then (m68k_install_page memmap mem_pointers (page * 65536)).1 else none

/-- The write_pointers table produced by the same loop. -/
def m68k_init_write_pointers (memmap : List Backend.memmap_chunk)
    (mem_pointers : Nat → Option Nat) (page : Nat) : Option (Nat × Nat) :=
  if page < 384 then (m68k_install_page memmap mem_pointers (page * 65536)).2 else none

end M68K
namespace Spec

/-- The reference recipe's signed reading of a byte (two's complement). -/
def toSigned8 (x : Nat) : Int :=
  if x % 256 < 128 then (x % 256 : Int) else (x % 256 : Int) - 256

/-- The reference flag byte for an 8-bit addition a + b + carry: SF is
bit 7 of the 8-bit result, ZF is set iff the result is zero, YF and XF
are bits 5 and 3 of the result, HF is the carry out of bit 3, VF the
signed overflow and CF the carry out of bit 7.  The seven fields occupy
disjoint bits (0x80, 0x40, 0x20, 0x10, 0x08, 0x04, 0x01), so their sum
is the flag byte. -/
def referenceAddFlags (a b c : Nat) : Nat :=
  let r := (a + b + c) % 256
  (if r / 128 % 2 = 1 then 128 else 0)
  + (if r = 0 then 64 else 0)
  + (if r / 32 % 2 = 1 then 32 else 0)
  + (if 16 ≤ a % 16 + b % 16 + c then 16 else 0)
  + (if r / 8 % 2 = 1 then 8 else 0)
  + (if toSigned8 a + toSigned8 b + c < -128 ∨ 127 < toSigned8 a + toSigned8 b + c then 4 else 0)
  + (if 256 ≤ a + b + c then 1 else 0)

/-- The largest per-opcode T-state deduction in the global cycle count
tables of z80.c (the spec's "maximum cycle cost of a single opcode", in
T-states; host cycles are T-states times the clock divider).  The value
23 is the DD CB row; z80_cc_tables_le_max proves that every entry of all
six tables is bounded by it. -/
def z80_max_opcode_cost : Nat := 23

/-- A zeroed Z80 context pointing at the global cycle tables: every
register, latch and log is zero / empty and both fast-pointer tables are
all null. -/
def z80base : Z80.Z80State where
  m_prvpc := ⟨0⟩
  m_pc := ⟨0⟩
  m_sp := ⟨0⟩
  m_af := ⟨0⟩
  m_bc := ⟨0⟩
  m_de := ⟨0⟩
  m_hl := ⟨0⟩
  m_ix := ⟨0⟩
  m_iy := ⟨0⟩
  m_wz := ⟨0⟩
  m_af2 := ⟨0⟩
  m_bc2 := ⟨0⟩
  m_de2 := ⟨0⟩
  m_hl2 := ⟨0⟩
  m_r := 0
  m_r2 := 0
  m_iff1 := 0
  m_iff2 := 0
  m_halt := 0
  m_im := 0
  m_i := 0
  m_nmi_state := 0
  m_nmi_pending := 0
  m_irq_state := 0
  m_wait_state := 0
  busreq := 0
  busack := 0
  reset := 0
  m_after_ei := 0
  m_after_ldair := 0
  m_ea := 0
  m_icount := 0
  current_cycle := 0
  nmi_start := 0
  int_pulse_start := 0
  int_pulse_end := 0
  im2_vector := 0
  m_cc_op := Z80.cc_op
  m_cc_cb := Z80.cc_cb
  m_cc_ed := Z80.cc_ed
  m_cc_xy := Z80.cc_xy
  m_cc_xycb := Z80.cc_xycb
  m_cc_ex := Z80.cc_ex
  read_pointers := fun _ => none
  write_pointers := fun _ => none
  bufs := fun _ _ => 0
  slow_read := fun _ => 0
  io_in := fun _ => 0
  io_address_mask := 0
  clock_divider := 1
  wlog := []
  iolog := []

/-- A context whose cycle counter is already past the deadline 0: the
early-return branch of z80_run then leaves current_cycle at 1000. -/
def sC1 : Z80.Z80State := { z80base with current_cycle := 1000 }

/-- A fresh context that executes NOPs from the all-zero slow-read
oracle (both pointer tables are null). -/
def sC1w : Z80.Z80State := z80base

/-- The context after running sC1w to deadline 4. -/
def sC1wrun : Z80.Z80State := (Z80.z80_run none sC1w 4 10).getD z80base

/-- A zeroed 68k context: all pointer-table entries null, word buffers
and oracles zero. -/
def m68kbase : M68K.M68KState where
  pc := 0
  ppc := 0
  sp := 0
  ir := 0
  status := 0
  s_flag := 0
  m_flag := 0
  t1_flag := 0
  t0_flag := 0
  int_mask := 0
  stopped := 0
  run_mode := 0
  pref_addr := 0
  current_cycle := 0
  target_cycle := 0
  cyc_exception := fun _ => 0
  cyc_instruction := fun _ => 0
  read_pointers := fun _ => none
  write_pointers := fun _ => none
  bufs16 := fun _ _ => 0
  slow_read := fun _ => 0
  slowlog := []

/-- A running (not stopped) 68k context with deadline 20 whose
instructions all cost 10 cycles: m68k_cpu_execute executes two
instructions and stops at cycle 20. -/
def mW1 : M68K.M68KState :=
  { m68kbase with target_cycle := 20, cyc_instruction := fun _ => 10,
                  read_pointers := fun p => if p = 0 then some (0, 0) else none }

/-- The mW1 context after m68k_cpu_execute with identity hooks and
handlers. -/
def rM1 : M68K.M68KState :=
  (M68K.m68k_cpu_execute id id id (fun _ s => s) (fun _ => 0) 5 mW1).getD m68kbase

/-- A 68k context whose page 0 has distinct read and write fast
pointers: reads go to buffer 0, writes are declared to go to buffer 1. -/
def sC2 : M68K.M68KState :=
  { m68kbase with
    read_pointers := fun p => if p = 0 then some (0, 0) else none,
    write_pointers := fun p => if p = 0 then some (1, 0) else none }

/-- A 68k context whose page 0 is writable through the fast table but
has a null read pointer. -/
def sC2n : M68K.M68KState :=
  { m68kbase with
    write_pointers := fun p => if p = 0 then some (1, 0) else none }

/-- A 68k context carrying nonzero trace bits, interrupt mask and stop
level, with the reset vectors SP = 0x00FFFFFE and PC = 0x00000400 in the
words of buffer 0. -/
def sC3 : M68K.M68KState :=
  { m68kbase with
    t1_flag := 0x80, t0_flag := 0x40, int_mask := 0x300, stopped := 3, run_mode := 1,
    current_cycle := 10,
    cyc_exception := fun v => if v = 0 then 132 else 4,
    read_pointers := fun p => if p = 0 then some (0, 0) else none,
    bufs16 := fun b i =>
      if b = 0 ∧ i = 0 then 0x00ff
      else if b = 0 ∧ i = 1 then 0xfffe
      else if b = 0 ∧ i = 3 then 0x0400
      else 0 }

/-- The sC3 context after m68k_reset_cpu. -/
def rC3 : M68K.M68KState := M68K.m68k_reset_cpu sC3

/-- A halted Z80 context with the reset line latched and nonzero PC, I,
R, R2 and interrupt flip flops. -/
def sC4 : Z80.Z80State :=
  { z80base with reset := 1, m_halt := 1, m_pc := ⟨0x1234⟩, m_i := 5, m_r := 66,
                 m_r2 := 3, m_iff1 := 1, m_iff2 := 1 }

/-- The sC4 context after z80_clear_reset at cycle 0. -/
def rC4 : Z80.Z80State := (Z80.z80_clear_reset none sC4 0 1).getD z80base

/-- A Z80 context with latched timestamps: nmi_start 100, an interrupt
pulse window [200, 300] and current_cycle 500. -/
def sC5 : Z80.Z80State :=
  { z80base with nmi_start := 100, current_cycle := 500,
                 int_pulse_start := 200, int_pulse_end := 300 }

/-- A Z80 context with PC = 0x1234, to be serialized. -/
def sC6 : Z80.Z80State := { z80base with m_pc := ⟨0x1234⟩ }

/-- A memory map with a single RAM chunk that carries the ONLY_ODD
restriction. -/
def mapC7 : List Backend.memmap_chunk :=
  [{ start := 0, stop := 65536, address_mask := 0x1FFF,
     flags := Backend.MMAP_READ ||| Backend.MMAP_WRITE ||| Backend.MMAP_ONLY_ODD,
     ptr_index := 0, buffer := some 0 }]

/-- Z80 options over mapC7. -/
def optsC7 : Z80.z80_options :=
  { memmap := mapC7, clock_divider := 1, io_address_mask := 0xFF }

/-- A plain RAM chunk for the Z80 witness: readable and writable,
covering the address space, no restriction flags. -/
def chW7z : Backend.memmap_chunk :=
  { start := 0, stop := 65536, address_mask := 0x1FFF,
    flags := Backend.MMAP_READ ||| Backend.MMAP_WRITE, ptr_index := 0, buffer := some 0 }

/-- A plain RAM map for the Z80 witness. -/
def mapW7z : List Backend.memmap_chunk := [chW7z]

/-- Z80 options over mapW7z. -/
def optsW7 : Z80.z80_options :=
  { memmap := mapW7z, clock_divider := 1, io_address_mask := 0xFF }

/-- A plain RAM chunk for the 68k witness: readable and writable,
covering the 24-bit space, no restriction flags. -/
def chW7m : Backend.memmap_chunk :=
  { start := 0, stop := 16777216, address_mask := 0xFFFF,
    flags := Backend.MMAP_READ ||| Backend.MMAP_WRITE, ptr_index := 0, buffer := some 1 }

/-- A plain RAM map for the 68k witness. -/
def mapW7m : List Backend.memmap_chunk := [chW7m]

/-- A Z80 context over RAM pages whose program starts with opcode 0x70
(LD (HL),B) with HL = 0x2000 and B = 0x55: its first instruction writes
0x55 to memory. -/
def sC9base : Z80.Z80State :=
  { z80base with
    m_hl := ⟨0x2000⟩, m_bc := ⟨0x5500⟩,
    read_pointers := fun p => if p < 8 then some (0, p * 8192) else none,
    write_pointers := fun p => if p < 8 then some (0, p * 8192) else none,
    bufs := fun b i => if b = 0 ∧ i = 0 then 0x70 else 0 }

/-- The sC9base context after z80_assert_busreq at cycle 1000. -/
def sC9 : Z80.Z80State := Z80.z80_assert_busreq sC9base 1000

/-- The frozen context after z80_run to deadline 2000. -/
def rC9 : Z80.Z80State := (Z80.z80_run none sC9 2000 20).getD z80base

/-- A Z80 context with busack latched (the bus is already handed
over), carrying a sentinel write log entry. -/
def sW9 : Z80.Z80State := { z80base with busack := 1, wlog := [(7, 7)] }

/-- A Z80 context with distinct read and write fast pointers on the
top page 7 and the bottom page 0, and a recognisable byte pattern in the
buffers. -/
def zW10 : Z80.Z80State :=
  { z80base with
    read_pointers := fun p =>
      if p = 7 then some (2, 100) else if p = 0 then some (3, 200) else none,
    write_pointers := fun p =>
      if p = 7 then some (4, 300) else if p = 0 then some (5, 400) else none,
    bufs := fun b i => (b * 7 + i) % 256 }

/-- The 16-bit value 0xA55A (low byte 0x5A, high byte 0xA5) as a PAIR. -/
def pW10 : Z80.Pair := ⟨0xA55A⟩

end Spec
/-!
Helper lemmas: bit-level arithmetic bridges used by the flag-table and
memory-map theorems, and the exit shape of the z80_run instruction loop.
-/

/-- Disjoint bitwise or coincides with addition. -/
theorem lor_eq_add (x : Nat) : ∀ y : Nat, x &&& y = 0 → x ||| y = x + y := by
  induction x using Nat.binaryRec with
  | z => intro y h; simp
  | f b n ih =>
    intro y h
    induction y using Nat.bitCasesOn with
    | h b2 m =>
      rw [Nat.land_bit] at h
      obtain ⟨hm, hb⟩ := Nat.bit_eq_zero_iff.mp h
      rw [Nat.lor_bit, ih m hm, Nat.bit_val, Nat.bit_val, Nat.bit_val]
      cases b <;> cases b2 <;> simp_all <;> omega

/-- Masking with 128 extracts bit 7. -/
theorem and128 (x : Nat) : x &&& 128 = (if x / 128 % 2 = 1 then 128 else 0) := by
  have h : (128 : Nat) = 2 ^ 7 := by norm_num
  rw [h, Nat.and_two_pow, Nat.testBit_to_div_mod]
  rcases Nat.mod_two_eq_zero_or_one (x / 2 ^ 7) with h2 | h2 <;> (norm_num at h2; simp [h2])

/-- Masking with 32 extracts bit 5. -/
theorem and32 (x : Nat) : x &&& 32 = (if x / 32 % 2 = 1 then 32 else 0) := by
  have h : (32 : Nat) = 2 ^ 5 := by norm_num
  rw [h, Nat.and_two_pow, Nat.testBit_to_div_mod]
  rcases Nat.mod_two_eq_zero_or_one (x / 2 ^ 5) with h2 | h2 <;> (norm_num at h2; simp [h2])

/-- Masking with 8 extracts bit 3. -/
theorem and8 (x : Nat) : x &&& 8 = (if x / 8 % 2 = 1 then 8 else 0) := by
  have h : (8 : Nat) = 2 ^ 3 := by norm_num
  rw [h, Nat.and_two_pow, Nat.testBit_to_div_mod]
  rcases Nat.mod_two_eq_zero_or_one (x / 2 ^ 3) with h2 | h2 <;> (norm_num at h2; simp [h2])

/-- Masking with 40 extracts bits 5 and 3. -/
theorem and40 (x : Nat) :
    x &&& 40 = (if x / 32 % 2 = 1 then 32 else 0) ||| (if x / 8 % 2 = 1 then 8 else 0) := by
  have h : (40 : Nat) = 32 ||| 8 := by decide
  rw [h, Nat.and_or_distrib_left, and32, and8]

/-- Masking with 255 is reduction mod 256. -/
theorem and255 (x : Nat) : x &&& 255 = x % 256 := by
  have h := Nat.and_pow_two_sub_one_eq_mod x 8
  norm_num at h
  exact h

/-- Masking with 15 is reduction mod 16. -/
theorem and15 (x : Nat) : x &&& 15 = x % 16 := by
  have h := Nat.and_pow_two_sub_one_eq_mod x 4
  norm_num at h
  exact h

/-- Bit 7 of an exclusive or is the sum of the bits mod 2. -/
theorem xor_bit7 (u v : Nat) :
    (u ^^^ v) / 128 % 2 = (u / 128 % 2 + v / 128 % 2) % 2 := by
  have h := Nat.testBit_xor u v 7
  simp only [Nat.testBit_to_div_mod] at h
  have e : (2 : Nat) ^ 7 = 128 := by norm_num
  rw [e] at h
  rcases Nat.mod_two_eq_zero_or_one (u / 128) with h1 | h1 <;>
    rcases Nat.mod_two_eq_zero_or_one (v / 128) with h2 | h2 <;>
      rcases Nat.mod_two_eq_zero_or_one ((u ^^^ v) / 128) with h3 | h3 <;>
        simp_all

/-- A conjunction of bits: (u &&& v) &&& 128 is nonzero exactly when bit
7 is set in both operands. -/
theorem and_bit7_ne (u v : Nat) :
    ((u &&& v) &&& 128 ≠ 0) ↔ (u / 128 % 2 = 1 ∧ v / 128 % 2 = 1) := by
  have h : ((u &&& v) &&& 128 ≠ 0) ↔ (u &&& v) / 128 % 2 = 1 := by
    rw [and128]
    rcases Nat.mod_two_eq_zero_or_one ((u &&& v) / 128) with h2 | h2 <;> simp [h2]
  rw [h]
  have hb := Nat.testBit_and u v 7
  simp only [Nat.testBit_to_div_mod] at hb
  have e : (2 : Nat) ^ 7 = 128 := by norm_num
  rw [e] at hb
  rcases Nat.mod_two_eq_zero_or_one (u / 128) with h1 | h1 <;>
    rcases Nat.mod_two_eq_zero_or_one (v / 128) with h2 | h2 <;>
      rcases Nat.mod_two_eq_zero_or_one ((u &&& v) / 128) with h3 | h3 <;>
        simp_all

/-- A byte masked with 128 is nonzero exactly when bit 7 is set. -/
theorem and128_ne (x : Nat) : (x &&& 128 ≠ 0) ↔ x / 128 % 2 = 1 := by
  rw [and128]
  rcases Nat.mod_two_eq_zero_or_one (x / 128) with h2 | h2 <;> simp [h2]

/-- The (carry, operand, result) index is the positional value carry *
65536 + operand * 256 + result. -/
theorem concat_idx (c a r : Nat) (ha : a < 256) (hr : r < 256) :
    (c <<< 16) ||| (a <<< 8) ||| r = c * 65536 + (a * 256 + r) := by
  have h1 : a <<< 8 ||| r = 2 ^ 8 * a + r := by
    rw [Nat.shiftLeft_eq, Nat.mul_comm]
    exact (Nat.mul_add_lt_is_or (by omega) a).symm
  have h3 : c <<< 16 ||| (2 ^ 8 * a + r) = 2 ^ 16 * c + (2 ^ 8 * a + r) := by
    rw [Nat.shiftLeft_eq, Nat.mul_comm]
    exact (Nat.mul_add_lt_is_or (by omega) c).symm
  rw [Nat.lor_assoc, h1, h3]
  omega

/-- Concatenating a high word by shift-or is positional arithmetic. -/
theorem concat16 (x y : Nat) (hy : y < 65536) : x <<< 16 ||| y = x * 65536 + y := by
  calc x <<< 16 ||| y = 2 ^ 16 * x ||| y := by rw [Nat.shiftLeft_eq, Nat.mul_comm]
    _ = 2 ^ 16 * x + y := (Nat.mul_add_lt_is_or (by omega) x).symm
    _ = x * 65536 + y := by omega

/-- The no-carry half of the SZHVC_add table matches the reference
recipe entry-wise. -/
theorem szhvc_add0_entry (a b : Nat) (ha : a < 256) (hb : b < 256) :
    Z80.szhvcAdd0 a ((a + b) % 256) = Spec.referenceAddFlags a b 0 := by
  have hval : ((a + b) % 256 + 512 - a) % 256 = b := by omega
  unfold Z80.szhvcAdd0 Spec.referenceAddFlags
  simp only [Z80.CF, Z80.NF, Z80.PF, Z80.VF, Z80.XF, Z80.HF, Z80.YF, Z80.ZF, Z80.SF,
    Nat.add_zero, Nat.cast_zero, add_zero]
  set r := (a + b) % 256 with hr
  have hYX : (0x20 ||| 0x08 : Nat) = 40 := by decide
  rw [hval, hYX, and40, and15, and15]
  have hvf : ((b ^^^ a ^^^ 0x80) &&& (b ^^^ r) &&& 0x80 ≠ 0) ↔
      ((b / 128 % 2 + a / 128 % 2) % 2 = 0 ∧ (b / 128 % 2 + r / 128 % 2) % 2 = 1) := by
    rw [and_bit7_ne]
    simp only [xor_bit7]
    norm_num
    omega
  have hsf : (r &&& 0x80 ≠ 0) ↔ r / 128 % 2 = 1 := and128_ne r
  have hh : (16 ≤ a % 16 + b % 16) ↔ (r % 16 < a % 16) := by omega
  have hcy : (256 ≤ a + b) ↔ (r < a) := by omega
  have hvs : (Spec.toSigned8 a + Spec.toSigned8 b < -128 ∨
      127 < Spec.toSigned8 a + Spec.toSigned8 b) ↔
      ((b / 128 % 2 + a / 128 % 2) % 2 = 0 ∧ (b / 128 % 2 + r / 128 % 2) % 2 = 1) := by
    unfold Spec.toSigned8
    rw [Nat.mod_eq_of_lt ha, Nat.mod_eq_of_lt hb]
    split_ifs with h1 h2 h2 <;> omega
  simp only [hvf, hsf, hh, hcy, hvs]
  split_ifs <;> first | decide | omega

/-- The carry half of the SZHVC_add table matches the reference recipe
entry-wise. -/
theorem szhvc_add1_entry (a b : Nat) (ha : a < 256) (hb : b < 256) :
    Z80.szhvcAdd1 a ((a + b + 1) % 256) = Spec.referenceAddFlags a b 1 := by
  have hval : ((a + b + 1) % 256 + 512 - a - 1) % 256 = b := by omega
  unfold Z80.szhvcAdd1 Spec.referenceAddFlags
  simp only [Z80.CF, Z80.NF, Z80.PF, Z80.VF, Z80.XF, Z80.HF, Z80.YF, Z80.ZF, Z80.SF,
    Nat.cast_one]
  set r := (a + b + 1) % 256 with hr
  have hYX : (0x20 ||| 0x08 : Nat) = 40 := by decide
  rw [hval, hYX, and40, and15, and15]
  have hvf : ((b ^^^ a ^^^ 0x80) &&& (b ^^^ r) &&& 0x80 ≠ 0) ↔
      ((b / 128 % 2 + a / 128 % 2) % 2 = 0 ∧ (b / 128 % 2 + r / 128 % 2) % 2 = 1) := by
    rw [and_bit7_ne]
    simp only [xor_bit7]
    norm_num
    omega
  have hsf : (r &&& 0x80 ≠ 0) ↔ r / 128 % 2 = 1 := and128_ne r
  have hh : (16 ≤ a % 16 + b % 16 + 1) ↔ (r % 16 ≤ a % 16) := by omega
  have hcy : (256 ≤ a + b + 1) ↔ (r ≤ a) := by omega
  have hvs : (Spec.toSigned8 a + Spec.toSigned8 b + 1 < -128 ∨
      127 < Spec.toSigned8 a + Spec.toSigned8 b + 1) ↔
      ((b / 128 % 2 + a / 128 % 2) % 2 = 0 ∧ (b / 128 % 2 + r / 128 % 2) % 2 = 1) := by
    unfold Spec.toSigned8
    rw [Nat.mod_eq_of_lt ha, Nat.mod_eq_of_lt hb]
    split_ifs with h1 h2 h2 <;> omega
  simp only [hvf, hsf, hh, hcy, hvs]
  split_ifs <;> first | decide | omega

/-- Every successful exit of the z80_run instruction loop leaves a
non-positive T-state budget and a cycle counter deduced from it, exactly
as the loop epilogue computes it. -/
theorem z80_run_body_exit (nip : Option (Z80.Z80State → Z80.Z80State)) (t : Nat) :
    ∀ fuel z ii s2, Z80.z80_run_body nip t fuel z ii = some s2 →
      s2.m_icount ≤ 0 ∧
      s2.current_cycle = Z80.u32i ((t : Int) - s2.m_icount * (s2.clock_divider : Int)) := by
  intro fuel
  induction fuel with
  | zero => intro z ii s2 h; simp [Z80.z80_run_body] at h
  | succ fuel ih =>
    intro z ii s2 h
    have key : ∀ (o : Option Z80.Z80State) (ii2 : Int),
        (match o with
         | none => none
         | some z =>
           let z := if z.busreq ≠ 0 then { z with busack := 1, m_icount := 0 } else z
           if 0 < z.m_icount then Z80.z80_run_body nip t fuel z ii2
           else
             let cc := Z80.u32i ((t : Int) - z.m_icount * (z.clock_divider : Int))
             some { z with current_cycle := cc }) = some s2 →
        s2.m_icount ≤ 0 ∧
        s2.current_cycle = Z80.u32i ((t : Int) - s2.m_icount * (s2.clock_divider : Int)) := by
      intro o ii2 hk
      match o with
      | none => exact Option.noConfusion hk
      | some z3 =>
        dsimp only at hk
        by_cases hbr : z3.busreq ≠ 0
        · rw [if_pos hbr] at hk
          rw [if_neg (by dsimp only; omega)] at hk
          rw [Option.some_inj] at hk
          subst hk
          exact ⟨Int.le_refl 0, rfl⟩
        · rw [if_neg hbr] at hk
          by_cases hic : 0 < z3.m_icount
          · rw [if_pos hic] at hk
            exact ih _ _ _ hk
          · rw [if_neg hic] at hk
            rw [Option.some_inj] at hk
            subst hk
            exact ⟨by dsimp only; omega, rfl⟩
    simp only [Z80.z80_run_body] at h
    exact key _ _ h

/-- The Z80 half of the deadline guarantee: whenever z80_run returns,
current_cycle is at least the deadline (under the no-uint32-overflow
side conditions of the cycle arithmetic). -/
theorem z80_run_ge_deadline (nip : Option (Z80.Z80State → Z80.Z80State))
    (z : Z80.Z80State) (t fuel : Nat) (s2 : Z80.Z80State)
    (h : Z80.z80_run nip z t fuel = some s2) (ht : t < 4294967296)
    (hov : t + (- s2.m_icount).toNat * s2.clock_divider < 4294967296) :
    t ≤ s2.current_cycle := by
  have hmod : t % 4294967296 = t := Nat.mod_eq_of_lt ht
  simp only [Z80.z80_run, hmod] at h
  split at h
  · rw [Option.some_inj] at h
    subst h
    exact Nat.le_refl t
  · split at h
    · rw [Option.some_inj] at h
      subst h
      omega
    · obtain ⟨h1, h2⟩ := z80_run_body_exit nip t fuel _ _ _ h
      rw [h2]
      unfold Z80.u32i
      have he : ((t : Int) - s2.m_icount * (s2.clock_divider : Int)) =
          ((t + (- s2.m_icount).toNat * s2.clock_divider : Nat) : Int) := by
        have hq : (((- s2.m_icount).toNat : Int)) = - s2.m_icount := by omega
        push_cast
        rw [hq]
        ring
      rw [he]
      generalize hM : t + (- s2.m_icount).toNat * s2.clock_divider = M at hov ⊢
      omega

/-- The 68k half of the deadline guarantee, at the instruction loop:
whatever the abstract trace hooks and handlers do, as long as they
preserve target_cycle, a successful exit of the m68k_cpu_execute main
loop preserves target_cycle and leaves current_cycle at or past it (the
loop guard has just failed). -/
theorem m68k_execute_loop_exit (trace1 trace_ex : M68K.M68KState → M68K.M68KState)
    (handler : Nat → M68K.M68KState → M68K.M68KState)
    (ht1 : ∀ s, (trace1 s).target_cycle = s.target_cycle)
    (htex : ∀ s, (trace_ex s).target_cycle = s.target_cycle)
    (hh : ∀ i s, (handler i s).target_cycle = s.target_cycle) :
    ∀ fuel m m2, M68K.m68k_cpu_execute_loop trace1 trace_ex handler fuel m = some m2 →
      m2.target_cycle = m.target_cycle ∧ m2.target_cycle ≤ m2.current_cycle := by
  intro fuel
  induction fuel with
  | zero => intro m m2 h; simp [M68K.m68k_cpu_execute_loop] at h
  | succ fuel ih =>
    intro m m2 h
    simp only [M68K.m68k_cpu_execute_loop] at h
    split at h
    · obtain ⟨e1, e2⟩ := ih _ _ h
      refine ⟨?_, e2⟩
      rw [e1]
      simp [htex, hh, ht1, M68K.m68ki_read_imm_16]
    · rw [Option.some_inj] at h
      subst h
      exact ⟨rfl, by omega⟩

/-- C1 (amended): both run-to-deadline entry points reach their
deadline.  Whenever z80_run returns, current_cycle is at least the
deadline t (under the no-uint32-overflow side conditions of its cycle
arithmetic); whenever m68k_cpu_execute returns — with the m68kcpu.h
hooks and the jump_table handlers abstracted as target_cycle-preserving
transformers — current_cycle is at least the entry target_cycle,
whether the main loop ran or the stopped branch fast-forwarded.  The
other half of the claim, an overshoot bound by the maximum opcode cost,
is refuted by z80_run_overshoot_unbounded. -/
theorem run_to_reaches_deadline (nip : Option (Z80.Z80State → Z80.Z80State))
    (z : Z80.Z80State) (t fuel : Nat) (s2 : Z80.Z80State)
    (hz : Z80.z80_run nip z t fuel = some s2) (ht : t < 4294967296)
    (hov : t + (- s2.m_icount).toNat * s2.clock_divider < 4294967296)
    (check_ints trace1 trace_ex : M68K.M68KState → M68K.M68KState)
    (handler : Nat → M68K.M68KState → M68K.M68KState) (get_sr : M68K.M68KState → Nat)
    (fuel68 : Nat) (m m2 : M68K.M68KState)
    (hci : ∀ s, (check_ints s).target_cycle = s.target_cycle)
    (ht1 : ∀ s, (trace1 s).target_cycle = s.target_cycle)
    (htex : ∀ s, (trace_ex s).target_cycle = s.target_cycle)
    (hh : ∀ i s, (handler i s).target_cycle = s.target_cycle)
    (hm : M68K.m68k_cpu_execute check_ints trace1 trace_ex handler get_sr fuel68 m =
      some m2) :
    t ≤ s2.current_cycle ∧ m.target_cycle ≤ m2.current_cycle := by
  refine ⟨z80_run_ge_deadline nip z t fuel s2 hz ht hov, ?_⟩
  simp only [M68K.m68k_cpu_execute] at hm
  split at hm
  · split at hm
    · exact absurd hm (by simp)
    next m3 heq =>
      rw [Option.some_inj] at hm
      subst hm
      obtain ⟨e1, e2⟩ := m68k_execute_loop_exit trace1 trace_ex handler ht1 htex hh
        fuel68 _ _ heq
      rw [hci] at e1
      dsimp only
      omega
  · rw [Option.some_inj] at hm
    subst hm
    dsimp only
    split
    · rw [hci]
    · have := hci m
      omega

/-- C1 witness: the Z80 context sC1w run to deadline 4 lands on it, and
the 68k context mW1 (two 10-cycle instructions against deadline 20)
exits its loop at cycle 20 — both at or past their deadlines. -/
theorem run_to_reaches_deadline_witness :
    Z80.z80_run none Spec.sC1w 4 10 = some Spec.sC1wrun ∧
    M68K.m68k_cpu_execute id id id (fun _ s => s) (fun _ => 0) 5 Spec.mW1 =
      some Spec.rM1 ∧
    Spec.mW1.target_cycle = 20 ∧ Spec.rM1.current_cycle = 20 ∧
    (4 ≤ Spec.sC1wrun.current_cycle ∧ Spec.mW1.target_cycle ≤ Spec.rM1.current_cycle) :=
  ⟨rfl, rfl, rfl, by decide,
   run_to_reaches_deadline none Spec.sC1w 4 10 Spec.sC1wrun rfl (by decide) (by decide)
     id id id (fun _ s => s) (fun _ => 0) 5 Spec.mW1 Spec.rM1
     (fun _ => rfl) (fun _ => rfl) (fun _ => rfl) (fun _ _ => rfl) rfl⟩

/-- Every entry of the six per-opcode cycle tables is bounded by
z80_max_opcode_cost. -/
theorem z80_cc_tables_le_max : ∀ o, o < 256 →
    Z80.cc_op o ≤ Spec.z80_max_opcode_cost ∧ Z80.cc_cb o ≤ Spec.z80_max_opcode_cost ∧
    Z80.cc_ed o ≤ Spec.z80_max_opcode_cost ∧ Z80.cc_xy o ≤ Spec.z80_max_opcode_cost ∧
    Z80.cc_xycb o ≤ Spec.z80_max_opcode_cost ∧ Z80.cc_ex o ≤ Spec.z80_max_opcode_cost := by
  decide

/-- C1 counterexample: a call whose deadline is already in the past
returns with an overshoot of 1000 host cycles, far above the maximum
single-opcode cost of 23 T-states, refuting the claimed bound
current_cycle - t < max_opcode_cost. -/
theorem z80_run_overshoot_unbounded :
    Z80.z80_run none Spec.sC1 0 5 = some Spec.sC1 ∧
    Spec.sC1.clock_divider = 1 ∧
    Spec.z80_max_opcode_cost = 23 ∧
    ¬ (Spec.sC1.current_cycle - 0 < Spec.z80_max_opcode_cost * Spec.sC1.clock_divider) :=
  ⟨rfl, rfl, rfl, by decide⟩

/-- C2: m68ki_write_16 tests write_pointers for null but then stores
through the read_pointers entry of the same page.  With distinct read
and write buffers on page 0, writing 0x1234 to address 0x100 mutates the
read buffer and leaves the declared write buffer untouched (the slow
path is not invoked); with a writable page whose read pointer is null,
the same store dereferences a null pointer (the none result). -/
theorem m68ki_write_16_uses_read_pointers :
    Spec.sC2.write_pointers 0 = some (1, 0) ∧
    (M68K.m68ki_write_16 Spec.sC2 0x100 0x1234).map
      (fun m => (m.bufs16 1 0x80, m.bufs16 0 0x80, m.slowlog.length)) = some (0, 0x1234, 0) ∧
    M68K.m68ki_write_16 Spec.sC2n 0x100 0x1234 = none :=
  ⟨by decide, by decide, rfl⟩

/-- C3 (amended): m68k_reset_cpu loads SP and PC from the big-endian
32-bit vectors at addresses 0 and 4, enters supervisor mode with M
cleared, clears stopped, returns to the normal run mode and charges the
reset exception cycles — but it does not touch T1, T0 or the interrupt
mask (the claimed clearing of T1/T0 and setting of I to 7 is refuted by
m68k_reset_cpu_keeps_trace_and_mask). -/
theorem m68k_reset_cpu_loads_vectors (m : M68K.M68KState) (b off : Nat)
    (h : m.read_pointers 0 = some (b, off)) :
    (M68K.m68k_reset_cpu m).sp =
      (m.bufs16 b off % 65536) * 65536 + m.bufs16 b (off + 1) % 65536 ∧
    (M68K.m68k_reset_cpu m).pc =
      (m.bufs16 b (off + 2) % 65536) * 65536 + m.bufs16 b (off + 3) % 65536 ∧
    (M68K.m68k_reset_cpu m).s_flag = 4 ∧ (M68K.m68k_reset_cpu m).m_flag = 0 ∧
    (M68K.m68k_reset_cpu m).stopped = 0 ∧
    (M68K.m68k_reset_cpu m).run_mode = M68K.RUN_MODE_NORMAL ∧
    (M68K.m68k_reset_cpu m).current_cycle =
      (m.current_cycle + m.cyc_exception M68K.EXCEPTION_RESET) % 4294967296 ∧
    (M68K.m68k_reset_cpu m).t1_flag = m.t1_flag ∧
    (M68K.m68k_reset_cpu m).t0_flag = m.t0_flag ∧
    (M68K.m68k_reset_cpu m).int_mask = m.int_mask := by
  have k0 : ((0 : Nat)) % 4294967296 = 0 := by decide
  have z1 : ((0 : Nat) &&& 16777215) = 0 := by decide
  have z2 : ((0 : Nat)) >>> 16 = 0 := by decide
  have z3 : ((0 : Nat)) >>> 1 &&& 32767 = 0 := by decide
  have a2 : ((0 : Nat) + 2) % 4294967296 = 2 := by decide
  have a4 : ((0 : Nat) + 4) % 4294967296 = 4 := by decide
  have a6 : ((4 : Nat) + 2) % 4294967296 = 6 := by decide
  have a8 : ((4 : Nat) + 4) % 4294967296 = 8 := by decide
  have d2a : ((2 : Nat) % 4294967296 &&& 16777215) = 2 := by decide
  have d4a : ((4 : Nat) % 4294967296 &&& 16777215) = 4 := by decide
  have d6a : ((6 : Nat) % 4294967296 &&& 16777215) = 6 := by decide
  have s2 : ((2 : Nat)) >>> 16 = 0 := by decide
  have s4 : ((4 : Nat)) >>> 16 = 0 := by decide
  have s6 : ((6 : Nat)) >>> 16 = 0 := by decide
  have u2 : ((2 : Nat)) >>> 1 &&& 32767 = 1 := by decide
  have u4 : ((4 : Nat)) >>> 1 &&& 32767 = 2 := by decide
  have u6 : ((6 : Nat)) >>> 1 &&& 32767 = 3 := by decide
  simp only [M68K.m68k_reset_cpu, M68K.m68ki_read_imm_32, M68K.m68ki_read_16,
    M68K.m68ki_jump, M68K.m68ki_set_sm_flag, M68K.EXCEPTION_RESET, M68K.RUN_MODE_NORMAL,
    M68K.SFLAG_SET, M68K.MFLAG_CLEAR, M68K.RUN_MODE_BERR_AERR_RESET,
    k0, z1, z2, z3, a2, a4, a6, a8, d2a, d4a, d6a, s2, s4, s6, u2, u6, u4,
    Nat.add_zero, h]
  refine ⟨?_, ?_, ?_, ?_, ?_, ?_, ?_, ?_, ?_, ?_⟩
  · first | trivial | (rw [concat16 _ _ (by omega)])
  · first | trivial |
      (rw [concat16 _ _ (by omega)]
       have hlt : (m.bufs16 b (off + 2) % 65536) * 65536 + m.bufs16 b (off + 3) % 65536 <
           4294967296 := by omega
       omega)
  · first | trivial | rfl
  · first | trivial | rfl
  · first | trivial | rfl
  · first | trivial | rfl
  · first | trivial | rfl
  · first | trivial | rfl
  · first | trivial | rfl
  · first | trivial | rfl

/-- C3 witness: resetting the sC3 context loads SP = 0x00FFFFFE and
PC = 0x400 from buffer 0 and leaves the trace bits and interrupt mask
as they were. -/
theorem m68k_reset_cpu_loads_vectors_witness :
    Spec.sC3.read_pointers 0 = some (0, 0) ∧
    ((M68K.m68k_reset_cpu Spec.sC3).sp =
      (Spec.sC3.bufs16 0 0 % 65536) * 65536 + Spec.sC3.bufs16 0 (0 + 1) % 65536 ∧
    (M68K.m68k_reset_cpu Spec.sC3).pc =
      (Spec.sC3.bufs16 0 (0 + 2) % 65536) * 65536 + Spec.sC3.bufs16 0 (0 + 3) % 65536 ∧
    (M68K.m68k_reset_cpu Spec.sC3).s_flag = 4 ∧ (M68K.m68k_reset_cpu Spec.sC3).m_flag = 0 ∧
    (M68K.m68k_reset_cpu Spec.sC3).stopped = 0 ∧
    (M68K.m68k_reset_cpu Spec.sC3).run_mode = M68K.RUN_MODE_NORMAL ∧
    (M68K.m68k_reset_cpu Spec.sC3).current_cycle =
      (Spec.sC3.current_cycle + Spec.sC3.cyc_exception M68K.EXCEPTION_RESET) % 4294967296 ∧
    (M68K.m68k_reset_cpu Spec.sC3).t1_flag = Spec.sC3.t1_flag ∧
    (M68K.m68k_reset_cpu Spec.sC3).t0_flag = Spec.sC3.t0_flag ∧
    (M68K.m68k_reset_cpu Spec.sC3).int_mask = Spec.sC3.int_mask) :=
  ⟨by decide, m68k_reset_cpu_loads_vectors Spec.sC3 0 0 (by decide)⟩

/-- C3 counterexample: after m68k_reset_cpu the interrupt mask is still
0x300 (not 7 << 8) and the trace bits T1/T0 are still set, while the
vectors were loaded correctly. -/
theorem m68k_reset_cpu_keeps_trace_and_mask :
    Spec.sC3.int_mask = 0x300 ∧ Spec.rC3.int_mask = 0x300 ∧
    ¬ Spec.rC3.int_mask = 0x700 ∧
    Spec.rC3.t1_flag = 0x80 ∧ ¬ Spec.rC3.t1_flag = 0 ∧
    Spec.rC3.t0_flag = 0x40 ∧
    Spec.rC3.sp = 0x00fffffe ∧ Spec.rC3.pc = 0x400 ∧ Spec.rC3.stopped = 0 := by
  decide

/-- C4 (amended): applying z80_clear_reset to a context whose reset
line is latched clears PC, I, R, R2 and both interrupt flip flops,
releases the reset line and lets WZ follow PC — but it leaves the halt
flag exactly as it was (the claimed clearing of halt is refuted by
z80_clear_reset_keeps_halt). -/
theorem z80_clear_reset_applies_reset_edge (nip : Option (Z80.Z80State → Z80.Z80State))
    (z : Z80.Z80State) (cycle fuel : Nat) (s2 : Z80.Z80State)
    (h : z.reset ≠ 0) (he : Z80.z80_clear_reset nip z cycle fuel = some s2) :
    Z80.PC s2 = 0 ∧ s2.m_i = 0 ∧ s2.m_r = 0 ∧ s2.m_r2 = 0 ∧ s2.m_iff1 = 0 ∧
    s2.m_iff2 = 0 ∧ s2.reset = 0 ∧ Z80.WZ s2 = 0 ∧ s2.m_halt = z.m_halt := by
  rw [Z80.z80_clear_reset, if_neg h] at he
  simp only [Z80.z80_run] at he
  rw [if_pos (Or.inr h)] at he
  dsimp only at he
  rw [Option.some_inj] at he
  subst he
  refine ⟨?_, rfl, rfl, rfl, rfl, rfl, rfl, ?_, rfl⟩
  · simp only [Z80.PC, Z80.setWZ, Z80.setPC, Z80.Pair.setW, Z80.Pair.wl]
    omega
  · simp only [Z80.WZ, Z80.setWZ, Z80.setPC, Z80.PCD, Z80.Pair.setW, Z80.Pair.wl]
    omega

/-- C4 witness: clearing the latched reset of the sC4 context zeroes
PC, I, R, R2, IFF1 and IFF2, releases reset and keeps the halt flag. -/
theorem z80_clear_reset_applies_reset_edge_witness :
    Spec.sC4.reset ≠ 0 ∧
    (Z80.PC Spec.rC4 = 0 ∧ Spec.rC4.m_i = 0 ∧ Spec.rC4.m_r = 0 ∧ Spec.rC4.m_r2 = 0 ∧
     Spec.rC4.m_iff1 = 0 ∧ Spec.rC4.m_iff2 = 0 ∧ Spec.rC4.reset = 0 ∧
     Z80.WZ Spec.rC4 = 0 ∧ Spec.rC4.m_halt = Spec.sC4.m_halt) :=
  ⟨by decide, z80_clear_reset_applies_reset_edge none Spec.sC4 0 1 Spec.rC4 (by decide) rfl⟩

/-- C4 counterexample: the halted sC4 context is still halted after
z80_clear_reset, although PC and the flip flops were cleared. -/
theorem z80_clear_reset_keeps_halt :
    Spec.sC4.m_halt = 1 ∧ (Z80.z80_clear_reset none Spec.sC4 0 1).isSome = true ∧
    Spec.rC4.m_halt = 1 ∧ Z80.PC Spec.rC4 = 0 ∧ Spec.rC4.m_iff1 = 0 := by
  decide

/-- C5 (amended): z80_adjust_cycles deducts the rebase amount from
current_cycle (clamping at zero) and from the interrupt pulse window
(invalidating a window that ends before the deduction, clamping the
start, and keeping a CYCLE_NEVER end) — but nmi_start is never
adjusted (the claimed rebasing of nmi_start is refuted by
z80_adjust_cycles_skips_nmi_start). -/
theorem z80_adjust_cycles_rebases (z : Z80.Z80State) (d : Nat) (hd : d < 4294967296) :
    (Z80.z80_adjust_cycles z d).nmi_start = z.nmi_start ∧
    (Z80.z80_adjust_cycles z d).current_cycle =
      (if z.current_cycle < d then 0 else z.current_cycle - d) ∧
    (z.int_pulse_start = Z80.CYCLE_NEVER →
      (Z80.z80_adjust_cycles z d).int_pulse_start = z.int_pulse_start ∧
      (Z80.z80_adjust_cycles z d).int_pulse_end = z.int_pulse_end) ∧
    (z.int_pulse_start ≠ Z80.CYCLE_NEVER → z.int_pulse_end < d →
      (Z80.z80_adjust_cycles z d).int_pulse_start = Z80.CYCLE_NEVER ∧
      (Z80.z80_adjust_cycles z d).int_pulse_end = Z80.CYCLE_NEVER) ∧
    (z.int_pulse_start ≠ Z80.CYCLE_NEVER → ¬ z.int_pulse_end < d →
      (Z80.z80_adjust_cycles z d).int_pulse_start =
        (if z.int_pulse_start < d then 0 else z.int_pulse_start - d) ∧
      (Z80.z80_adjust_cycles z d).int_pulse_end =
        (if z.int_pulse_end = Z80.CYCLE_NEVER then z.int_pulse_end
         else z.int_pulse_end - d)) := by
  have hdd : d % 4294967296 = d := Nat.mod_eq_of_lt hd
  simp only [Z80.z80_adjust_cycles, hdd]
  split_ifs <;> simp_all

/-- C5 witness: rebasing sC5 by 250 moves current_cycle to 250, clamps
the pulse start to 0, moves the pulse end to 50 and keeps nmi_start. -/
theorem z80_adjust_cycles_rebases_witness :
    (250 : Nat) < 4294967296 ∧
    ((Z80.z80_adjust_cycles Spec.sC5 250).nmi_start = Spec.sC5.nmi_start ∧
    (Z80.z80_adjust_cycles Spec.sC5 250).current_cycle =
      (if Spec.sC5.current_cycle < 250 then 0 else Spec.sC5.current_cycle - 250) ∧
    (Spec.sC5.int_pulse_start = Z80.CYCLE_NEVER →
      (Z80.z80_adjust_cycles Spec.sC5 250).int_pulse_start = Spec.sC5.int_pulse_start ∧
      (Z80.z80_adjust_cycles Spec.sC5 250).int_pulse_end = Spec.sC5.int_pulse_end) ∧
    (Spec.sC5.int_pulse_start ≠ Z80.CYCLE_NEVER → Spec.sC5.int_pulse_end < 250 →
      (Z80.z80_adjust_cycles Spec.sC5 250).int_pulse_start = Z80.CYCLE_NEVER ∧
      (Z80.z80_adjust_cycles Spec.sC5 250).int_pulse_end = Z80.CYCLE_NEVER) ∧
    (Spec.sC5.int_pulse_start ≠ Z80.CYCLE_NEVER → ¬ Spec.sC5.int_pulse_end < 250 →
      (Z80.z80_adjust_cycles Spec.sC5 250).int_pulse_start =
        (if Spec.sC5.int_pulse_start < 250 then 0 else Spec.sC5.int_pulse_start - 250) ∧
      (Z80.z80_adjust_cycles Spec.sC5 250).int_pulse_end =
        (if Spec.sC5.int_pulse_end = Z80.CYCLE_NEVER then Spec.sC5.int_pulse_end
         else Spec.sC5.int_pulse_end - 250))) :=
  ⟨by decide, z80_adjust_cycles_rebases Spec.sC5 250 (by decide)⟩

/-- C5 counterexample: rebasing sC5 by 60 rebases current_cycle and the
pulse window but leaves nmi_start at 100 instead of moving it to 40. -/
theorem z80_adjust_cycles_skips_nmi_start :
    Spec.sC5.nmi_start = 100 ∧ (Z80.z80_adjust_cycles Spec.sC5 60).nmi_start = 100 ∧
    ¬ (Z80.z80_adjust_cycles Spec.sC5 60).nmi_start = 40 ∧
    (Z80.z80_adjust_cycles Spec.sC5 60).current_cycle = 440 ∧
    (Z80.z80_adjust_cycles Spec.sC5 60).int_pulse_start = 140 := by
  decide

/-- C6: z80_serialize and z80_deserialize have empty bodies, so the
round trip records nothing: serializing the context with PC = 0x1234
produces an empty buffer and deserializing it into a fresh context
leaves that context unchanged, with PC 0 instead of 0x1234 — the
round-tripped context cannot reproduce the original's PC trace. -/
theorem z80_serialize_roundtrip_loses_state :
    Z80.z80_serialize Spec.sC6 [] = [] ∧
    Z80.z80_deserialize (Z80.z80_serialize Spec.sC6 []) Spec.z80base = Spec.z80base ∧
    Z80.PC Spec.sC6 = 0x1234 ∧ Z80.PC Spec.z80base = 0 :=
  ⟨rfl, rfl, by decide, by decide⟩

/-- C7 (amended): a fast-path pointer is installed only when the
matching chunk fully covers the page and names a buffer; on the Z80 the
install loop additionally requires the absence of PTR_IDX (but ignores
ONLY_ODD / ONLY_EVEN, see z80_install_ignores_only_odd), while the 68k
loop requires the absence of ONLY_ODD and ONLY_EVEN (but tolerates
PTR_IDX chunks). -/
theorem fast_path_install_guards (opts : Z80.z80_options)
    (memmap68 : List Backend.memmap_chunk) (mp : Nat → Option Nat)
    (pg1 pg2 : Nat) (ch1 ch2 : Backend.memmap_chunk)
    (h1 : (Z80.init_z80_context opts).read_pointers pg1 ≠ none ∨
          (Z80.init_z80_context opts).write_pointers pg1 ≠ none)
    (he1 : Backend.find_map_chunk (pg1 * 8192) opts.memmap = some ch1)
    (h2 : M68K.m68k_init_read_pointers memmap68 mp pg2 ≠ none ∨
          M68K.m68k_init_write_pointers memmap68 mp pg2 ≠ none)
    (he2 : Backend.find_map_chunk (pg2 * 65536) memmap68 = some ch2) :
    (pg1 * 8192 + 8192 ≤ ch1.stop ∧ ch1.buffer ≠ none ∧
     ch1.flags &&& Backend.MMAP_PTR_IDX = 0) ∧
    (pg2 * 65536 + 65536 ≤ ch2.stop ∧ ch2.buffer ≠ none ∧
     ch2.flags &&& (Backend.MMAP_ONLY_ODD ||| Backend.MMAP_ONLY_EVEN) = 0) := by
  constructor
  · simp only [Z80.init_z80_context] at h1
    by_cases hp : pg1 < 8
    · simp only [if_pos hp, Z80.z80_install_page, he1] at h1
      by_cases hc : ch1.stop < pg1 * 8192 + 8192 ∨
          ch1.flags &&& Backend.MMAP_PTR_IDX ≠ 0 ∨ ch1.buffer = none
      · simp [hc] at h1
      · push_neg at hc
        exact ⟨by omega, hc.2.2, hc.2.1⟩
    · simp [hp] at h1
  · simp only [M68K.m68k_init_read_pointers, M68K.m68k_init_write_pointers] at h2
    by_cases hp : pg2 < 384
    · simp only [if_pos hp, M68K.m68k_install_page, he2] at h2
      by_cases hc : ch2.stop < pg2 * 65536 + 65536 ∨
          ch2.flags &&& (Backend.MMAP_ONLY_ODD ||| Backend.MMAP_ONLY_EVEN) ≠ 0 ∨
          ch2.buffer = none
      · simp [hc] at h2
      · push_neg at hc
        exact ⟨by omega, hc.2.2, hc.2.1⟩
    · simp [hp] at h2

/-- C7 witness: over plain fully-covering RAM chunks both the Z80 and
the 68k install loops fill page 0, and the matching chunks satisfy the
guard conditions. -/
theorem fast_path_install_guards_witness :
    ((Z80.init_z80_context Spec.optsW7).read_pointers 0 ≠ none ∨
     (Z80.init_z80_context Spec.optsW7).write_pointers 0 ≠ none) ∧
    (M68K.m68k_init_read_pointers Spec.mapW7m (fun _ => none) 0 ≠ none ∨
     M68K.m68k_init_write_pointers Spec.mapW7m (fun _ => none) 0 ≠ none) ∧
    ((0 * 8192 + 8192 ≤ Spec.chW7z.stop ∧ Spec.chW7z.buffer ≠ none ∧
      Spec.chW7z.flags &&& Backend.MMAP_PTR_IDX = 0) ∧
     (0 * 65536 + 65536 ≤ Spec.chW7m.stop ∧ Spec.chW7m.buffer ≠ none ∧
      Spec.chW7m.flags &&& (Backend.MMAP_ONLY_ODD ||| Backend.MMAP_ONLY_EVEN) = 0)) :=
  ⟨Or.inl (by decide), Or.inl (by decide),
   fast_path_install_guards Spec.optsW7 Spec.mapW7m (fun _ => none) 0 0
     Spec.chW7z Spec.chW7m (Or.inl (by decide)) rfl (Or.inl (by decide)) rfl⟩

/-- C7 counterexample: the Z80 install loop fills page 0 from a chunk
that carries ONLY_ODD, refuting the claim that a pointer is installed
only when neither ONLY_ODD nor ONLY_EVEN is present. -/
theorem z80_install_ignores_only_odd :
    (Backend.find_map_chunk 0 Spec.mapC7).map
      (fun c => c.flags &&& (Backend.MMAP_ONLY_ODD ||| Backend.MMAP_ONLY_EVEN)) =
      some 16 ∧
    (Z80.init_z80_context Spec.optsC7).read_pointers 0 = some (0, 0) ∧
    (Z80.init_z80_context Spec.optsC7).write_pointers 0 = some (0, 0) := by
  decide

/-- C8: the SZHVC_add table entry indexed by carry, operand and 8-bit
result agrees with the reference flag recipe for every 8-bit a, b and
carry bit c. -/
theorem SZHVC_add_matches_reference (a b c : Nat)
    (ha : a < 256) (hb : b < 256) (hc : c < 2) :
    Z80.SZHVC_add ((c <<< 16) ||| (a <<< 8) ||| ((a + b + c) % 256)) =
      Spec.referenceAddFlags a b c := by
  have hrlt : (a + b + c) % 256 < 256 := by omega
  rw [concat_idx c a _ ha hrlt]
  interval_cases c
  · have e0 : 0 * 65536 + (a * 256 + (a + b + 0) % 256) = a * 256 + (a + b) % 256 := by
      omega
    rw [e0]
    unfold Z80.SZHVC_add
    rw [if_pos (by omega), Nat.shiftRight_eq_div_pow, and255, and255]
    have e1 : (a * 256 + (a + b) % 256) / 2 ^ 8 % 256 = a := by omega
    have e2 : (a * 256 + (a + b) % 256) % 256 = (a + b) % 256 := by omega
    rw [e1, e2]
    exact szhvc_add0_entry a b ha hb
  · have e0 : 1 * 65536 + (a * 256 + (a + b + 1) % 256) =
        65536 + (a * 256 + (a + b + 1) % 256) := by omega
    rw [e0]
    unfold Z80.SZHVC_add
    rw [if_neg (by omega), Nat.shiftRight_eq_div_pow, and255, and255]
    have e1 : (65536 + (a * 256 + (a + b + 1) % 256)) / 2 ^ 8 % 256 = a := by omega
    have e2 : (65536 + (a * 256 + (a + b + 1) % 256)) % 256 = (a + b + 1) % 256 := by omega
    rw [e1, e2]
    exact szhvc_add1_entry a b ha hb

/-- C8 witness: the table entry for a = 100, b = 200, carry 1. -/
theorem SZHVC_add_matches_reference_witness :
    (100 : Nat) < 256 ∧ (200 : Nat) < 256 ∧ (1 : Nat) < 2 ∧
    Z80.SZHVC_add ((1 <<< 16) ||| (100 <<< 8) ||| ((100 + 200 + 1) % 256)) =
      Spec.referenceAddFlags 100 200 1 :=
  ⟨by decide, by decide, by decide,
   SZHVC_add_matches_reference 100 200 1 (by decide) (by decide) (by decide)⟩

/-- C9 (amended): with busack latched, z80_run only fast-forwards the
cycle counter — the returned context is the input with current_cycle at
the deadline, so no memory write (or any other state change) happens
while the bus is handed over; z80_clear_busreq releases both busreq and
busack.  The first instruction after the bus request may still write,
see z80_busreq_first_instruction_writes. -/
theorem z80_busack_freezes_writes (nip : Option (Z80.Z80State → Z80.Z80State))
    (z : Z80.Z80State) (t fuel : Nat) (c : Nat) (h : z.busack ≠ 0) :
    Z80.z80_run nip z t fuel = some { z with current_cycle := t % 4294967296 } ∧
    (Z80.z80_clear_busreq z c).busreq = 0 ∧ (Z80.z80_clear_busreq z c).busack = 0 := by
  refine ⟨?_, rfl, rfl⟩
  simp only [Z80.z80_run]
  rw [if_pos (Or.inl h)]

/-- C9 witness: a context with busack = 1 run to deadline 123 is
returned unchanged apart from current_cycle (its write log still holds
only the sentinel entry), and z80_clear_busreq releases the bus. -/
theorem z80_busack_freezes_writes_witness :
    Spec.sW9.busack ≠ 0 ∧
    (Z80.z80_run none Spec.sW9 123 3 = some { Spec.sW9 with current_cycle := 123 % 4294967296 } ∧
     (Z80.z80_clear_busreq Spec.sW9 5).busreq = 0 ∧
     (Z80.z80_clear_busreq Spec.sW9 5).busack = 0) :=
  ⟨by decide, z80_busack_freezes_writes none Spec.sW9 123 3 5 (by decide)⟩

/-- C9 counterexample: after z80_assert_busreq the very next z80_run
call still executes one instruction before freezing — the LD (HL),B at
PC 0 writes 0x55 to address 0x2000 (visible on the write log and in the
RAM buffer), and only then busack is raised and the context
fast-forwards to the deadline. -/
theorem z80_busreq_first_instruction_writes :
    Spec.sC9.busreq = 1 ∧ Spec.sC9.wlog = [] ∧
    (Z80.z80_run none Spec.sC9 2000 20).isSome = true ∧
    Spec.rC9.wlog = [(0x2000, 0x55)] ∧
    Spec.rC9.bufs 0 8192 = 0x55 ∧
    Spec.rC9.busack = 1 ∧ Spec.rC9.current_cycle = 2000 := by
  decide

/-- C10: 16-bit Z80 memory accesses wrap at the 64 KiB boundary.  From
address 0xFFFF, rm16 reads its low byte at 0xFFFF (page 7) and its high
byte at 0x0000 (page 0); wm16 writes the low byte at 0xFFFF and the high
byte at 0x0000, touches no other buffer cell, and its write log records
exactly the two wrapped addresses. -/
theorem z80_mem16_wraps (z : Z80.Z80State) (r : Z80.Pair)
    (b1 o1 b0 o0 wb1 wo1 wb0 wo0 : Nat)
    (hr7 : z.read_pointers 7 = some (b1, o1)) (hr0 : z.read_pointers 0 = some (b0, o0))
    (hw7 : z.write_pointers 7 = some (wb1, wo1)) (hw0 : z.write_pointers 0 = some (wb0, wo0))
    (hdisj : ¬ (wb1 = wb0 ∧ wo1 + 8191 = wo0)) :
    (Z80.rm16 z 0xFFFF r).bl = z.bufs b1 (o1 + 8191) % 256 ∧
    (Z80.rm16 z 0xFFFF r).bh = z.bufs b0 o0 % 256 ∧
    (Z80.wm16 z 0xFFFF r).bufs wb1 (wo1 + 8191) = r.bl % 256 ∧
    (Z80.wm16 z 0xFFFF r).bufs wb0 wo0 = r.bh % 256 ∧
    (∀ b i, ¬ (b = wb1 ∧ i = wo1 + 8191) → ¬ (b = wb0 ∧ i = wo0) →
      (Z80.wm16 z 0xFFFF r).bufs b i = z.bufs b i) ∧
    (Z80.wm16 z 0xFFFF r).wlog = (0, r.bh % 256) :: (65535, r.bl % 256) :: z.wlog := by
  have d0 : ((0xFFFF : Nat)) % 65536 = 65535 := by decide
  have d1 : ((65535 : Nat)) >>> 13 = 7 := by decide
  have d2 : ((65535 : Nat) &&& 8191) = 8191 := by decide
  have d3 : ((65535 : Nat) + 1) % 65536 = 0 := by decide
  have d4 : ((0 : Nat)) >>> 13 = 0 := by decide
  have d5 : ((0 : Nat) &&& 8191) = 0 := by decide
  simp only [Z80.rm16, Z80.wm16, Z80.rm, Z80.wm, Z80.updBufs,
    Z80.Pair.setBL, Z80.Pair.setBH, Z80.Pair.bl, Z80.Pair.bh,
    d0, d1, d2, d3, d4, d5, Nat.add_zero, hr7, hr0, hw7, hw0]
  refine ⟨?_, ?_, ?_, ?_, ?_, ?_⟩
  · first | trivial | omega
  · first | trivial | omega
  · first | trivial | simp [hdisj]
  · first | trivial | simp
  · first | trivial | (intro b i hib hia; simp [hia, hib])
  · first | trivial | rfl

/-- C10 witness: the wrap theorem at the concrete context zW10 and the
word 0xA55A. -/
theorem z80_mem16_wraps_witness :
    (Spec.zW10.read_pointers 7 = some (2, 100) ∧ Spec.zW10.read_pointers 0 = some (3, 200) ∧
     Spec.zW10.write_pointers 7 = some (4, 300) ∧ Spec.zW10.write_pointers 0 = some (5, 400) ∧
     ¬ ((4 : Nat) = 5 ∧ (300 : Nat) + 8191 = 400)) ∧
    ((Z80.rm16 Spec.zW10 0xFFFF Spec.pW10).bl = Spec.zW10.bufs 2 (100 + 8191) % 256 ∧
     (Z80.rm16 Spec.zW10 0xFFFF Spec.pW10).bh = Spec.zW10.bufs 3 200 % 256 ∧
     (Z80.wm16 Spec.zW10 0xFFFF Spec.pW10).bufs 4 (300 + 8191) = Spec.pW10.bl % 256 ∧
     (Z80.wm16 Spec.zW10 0xFFFF Spec.pW10).bufs 5 400 = Spec.pW10.bh % 256 ∧
     (Z80.wm16 Spec.zW10 0xFFFF Spec.pW10).bufs 9 9 = Spec.zW10.bufs 9 9 ∧
     (Z80.wm16 Spec.zW10 0xFFFF Spec.pW10).wlog =
       (0, Spec.pW10.bh % 256) :: (65535, Spec.pW10.bl % 256) :: Spec.zW10.wlog) := by
  have h := z80_mem16_wraps Spec.zW10 Spec.pW10 2 100 3 200 4 300 5 400
    (by decide) (by decide) (by decide) (by decide) (by decide)
  exact ⟨by decide, h.1, h.2.1, h.2.2.1, h.2.2.2.1,
    h.2.2.2.2.1 9 9 (by decide) (by decide), h.2.2.2.2.2⟩
